import Mathlib

/-!
Balai Almeda booking engine: the payment controller.

A shallow embedding of `server/controllers/paymentController.js` together with the
`Booking` and `Room` models it reads and writes.

Conventions of the embedding.

* Instants (`Date` values) are integers: milliseconds since the epoch.
* Monetary amounts are integers counted in centavos (hundredths of a peso).  The
  `DECIMAL(10, 2)` columns hold exactly such values, and the amount handed to the
  gateway is `Math.round(price * 100)`, the same number of centavos.  A literal
  peso amount `n` of the source is written `pesos n`.
* The SQL tables are lists in table order; `findAll` is a filter, `findOne` the
  first match, `create` appends a row with a fresh primary key.
* What the source obtains from the platform (clock, random source, string
  upper-casing, date parsing, HMAC, JSON decoding, the payment gateway) is a field
  of an environment record, so every theorem quantifies over it.
-/

namespace BalaiAlmeda

/-! ## Data model (`models/Booking.js`, `models/Room.js`) -/

/-- Values of the `status` ENUM of `models/Booking.js`. -/
inductive BookingStatus where
  | Pending_Payment
  | Confirmed
  | Checked_In
  | Completed
  | Cancelled
  deriving DecidableEq

/-- Values of the `source` ENUM of `models/Booking.js`. -/
inductive BookingSource where
  | Web
  | Walk_in
  deriving DecidableEq

/-- Values of the `status` ENUM of `models/Room.js`. -/
inductive RoomStatus where
  | Available
  | Occupied
  | Dirty
  | Maintenance
  deriving DecidableEq

/-- An amount of money in centavos. -/
abbrev Money := Int

/-- The amount of `n` pesos. -/
def pesos (n : Int) : Money := n * 100

/-- The columns of `models/Room.js` that the payment controller reads. -/
structure Room where
  room_id : Nat
  room_number : String
  type : String
  name : Option String
  base_rate_3hr : Money
  base_rate_6hr : Money
  base_rate_12hr : Money
  base_rate_24hr : Money
  status : RoomStatus
  lock_expiration : Option Int
  locked_by_session_id : Option String
  deriving DecidableEq

/-- The columns of `models/Booking.js`. -/
structure Booking where
  booking_id : Nat
  guest_id : Option Int
  room_id : Nat
  reference_code : String
  checkout_session_id : Option String
  check_in_time : Int
  check_out_time : Int
  duration_hours : Int
  adults_count : Int
  children_count : Int
  child_ages : Option (List Int)
  source : BookingSource
  status : BookingStatus
  total_amount : Money
  created_at : Int
  deriving DecidableEq

/-- The two tables the controller works on. -/
structure Db where
  rooms : List Room
  bookings : List Booking
  deriving DecidableEq

/-! ## Availability (`checkRoomAvailability`, `findAvailableRoomID`) -/

/-- The constant `CLEANING_GAP_MINUTES` of `checkRoomAvailability`. -/
def CLEANING_GAP_MINUTES : Int := 30

/-- The status filter `Op.in ['Pending_Payment', 'Confirmed', 'Checked_In']`. -/
def isActiveStatus : BookingStatus → Bool
  | .Pending_Payment => true
  | .Confirmed => true
  | .Checked_In => true
  | .Completed => false
  | .Cancelled => false

/-- The query `Booking.findAll` of `checkRoomAvailability`: the rows of the room
whose status is one of the three active ones. -/
def conflictingBookings (db : Db) (roomId : Nat) : List Booking :=
  db.bookings.filter fun b => b.room_id == roomId && isActiveStatus b.status

/-- The local `hasOverlap` of `checkRoomAvailability`: the request starts before the
existing booking's check-out plus the cleaning gap and ends after its check-in. -/
def hasOverlap (checkInDateTime checkOutDateTime : Int) (booking : Booking) : Bool :=
  let existingCheckIn := booking.check_in_time
  let existingCheckOut := booking.check_out_time
  let existingCheckOutWithCleaning := existingCheckOut + CLEANING_GAP_MINUTES * 60000
  decide (checkInDateTime < existingCheckOutWithCleaning) &&
    decide (checkOutDateTime > existingCheckIn)

/-- The `for` loop of `checkRoomAvailability`: `false` at the first overlapping
booking, `true` when the list is exhausted. -/
def checkRoomAvailabilityLoop (checkInDateTime checkOutDateTime : Int) :
    List Booking → Bool
  | [] => true
  | booking :: rest =>
    if hasOverlap checkInDateTime checkOutDateTime booking then false
    else checkRoomAvailabilityLoop checkInDateTime checkOutDateTime rest

/-- The function `checkRoomAvailability(roomId, checkInDateTime, checkOutDateTime)`. -/
def checkRoomAvailability (db : Db) (roomId : Nat)
    (checkInDateTime checkOutDateTime : Int) : Bool :=
  checkRoomAvailabilityLoop checkInDateTime checkOutDateTime (conflictingBookings db roomId)

/-- The query `Room.findAll` on a type with `status: ['Available', 'Occupied']`. -/
def roomsOfType (db : Db) (roomType : String) : List Room :=
  db.rooms.filter fun r =>
    r.type == roomType && (r.status == .Available || r.status == .Occupied)

/-- The `for` loop of `findAvailableRoomID`: the id of the first available room. -/
def findAvailableRoomIDLoop (db : Db) (checkInDateTime checkOutDateTime : Int) :
    List Room → Option Nat
  | [] => none
  | room :: rest =>
    if checkRoomAvailability db room.room_id checkInDateTime checkOutDateTime then
      some room.room_id
    else findAvailableRoomIDLoop db checkInDateTime checkOutDateTime rest

/-- The function `findAvailableRoomID(roomType, checkInDateTime, checkOutDateTime)`;
`none` is the source's `null`. -/
def findAvailableRoomID (db : Db) (roomType : String)
    (checkInDateTime checkOutDateTime : Int) : Option Nat :=
  findAvailableRoomIDLoop db checkInDateTime checkOutDateTime (roomsOfType db roomType)

/-! ## Platform services -/

/-- One line item of the gateway payload. -/
structure LineItem where
  name : String
  amount : Int
  currency : String
  description : String
  quantity : Nat
  deriving DecidableEq

/-- The attributes of `checkoutPayload` sent to `POST /checkout_sessions`. -/
structure CheckoutPayload where
  line_items : List LineItem
  description : String
  success_url : String
  cancel_url : String
  billing_name : String
  billing_email : String
  billing_phone : String
  reference_code : String
  room_id : String
  room_number : String
  guest_id : String
  deriving DecidableEq

/-- The part of the gateway's answer the controller uses: `id` and
`attributes.checkout_url`. -/
structure CheckoutSession where
  id : String
  checkout_url : String
  deriving DecidableEq

/-- One entry of the session's `payments` list: its `attributes.status`. -/
structure Payment where
  id : String
  status : String
  deriving DecidableEq

/-- The answer of `GET /checkout_sessions/:id`: `attributes.status` (absent when
the gateway sends none) and `attributes.payments || []`. -/
structure SessionInfo where
  status : Option String
  payments : List Payment
  deriving DecidableEq

/-- The decoded webhook body, as far as `handleWebhook` reads it:
`payload.data?.attributes?.type` and
`payload.data?.attributes?.data?.attributes?.metadata?.reference_code`, each a
string when present. -/
structure WebhookPayload where
  type : Option String
  reference_code : Option String
  deriving DecidableEq

/-- What the controller takes from the platform and the outside world.
`dateNow k` and `mathRandom k` are the results of the `k`-th call (from 0) of
`Date.now()` and of `Math.random().toString(36)` while a reference code is
generated; `now` is `new Date()` of the handler; `oneYearFromNow` is that date
after `setFullYear(getFullYear() + 1)`.  `minutesOf t` is the second component of
`t.split(':').map(Number)` when it is an integer (`none` for `NaN`, `undefined`
and fractions, for all of which `minutes % 5 !== 0`), `dateTimeOf d t` is
`new Date(d + 'T' + t)`.  `paymongoCreate` is the `axios.post` to the gateway
(`none` when it throws), `paymongoGet` the `axios.get` of a session.
`hmacSha256Hex secret body` is `createHmac('sha256', secret).update(body).digest('hex')`
and `jsonParse` is `JSON.parse` followed by the optional-chaining reads
(`none` when either throws).  `strictSqlMode` tells whether the database runs in a
strict SQL mode, in which an `INSERT` of a text longer than its column is refused;
otherwise the text is cut to the column's width. -/
structure Env where
  now : Int
  oneYearFromNow : Int
  dateNow : Nat → Nat
  mathRandom : Nat → String
  toUpperCase : String → String
  minutesOf : String → Option Int
  dateTimeOf : String → String → Int
  FRONTEND_URL : Option String
  PAYMONGO_WEBHOOK_SECRET : Option String
  paymongoCreate : CheckoutPayload → Option CheckoutSession
  paymongoGet : String → Option SessionInfo
  hmacSha256Hex : String → String → String
  jsonParse : String → Option WebhookPayload
  strictSqlMode : Bool

/-! ## Reference codes (`generateReferenceCode`, `generateUniqueReferenceCode`) -/

/-- The width of the column `reference_code` of `models/Booking.js`, declared as
`DataTypes.STRING(20)`. -/
def REFERENCE_CODE_LENGTH : Nat := 20

/-- The digit of `Number.prototype.toString(36)` for a value below 36. -/
def base36Digit (d : Nat) : Char :=
  if d < 10 then Char.ofNat (48 + d) else Char.ofNat (87 + d)

/-- Digits of `n` in base 36, most significant first, with `fuel` division steps. -/
def toBase36Aux : Nat → Nat → List Char → List Char
  | 0, _, acc => acc
  | fuel + 1, n, acc =>
    if n / 36 = 0 then base36Digit (n % 36) :: acc
    else toBase36Aux fuel (n / 36) (base36Digit (n % 36) :: acc)

/-- The call `n.toString(36)` for a non-negative integer; `n + 1` steps always
suffice. -/
def toBase36 (n : Nat) : String :=
  String.mk (toBase36Aux (n + 1) n [])

/-- The call `s.substring(start, stop)` for `start ≤ stop`. -/
def substring (s : String) (start stop : Nat) : String :=
  String.mk ((s.data.drop start).take (stop - start))

/-- The function `generateReferenceCode()`, at the `k`-th reading of the clock and
of the random source. -/
def generateReferenceCode (env : Env) (k : Nat) : String :=
  let timestamp := env.toUpperCase (toBase36 (env.dateNow k))
  let random := env.toUpperCase (substring (env.mathRandom k) 2 10)
  "BKG-" ++ timestamp ++ "-" ++ random

/-- The constant `MAX_ATTEMPTS` of `generateUniqueReferenceCode`. -/
def MAX_ATTEMPTS : Nat := 10

/-- The query `Booking.findOne` on a reference code. -/
def findByReference (db : Db) (referenceCode : String) : Option Booking :=
  db.bookings.find? fun b => b.reference_code == referenceCode

/-- The `do ... while (!isUnique)` loop of `generateUniqueReferenceCode`.  The
second argument is `attempts` before the iteration; the first bounds the number of
iterations left and is never exhausted when it starts at `MAX_ATTEMPTS`, because
the iteration that reaches `MAX_ATTEMPTS` leaves the loop. -/
def generateUniqueReferenceCodeLoop (env : Env) (db : Db) : Nat → Nat → String
  | 0, attempts => generateReferenceCode env attempts
  | fuel + 1, attempts0 =>
    let referenceCode := generateReferenceCode env attempts0
    let existingBooking := findByReference db referenceCode
    let isUnique := existingBooking.isNone
    let attempts := attempts0 + 1
    if attempts ≥ MAX_ATTEMPTS then
      let extraRandom := env.toUpperCase (substring (env.mathRandom attempts) 2 6)
      referenceCode ++ "-" ++ extraRandom
    else if isUnique then referenceCode
    else generateUniqueReferenceCodeLoop env db fuel attempts

/-- The function `generateUniqueReferenceCode()`. -/
def generateUniqueReferenceCode (env : Env) (db : Db) : String :=
  generateUniqueReferenceCodeLoop env db MAX_ATTEMPTS 0

/-! ## Child ages (the parser inside `createCheckoutSession`) -/

/-- White space and line terminators of ECMAScript, removed by `trim` and skipped
by `parseInt`. -/
def isJsWhiteSpace (c : Char) : Bool :=
  let n := c.toNat
  n == 9 || n == 10 || n == 11 || n == 12 || n == 13 || n == 32 || n == 160 ||
  n == 5760 || (8192 ≤ n && n ≤ 8202) || n == 8232 || n == 8233 || n == 8239 ||
  n == 8287 || n == 12288 || n == 65279

/-- The call `s.trim()` on the characters of `s`. -/
def jsTrim (cs : List Char) : List Char :=
  ((cs.dropWhile isJsWhiteSpace).reverse.dropWhile isJsWhiteSpace).reverse

/-- The call `s.split(',')` on the characters of `s`; the result is never empty. -/
def splitComma : List Char → List (List Char)
  | [] => [[]]
  | c :: cs =>
    match splitComma cs with
    | [] => [[c]]
    | piece :: pieces => if c = ',' then [] :: piece :: pieces else (c :: piece) :: pieces

/-- The value of a character as a digit of radix 10 or 16. -/
def digitValue (radix : Nat) (c : Char) : Option Nat :=
  let n := c.toNat
  if 48 ≤ n ∧ n ≤ 57 then some (n - 48)
  else if radix = 16 ∧ 97 ≤ n ∧ n ≤ 102 then some (n - 87)
  else if radix = 16 ∧ 65 ≤ n ∧ n ≤ 70 then some (n - 55)
  else none

/-- The longest run of digits at the front of the list, as a number, with the
count of digits read. -/
def readDigits (radix : Nat) : List Char → Nat → Nat → Nat × Nat
  | [], acc, count => (acc, count)
  | c :: cs, acc, count =>
    match digitValue radix c with
    | some d => readDigits radix cs (acc * radix + d) (count + 1)
    | none => (acc, count)

/-- The call `parseInt(s)` with no radix: skip white space, read a sign, read a
`0x` marker, read the longest run of digits; `none` is `NaN`. -/
def parseInt (s : List Char) : Option Int :=
  let cs := s.dropWhile isJsWhiteSpace
  let negative := cs.head? == some '-'
  let cs := if cs.head? == some '-' || cs.head? == some '+' then cs.drop 1 else cs
  let hex := cs.take 2 == ['0', 'x'] || cs.take 2 == ['0', 'X']
  let cs := if hex then cs.drop 2 else cs
  let r := readDigits (if hex then 16 else 10) cs 0 0
  if r.2 = 0 then none
  else some (if negative then - (r.1 : Int) else (r.1 : Int))

/-- The shapes of `guestInfo.childAges` the parser accepts: absent, an array (each
element given by the string `join` turns it into), a string, or a number. -/
inductive ChildAgesInput where
  | absent
  | array (items : List String)
  | text (s : String)
  | number (n : Int)
  deriving DecidableEq

/-- Truthiness of `guestInfo.childAges`: arrays always, strings when non-empty,
numbers when non-zero. -/
def ChildAgesInput.truthy : ChildAgesInput → Bool
  | .absent => false
  | .array _ => true
  | .text s => s != ""
  | .number n => n != 0

/-- Step A of the parser: `childAges.join(',')` for an array, `String(childAges)`
otherwise. -/
def ChildAgesInput.rawString : ChildAgesInput → String
  | .absent => ""
  | .array items => ",".intercalate items
  | .text s => s
  | .number n => toString n

/-- Step B of the parser: split, trim, drop empty pieces, `parseInt`, drop `NaN`. -/
def parseChildAges (rawString : String) : List Int :=
  (((splitComma rawString.data).map jsTrim).filter fun s => s != []).filterMap parseInt

/-! ## Web booking (`createCheckoutSession`) -/

/-- The field `guestInfo.guestId` when it is truthy: the string `'walk_in'`, or a
value whose `parseInt` is `n`. -/
inductive GuestIdInput where
  | walk_in
  | id (n : Int)
  deriving DecidableEq

/-- The field `guestInfo` of the request body.  `adults` and `children` are the
results of `parseInt` (`none` for `NaN`). -/
structure GuestInfo where
  guestId : Option GuestIdInput
  firstName : String
  lastName : String
  email : String
  phone : String
  adults : Option Int
  children : Option Int
  childAges : ChildAgesInput
  deriving DecidableEq

/-- The field `totalAmount` of the request body: absent, a number of pesos, or a
string together with what `parseFloat` makes of it (`none` for `NaN`). -/
inductive ClientAmount where
  | absent
  | number (q : ℚ)
  | text (s : String) (parsed : Option ℚ)
  deriving DecidableEq

/-- The request of `POST /api/payment/create-checkout` after `verifyToken`:
`userId` and `userRole` come from the token, the rest from the body.  Text fields
that are absent are the empty string, which is as falsy; `duration` is
`duration.toString()`; the room ids are numbers, `none` when absent. -/
structure CheckoutRequest where
  userId : Int
  userRole : Option String
  roomSlug : String
  roomId : Option Nat
  selectedRoomId : Option Nat
  checkInDate : String
  checkInTime : String
  duration : String
  totalAmount : ClientAmount
  guestInfo : Option GuestInfo
  deriving DecidableEq

/-- The answer of `createCheckoutSession`, sent directly or by the global error
handler of `server.js`. -/
structure CheckoutResponse where
  status : Nat
  success : Bool
  message : String
  checkoutUrl : Option String
  referenceCode : Option String
  deriving DecidableEq

/-- A failure answer with the given HTTP status. -/
def reject (status : Nat) (message : String) : CheckoutResponse :=
  { status := status, success := false, message := message,
    checkoutUrl := none, referenceCode := none }

/-- The security lines the handler writes to the console. -/
inductive LogEvent where
  | adminOverride (role : String) (requestedGuestId : Int)
  | guestIdBlocked (userId : Int) (requestedGuestId : Int)
  | priceManipulation (clientSent : Option ℚ) (serverCalculated : Money)
  deriving DecidableEq

/-- The expression `req.userRole || 'Guest'`. -/
def userRoleOf (req : CheckoutRequest) : String :=
  match req.userRole with
  | none => "Guest"
  | some role => if role = "" then "Guest" else role

/-- The test `userRole === 'Admin' || userRole === 'FrontDesk' || userRole === 'Manager'`. -/
def isStaffRole (role : String) : Bool :=
  role == "Admin" || role == "FrontDesk" || role == "Manager"

/-- The variable `secureGuestId`: the token's user id, replaced by the requested
guest id only for a staff role asking for another user. -/
def secureGuestId (req : CheckoutRequest) : Int :=
  match req.guestInfo with
  | none => req.userId
  | some guestInfo =>
    match guestInfo.guestId with
    | some (.id requestedGuestId) =>
      if requestedGuestId ≠ req.userId then
        if isStaffRole (userRoleOf req) then requestedGuestId else req.userId
      else req.userId
    | _ => req.userId

/-- The console lines written while `secureGuestId` is computed. -/
def guestIdLog (req : CheckoutRequest) : List LogEvent :=
  match req.guestInfo with
  | none => []
  | some guestInfo =>
    match guestInfo.guestId with
    | some (.id requestedGuestId) =>
      if requestedGuestId ≠ req.userId then
        if isStaffRole (userRoleOf req) then
          [.adminOverride (userRoleOf req) requestedGuestId]
        else [.guestIdBlocked req.userId requestedGuestId]
      else []
    | _ => []

/-- The expression `roomId || selectedRoomId`; the number 0 is falsy. -/
def userSelectedRoomId (req : CheckoutRequest) : Option Nat :=
  match req.roomId.filter (fun n => n != 0) with
  | some n => some n
  | none => req.selectedRoomId.filter (fun n => n != 0)

/-- The list `validDurations`. -/
def validDurations : List String := ["3", "6", "12", "24"]

/-- The constant `GRACE_PERIOD_MS`. -/
def GRACE_PERIOD_MS : Int := 5 * 60 * 1000

/-- The call `parseInt(duration)`, with 0 standing for `NaN` (which no valid
duration yields). -/
def durationHours (duration : String) : Int :=
  (parseInt duration.data).getD 0

/-- What the validation block of `createCheckoutSession` hands on. -/
structure ValidatedRequest where
  guestInfo : GuestInfo
  checkInDateTime : Int
  checkOutDateTime : Int
  deriving DecidableEq

/-- The validation block: required fields, duration, 5-minute increments, and the
date boundaries.  `setHours(getHours() + d)` is modelled as adding `d` hours. -/
def validateRequest (env : Env) (req : CheckoutRequest) :
    Except CheckoutResponse ValidatedRequest :=
  match req.guestInfo with
  | none => .error (reject 400 "Missing required fields")
  | some guestInfo =>
    if req.roomSlug = "" ∨ req.checkInDate = "" ∨ req.checkInTime = "" ∨
        req.duration = "" then
      .error (reject 400 "Missing required fields")
    else if req.duration ∉ validDurations then
      .error (reject 400 "Invalid duration. Allowed values: 3h, 6h, 12h, 24h")
    else if (env.minutesOf req.checkInTime).all (fun minutes => minutes % 5 != 0) then
      .error (reject 400
        "Check-in time must be in 5-minute increments (e.g., 14:00, 14:05, 14:10)")
    else
      let checkInDateTime := env.dateTimeOf req.checkInDate req.checkInTime
      let checkOutDateTime := checkInDateTime + durationHours req.duration * 3600000
      let cutoffTime := env.now - GRACE_PERIOD_MS
      if checkInDateTime < cutoffTime then
        .error (reject 400 "Cannot book dates in the past")
      else if checkInDateTime > env.oneYearFromNow then
        .error (reject 400 "Bookings limited to 1 year in advance")
      else
        .ok { guestInfo := guestInfo, checkInDateTime := checkInDateTime,
              checkOutDateTime := checkOutDateTime }

/-- The table `slugToType`. -/
def slugToType (roomSlug : String) : Option String :=
  if roomSlug = "value-room" then some "Value"
  else if roomSlug = "standard-room" then some "Standard"
  else if roomSlug = "deluxe-room" then some "Deluxe"
  else if roomSlug = "superior-room" then some "Superior"
  else if roomSlug = "suite-room" then some "Suite"
  else none

/-- The call `s.replace('-room', '')` on characters: the first occurrence of
`-room` is removed. -/
def removeFirstRoomSuffix : List Char → List Char
  | [] => []
  | c :: cs =>
    if (c :: cs).take 5 == ['-', 'r', 'o', 'o', 'm'] then (c :: cs).drop 5
    else c :: removeFirstRoomSuffix cs

/-- The variable `roomType`: the table entry, or else the slug with its first
character upper-cased and `-room` removed from the rest. -/
def roomTypeOf (env : Env) (roomSlug : String) : String :=
  match slugToType roomSlug with
  | some roomType => roomType
  | none =>
    env.toUpperCase (String.mk (roomSlug.data.take 1)) ++
      String.mk (removeFirstRoomSuffix (roomSlug.data.drop 1))

/-- The query `Room.findOne` on a room id. -/
def findRoom (db : Db) (roomId : Nat) : Option Room :=
  db.rooms.find? fun r => r.room_id == roomId

/-- The room choice of `createCheckoutSession`: 404 when the type has no room in
service; a manually selected room must exist, have the type and be available;
otherwise the first available room of the type is taken. -/
def selectRoom (db : Db) (req : CheckoutRequest) (roomType : String)
    (checkInDateTime checkOutDateTime : Int) : Except CheckoutResponse Room :=
  if (roomsOfType db roomType).length = 0 then
    .error (reject 404 "Room type not found")
  else
    match userSelectedRoomId req with
    | some selectedId =>
      match findRoom db selectedId with
      | none => .error (reject 400 "Selected room does not exist.")
      | some selectedRoom =>
        if selectedRoom.type ≠ roomType then
          .error (reject 400 "Selected room does not match the requested room type.")
        else if !checkRoomAvailability db selectedRoom.room_id checkInDateTime
            checkOutDateTime then
          .error (reject 409 ("The selected room is no longer available. " ++
            "Please select a different room or time slot."))
        else .ok selectedRoom
    | none =>
      match (findAvailableRoomID db roomType checkInDateTime checkOutDateTime).filter
          (fun n => n != 0) with
      | none =>
        .error (reject 409 ("All " ++ roomType ++
          " rooms are fully booked for the selected time. Please note: rooms " ++
          "require a 30-minute cleaning period between bookings."))
      | some availableRoomId =>
        match findRoom db availableRoomId with
        | none => .error (reject 500 "Cannot read properties of null")
        | some availableRoom => .ok availableRoom

/-- The read `availableRoom['base_rate_' + duration + 'hr']` followed by
`parseFloat`; `none` is `NaN`. -/
def Room.baseRate (room : Room) (duration : String) : Option Money :=
  if duration = "3" then some room.base_rate_3hr
  else if duration = "6" then some room.base_rate_6hr
  else if duration = "12" then some room.base_rate_12hr
  else if duration = "24" then some room.base_rate_24hr
  else none

/-- The variable `baseRoomPrice` after the guard `!baseRoomPrice || isNaN(baseRoomPrice)`:
`none` when the guard answers 500. -/
def baseRoomPrice (room : Room) (duration : String) : Option Money :=
  (room.baseRate duration).filter fun price => price != 0

/-- The variable `adultsCount`: `parseInt(guestInfo?.adults) || 1`. -/
def adultsCount (guestInfo : GuestInfo) : Int :=
  match guestInfo.adults with
  | none => 1
  | some n => if n = 0 then 1 else n

/-- The variable `childrenCount`: `parseInt(guestInfo?.children) || 0`. -/
def childrenCount (guestInfo : GuestInfo) : Int :=
  guestInfo.children.getD 0

/-- The variable `childAges` after step 2 of the source, the parser, which runs
when there are children and `guestInfo.childAges` is truthy. -/
def parsedChildAges (guestInfo : GuestInfo) : List Int :=
  if childrenCount guestInfo > 0 ∧ guestInfo.childAges.truthy = true then
    parseChildAges guestInfo.childAges.rawString
  else []

/-- The variable `childAges` after step 3: on a mismatch between the number of
ages and `childrenCount`, the fallback `Array(childrenCount).fill(0)` is taken when
no age was parsed. -/
def childAges (guestInfo : GuestInfo) : List Int :=
  if childrenCount guestInfo > 0 ∧
      ((parsedChildAges guestInfo).length : Int) ≠ childrenCount guestInfo then
    if (parsedChildAges guestInfo).length = 0 then
      List.replicate (childrenCount guestInfo).toNat 0
    else parsedChildAges guestInfo
  else parsedChildAges guestInfo

/-- The loop that validates each age: the first age outside 0..13, if any. -/
def firstInvalidAge : List Int → Option Int
  | [] => none
  | age :: rest => if age < 0 ∨ age > 13 then some age else firstInvalidAge rest

/-- The guest validation of `createCheckoutSession`, in source order.  The first
case is the `RangeError` of `Array(childrenCount)` for a length beyond
`2^32 - 1`, which reaches the handler's `catch`. -/
def validateGuests (guestInfo : GuestInfo) : Option CheckoutResponse :=
  if childrenCount guestInfo > 4294967295 ∧ (parsedChildAges guestInfo).length = 0 then
    some (reject 500 "Invalid array length")
  else if adultsCount guestInfo < 1 ∨ adultsCount guestInfo > 4 then
    some (reject 400 "Invalid number of adults (1-4 allowed)")
  else if childrenCount guestInfo < 0 ∨ childrenCount guestInfo > 2 then
    some (reject 400 "Invalid number of children (max 2 allowed)")
  else if childrenCount guestInfo > 0 ∧
      ((childAges guestInfo).length : Int) ≠ childrenCount guestInfo then
    some (reject 400 ("Children count (" ++ toString (childrenCount guestInfo) ++
      ") does not match number of ages provided (" ++
      toString (childAges guestInfo).length ++ ")"))
  else
    match firstInvalidAge (childAges guestInfo) with
    | some age =>
      some (reject 400 ("Child ages must be between 0 and 13 years (got " ++
        toString age ++ ")"))
    | none => none

/-- The loop that accumulates `childAddOnPrice`: 150 pesos for each age from 7 to
13, nothing for the others. -/
def childAddOnPrice : List Int → Money
  | [] => 0
  | age :: rest =>
    if age ≥ 7 ∧ age ≤ 13 then pesos 150 + childAddOnPrice rest
    else childAddOnPrice rest

/-- The variable `serverCalculatedPrice`. -/
def serverCalculatedPrice (baseRoomPrice : Money) (childAges : List Int) : Money :=
  baseRoomPrice + childAddOnPrice childAges

/-- The console lines of the test
`totalAmount && parseFloat(totalAmount) !== serverCalculatedPrice`. -/
def priceLog (totalAmount : ClientAmount) (serverCalculatedPrice : Money) :
    List LogEvent :=
  match totalAmount with
  | .absent => []
  | .number q =>
    if q ≠ 0 ∧ q * 100 ≠ (serverCalculatedPrice : ℚ) then
      [.priceManipulation (some q) serverCalculatedPrice]
    else []
  | .text s parsed =>
    if s ≠ "" ∧ parsed.map (fun q => q * 100) ≠ some (serverCalculatedPrice : ℚ) then
      [.priceManipulation parsed serverCalculatedPrice]
    else []

/-- Everything `createCheckoutSession` has computed when it opens the transaction. -/
structure PreparedBooking where
  availableRoom : Room
  guestInfo : GuestInfo
  secureGuestId : Int
  checkInDateTime : Int
  checkOutDateTime : Int
  duration : String
  adultsCount : Int
  childrenCount : Int
  childAges : List Int
  serverCalculatedPrice : Money
  referenceCode : String
  deriving DecidableEq

/-- The object `checkoutPayload`; `amount` is `Math.round(serverCalculatedPrice * 100)`,
the price in centavos. -/
def checkoutPayload (env : Env) (req : CheckoutRequest) (p : PreparedBooking) :
    CheckoutPayload :=
  let frontend := match env.FRONTEND_URL with
    | none => "http://localhost:5173"
    | some url => if url = "" then "http://localhost:5173" else url
  let roomName := match p.availableRoom.name with
    | none => p.availableRoom.type ++ " Room"
    | some name => if name = "" then p.availableRoom.type ++ " Room" else name
  { line_items := [
      { name := roomName ++ " - " ++ p.duration ++ "h",
        amount := p.serverCalculatedPrice,
        currency := "PHP",
        description := "Check-in: " ++ req.checkInDate ++ " " ++ req.checkInTime,
        quantity := 1 }],
    description := "Booking Reference: " ++ p.referenceCode,
    success_url := frontend ++ "/booking-success?reference=" ++ p.referenceCode,
    cancel_url := frontend ++ "/booking?cancelled=true",
    billing_name := p.guestInfo.firstName ++ " " ++ p.guestInfo.lastName,
    billing_email := p.guestInfo.email,
    billing_phone := p.guestInfo.phone,
    reference_code := p.referenceCode,
    room_id := toString p.availableRoom.room_id,
    room_number := p.availableRoom.room_number,
    guest_id := toString p.secureGuestId }

/-- The primary key `Booking.create` gives a new row: one more than the largest
key in the table. -/
def nextBookingId (db : Db) : Nat :=
  (db.bookings.map fun b => b.booking_id).foldr max 0 + 1

/-- What the column `reference_code`, declared `STRING(20)`, holds of a code that
is inserted: the code itself when it has at most 20 characters, its first 20
characters when it is longer and the database cuts it. -/
def storedReferenceCode (referenceCode : String) : String :=
  String.mk (referenceCode.data.take REFERENCE_CODE_LENGTH)

/-- The row the table holds after `Booking.create` inside the transaction. -/
def pendingBooking (env : Env) (db : Db) (lockedRoom : Room) (p : PreparedBooking) :
    Booking :=
  { booking_id := nextBookingId db,
    guest_id := some p.secureGuestId,
    room_id := lockedRoom.room_id,
    reference_code := storedReferenceCode p.referenceCode,
    checkout_session_id := none,
    check_in_time := p.checkInDateTime,
    check_out_time := p.checkOutDateTime,
    duration_hours := durationHours p.duration,
    adults_count := p.adultsCount,
    children_count := p.childrenCount,
    child_ages := if p.childrenCount > 0 then some p.childAges else none,
    source := .Web,
    status := .Pending_Payment,
    total_amount := p.serverCalculatedPrice,
    created_at := env.now }

/-- The call `booking.update` with a checkout session id: an `UPDATE` of the row
with this primary key. -/
def setCheckoutSessionId (db : Db) (bookingId : Nat) (sessionId : String) : Db :=
  { db with bookings := db.bookings.map fun b =>
      if b.booking_id = bookingId then { b with checkout_session_id := some sessionId }
      else b }

/-- The callback of `sequelize.transaction`: lock the room row, check availability
again, insert the pending booking, ask the gateway for a session, store its id.
An error is a thrown `Error` with its message; the transaction then rolls back, so
no state is returned.  The second component lists the payloads sent to the gateway.
`Booking.create` throws when the reference code is longer than its column and the
database is strict; when the database is not strict the code is stored cut. -/
def bookingTransaction (env : Env) (db : Db) (req : CheckoutRequest)
    (p : PreparedBooking) : Except String (CheckoutSession × Db) × List CheckoutPayload :=
  match findRoom db p.availableRoom.room_id with
  | none => (.error "Room not found or locked by another transaction", [])
  | some lockedRoom =>
    if !checkRoomAvailability db lockedRoom.room_id p.checkInDateTime
        p.checkOutDateTime then
      (.error "Room is no longer available (booked by another user during your session)",
        [])
    else if env.strictSqlMode = true ∧ REFERENCE_CODE_LENGTH < p.referenceCode.length then
      (.error "Data too long for column 'reference_code' at row 1", [])
    else
      let booking := pendingBooking env db lockedRoom p
      let created : Db := { db with bookings := db.bookings ++ [booking] }
      match env.paymongoCreate (checkoutPayload env req p) with
      | none =>
        (.error "Failed to create PayMongo checkout session", [checkoutPayload env req p])
      | some checkoutSession =>
        (.ok (checkoutSession,
            setCheckoutSessionId created booking.booking_id checkoutSession.id),
          [checkoutPayload env req p])

/-- The outcome of one call of `createCheckoutSession`: the HTTP answer, the
tables afterwards, the payloads sent to the gateway, and the security log. -/
structure CheckoutResult where
  response : CheckoutResponse
  db : Db
  gatewayCalls : List CheckoutPayload
  log : List LogEvent

/-- The part of `createCheckoutSession` before the transaction: validation, room
choice, price, guest validation, reference code.  An error is the answer sent. -/
def prepareBooking (env : Env) (db : Db) (req : CheckoutRequest) :
    Except CheckoutResponse PreparedBooking :=
  match validateRequest env req with
  | .error response => .error response
  | .ok v =>
    match selectRoom db req (roomTypeOf env req.roomSlug) v.checkInDateTime
        v.checkOutDateTime with
    | .error response => .error response
    | .ok availableRoom =>
      match baseRoomPrice availableRoom req.duration with
      | none =>
        .error (reject 500 "Unable to calculate room rate. Please contact support.")
      | some basePrice =>
        match validateGuests v.guestInfo with
        | some response => .error response
        | none =>
          .ok { availableRoom := availableRoom,
                guestInfo := v.guestInfo,
                secureGuestId := secureGuestId req,
                checkInDateTime := v.checkInDateTime,
                checkOutDateTime := v.checkOutDateTime,
                duration := req.duration,
                adultsCount := adultsCount v.guestInfo,
                childrenCount := childrenCount v.guestInfo,
                childAges := childAges v.guestInfo,
                serverCalculatedPrice :=
                  serverCalculatedPrice basePrice (childAges v.guestInfo),
                referenceCode := generateUniqueReferenceCode env db }

/-- The console lines of a call that reaches the price computation. -/
def checkoutLog (req : CheckoutRequest) (p : PreparedBooking) : List LogEvent :=
  guestIdLog req ++ priceLog req.totalAmount p.serverCalculatedPrice

/-- The handler `createCheckoutSession`.  A thrown error reaches the handler's
`catch`, which answers 500 with the error's message. -/
def createCheckoutSession (env : Env) (db : Db) (req : CheckoutRequest) :
    CheckoutResult :=
  match prepareBooking env db req with
  | .error response =>
    { response := response, db := db, gatewayCalls := [], log := guestIdLog req }
  | .ok p =>
    match bookingTransaction env db req p with
    | (.error message, calls) =>
      { response := reject 500 message, db := db, gatewayCalls := calls,
        log := checkoutLog req p }
    | (.ok (checkoutSession, committed), calls) =>
      { response :=
          { status := 200, success := true, message := "",
            checkoutUrl := some checkoutSession.checkout_url,
            referenceCode := some p.referenceCode },
        db := committed, gatewayCalls := calls, log := checkoutLog req p }

/-! ## Payment reconciliation (`handleWebhook`, `verifyPayment`) -/

/-- Which store calls of one handler invocation raise an error (a lost
connection, a deadlock, ...): the `Booking.findOne` and the `booking.update`. -/
structure Faults where
  findOneThrows : Bool
  updateThrows : Bool
  deriving DecidableEq

/-- No store call raises. -/
def Faults.none : Faults := { findOneThrows := false, updateThrows := false }

/-- The call `Booking.findOne` on a reference code, which may raise. -/
def findOneBooking (faults : Faults) (db : Db) (referenceCode : String) :
    Except String (Option Booking) :=
  if faults.findOneThrows then .error "SequelizeDatabaseError"
  else .ok (findByReference db referenceCode)

/-- The `UPDATE` behind `booking.update` with a status: the row with this primary
key gets the status. -/
def setStatus (db : Db) (bookingId : Nat) (status : BookingStatus) : Db :=
  { db with bookings := db.bookings.map fun b =>
      if b.booking_id = bookingId then { b with status := status } else b }

/-- The call `booking.update` with a status, which may raise and then changes
nothing. -/
def updateStatus (faults : Faults) (db : Db) (booking : Booking)
    (status : BookingStatus) : Except String Db :=
  if faults.updateThrows then .error "SequelizeDatabaseError"
  else .ok (setStatus db booking.booking_id status)

/-- The request of `POST /api/payment/webhook`: the `paymongo-signature` header,
the bytes of the body as sent, and whether `req.body` is a `Buffer` of them.  The
route runs `express.raw({ type: 'application/json' })` (`server.js`), which reads
the body into a `Buffer` only for a request that announces a body of content type
`application/json`; for any other request `req.body` is not a `Buffer`. -/
structure WebhookRequest where
  signature : Option String
  body : String
  isBuffer : Bool
  deriving DecidableEq

/-- The answer of `handleWebhook`. -/
structure WebhookResponse where
  status : Nat
  received : Bool
  error : Option String
  deriving DecidableEq

/-- The call `crypto.timingSafeEqual(Buffer.from(a), Buffer.from(b))`; `none` is
the error it throws when the byte lengths differ. -/
def timingSafeEqual (a b : String) : Option Bool :=
  if a.utf8ByteSize ≠ b.utf8ByteSize then none else some (a == b)

/-- Steps 5 and 6 of `handleWebhook`, the part inside `try` after the signature
check: decode the body and process the event.  An error is a thrown exception. -/
def processWebhookEvent (env : Env) (faults : Faults) (db : Db) (body : String) :
    Except String Db :=
  match env.jsonParse body with
  | none => .error "Unexpected token in JSON"
  | some payload =>
    let eventType := payload.type
    if eventType = some "checkout_session.payment.paid" then
      match payload.reference_code.filter (fun code => code != "") with
      | none => .ok db
      | some referenceCode =>
        match findOneBooking faults db referenceCode with
        | .error e => .error e
        | .ok none => .ok db
        | .ok (some booking) => updateStatus faults db booking .Confirmed
    else if eventType = some "checkout_session.expired" then
      match payload.reference_code.filter (fun code => code != "") with
      | none => .ok db
      | some referenceCode =>
        match findOneBooking faults db referenceCode with
        | .error e => .error e
        | .ok none => .ok db
        | .ok (some booking) =>
          if booking.status = .Pending_Payment then
            updateStatus faults db booking .Cancelled
          else .ok db
    else .ok db

/-- The handler `handleWebhook`: the answer and the tables afterwards.  When
`req.body` is not a `Buffer`, `update(req.body)` throws a `TypeError` inside the
outer `try`, and the `catch` answers 200 with the error's message, which is given
here by the error's code. -/
def handleWebhook (env : Env) (faults : Faults) (db : Db) (req : WebhookRequest) :
    WebhookResponse × Db :=
  match req.signature.filter (fun s => s != "") with
  | none =>
    ({ status := 401, received := false, error := some "Missing signature" }, db)
  | some signature =>
    match env.PAYMONGO_WEBHOOK_SECRET.filter (fun s => s != "") with
    | none =>
      ({ status := 500, received := false, error := some "Server configuration error" },
        db)
    | some webhookSecret =>
      if req.isBuffer = false then
        ({ status := 200, received := true, error := some "ERR_INVALID_ARG_TYPE" }, db)
      else
        let expectedSignature := env.hmacSha256Hex webhookSecret req.body
        let isValid := (timingSafeEqual signature expectedSignature).getD false
        if !isValid then
          ({ status := 401, received := false, error := some "Invalid signature" }, db)
        else
          match processWebhookEvent env faults db req.body with
          | .ok db1 => ({ status := 200, received := true, error := none }, db1)
          | .error message =>
            ({ status := 200, received := true, error := some message }, db)

/-- The answer of `verifyPayment`: the HTTP status, the `status` label of
`statusMap`, and the booking's status as reported. -/
structure VerifyResponse where
  status : Nat
  success : Bool
  label : Option String
  bookingStatus : Option BookingStatus
  deriving DecidableEq

/-- The table `statusMap`. -/
def statusMap : BookingStatus → String
  | .Pending_Payment => "pending"
  | .Confirmed => "confirmed"
  | .Checked_In => "confirmed"
  | .Completed => "confirmed"
  | .Cancelled => "cancelled"

/-- The outcome of one call of `verifyPayment`: the answer, the tables afterwards
and the session ids asked of the gateway. -/
structure VerifyResult where
  response : VerifyResponse
  db : Db
  gatewayQueries : List String

/-- The decision of `verifyPayment` on the gateway's answer: the status to write,
if any.  A `paid` payment confirms; otherwise a `failed` payment or an `expired`
session cancels. -/
def paymentDecision (info : SessionInfo) : Option BookingStatus :=
  let paidPayment := info.payments.find? fun p => p.status == "paid"
  if paidPayment.isSome then some .Confirmed
  else
    let failedPayment := info.payments.find? fun p => p.status == "failed"
    let isSessionExpired := info.status == some "expired"
    if failedPayment.isSome || isSessionExpired then some .Cancelled
    else none

/-- Step 2 of `verifyPayment` for a booking that was found: the status of the
local `booking` afterwards, the tables, and the gateway queries.  An error of the
gateway call or of the update is caught by the inner `catch` and changes nothing. -/
def reconcileBooking (env : Env) (faults : Faults) (db : Db) (booking : Booking) :
    BookingStatus × Db × List String :=
  if booking.status = .Pending_Payment then
    match booking.checkout_session_id.filter (fun s => s != "") with
    | none => (booking.status, db, [])
    | some sessionId =>
      match env.paymongoGet sessionId with
      | none => (booking.status, db, [sessionId])
      | some info =>
        match paymentDecision info with
        | none => (booking.status, db, [sessionId])
        | some status =>
          match updateStatus faults db booking status with
          | .error _ => (booking.status, db, [sessionId])
          | .ok db1 => (status, db1, [sessionId])
  else (booking.status, db, [])

/-- The handler `verifyPayment` for the route parameter `referenceCode`. -/
def verifyPayment (env : Env) (faults : Faults) (db : Db) (referenceCode : String) :
    VerifyResult :=
  match findOneBooking faults db referenceCode with
  | .error _ =>
    { response := { status := 500, success := false, label := none,
                    bookingStatus := none },
      db := db, gatewayQueries := [] }
  | .ok none =>
    { response := { status := 404, success := false, label := none,
                    bookingStatus := none },
      db := db, gatewayQueries := [] }
  | .ok (some booking) =>
    let r := reconcileBooking env faults db booking
    { response := { status := 200, success := true, label := some (statusMap r.1),
                    bookingStatus := some r.1 },
      db := r.2.1, gatewayQueries := r.2.2 }

/-! ## Stale reservations (`cleanUpStaleBookingsInternal`) -/

/-- The constant `STALE_THRESHOLD_MINUTES`. -/
def STALE_THRESHOLD_MINUTES : Int := 5

/-- The `where` clause of both queries of `cleanUpStaleBookingsInternal`:
`status: 'Pending_Payment'` and `created_at` before the cutoff. -/
def isStale (cutoffTime : Int) (b : Booking) : Bool :=
  b.status == .Pending_Payment && decide (b.created_at < cutoffTime)

/-- The function `cleanUpStaleBookingsInternal()`: the tables afterwards and the
count returned.  `cutoffTime.setMinutes(getMinutes() - 5)` is modelled as
subtracting five minutes. -/
def cleanUpStaleBookingsInternal (env : Env) (db : Db) : Db × Nat :=
  let cutoffTime := env.now - STALE_THRESHOLD_MINUTES * 60000
  let staleBookings := db.bookings.filter (isStale cutoffTime)
  if staleBookings.length = 0 then (db, 0)
  else
    ({ db with bookings := db.bookings.map fun b =>
        if isStale cutoffTime b then { b with status := .Cancelled } else b },
      staleBookings.length)

/-! ## Availability search (`checkAvailability` of `roomController.js`) -/

/-- The query of `GET /api/rooms/:slug/availability`: the route parameter and the
three query parameters, the empty string standing for an absent one. -/
structure AvailabilityQuery where
  slug : String
  checkInDate : String
  checkInTime : String
  duration : String
  deriving DecidableEq

/-- One entry of `availableRooms`. -/
structure AvailableRoom where
  id : Nat
  number : String
  name : Option String
  deriving DecidableEq

/-- The answer of `checkAvailability`, without the display data of the
representative room and the echo of the query. -/
structure AvailabilityResponse where
  status : Nat
  success : Bool
  available : Option Bool
  availableRooms : List AvailableRoom
  roomId : Option Nat
  deriving DecidableEq

/-- The call `s.replace('h', '')` on characters: the first `h` is removed. -/
def removeFirstH : List Char → List Char
  | [] => []
  | c :: cs => if c = 'h' then cs else c :: removeFirstH cs

/-- The variable `durationHours` of `checkAvailability`:
`parseInt(duration.replace('h', ''))`, `none` for `NaN`. -/
def queryDurationHours (duration : String) : Option Int :=
  parseInt (removeFirstH duration.data)

/-- The variable `hasOverlap` of `checkAvailability`; `checkOut` is `none` when
the duration is `NaN`, and then an invalid date, which compares `false`. -/
def queryHasOverlap (checkIn : Int) (checkOut : Option Int) (booking : Booking) : Bool :=
  let existingCheckIn := booking.check_in_time
  let existingCheckOut := booking.check_out_time
  let existingCheckOutWithCleaning := existingCheckOut + CLEANING_GAP_MINUTES * 60000
  decide (checkIn < existingCheckOutWithCleaning) &&
    (match checkOut with
     | some out => decide (out > existingCheckIn)
     | none => false)

/-- The inner loop of `checkAvailability`, which sets `hasConflict`. -/
def hasConflict (checkIn : Int) (checkOut : Option Int) : List Booking → Bool
  | [] => false
  | booking :: rest =>
    if queryHasOverlap checkIn checkOut booking then true
    else hasConflict checkIn checkOut rest

/-- The test `room.lock_expiration && new Date(room.lock_expiration) > new Date()`. -/
def isLocked (env : Env) (room : Room) : Bool :=
  match room.lock_expiration with
  | none => false
  | some lockExpiration => decide (lockExpiration > env.now)

/-- The outer loop of `checkAvailability`, which fills `availableRooms`. -/
def collectAvailableRooms (env : Env) (db : Db) (checkIn : Int) (checkOut : Option Int) :
    List Room → List AvailableRoom
  | [] => []
  | room :: rest =>
    if isLocked env room then collectAvailableRooms env db checkIn checkOut rest
    else if hasConflict checkIn checkOut (conflictingBookings db room.room_id) then
      collectAvailableRooms env db checkIn checkOut rest
    else
      { id := room.room_id, number := room.room_number, name := room.name } ::
        collectAvailableRooms env db checkIn checkOut rest

/-- The largest time value of a `Date`, in milliseconds on either side of the
epoch; `new Date(t)` is an invalid date beyond it. -/
def MAX_TIME_VALUE : Int := 8640000000000000

/-- The handler `checkAvailability`: the answer and the tables afterwards.  The
stale sweep runs first, so every answer is computed on the swept tables.  Both
answers with status 200 call `checkOut.toISOString()`, which throws for an invalid
date, that is when the duration is `NaN` or the check-out lies outside the range
of `Date`; the `catch` then answers 500. -/
def checkAvailability (env : Env) (db : Db) (q : AvailabilityQuery) :
    AvailabilityResponse × Db :=
  let swept := (cleanUpStaleBookingsInternal env db).1
  if q.checkInDate = "" ∨ q.checkInTime = "" ∨ q.duration = "" then
    ({ status := 400, success := false, available := none, availableRooms := [],
       roomId := none }, swept)
  else if (env.minutesOf q.checkInTime).all (fun minutes => minutes % 5 != 0) then
    ({ status := 400, success := false, available := none, availableRooms := [],
       roomId := none }, swept)
  else
    let roomType := roomTypeOf env q.slug
    let rooms := roomsOfType swept roomType
    if rooms.length = 0 then
      ({ status := 404, success := false, available := none, availableRooms := [],
         roomId := none }, swept)
    else
      let durationHours := queryDurationHours q.duration
      let checkIn := env.dateTimeOf q.checkInDate q.checkInTime
      let checkOut := durationHours.map fun d => checkIn + d * 60 * 60 * 1000
      let availableRooms := collectAvailableRooms env swept checkIn checkOut rooms
      if (checkOut.filter fun out => out.natAbs ≤ MAX_TIME_VALUE.natAbs).isNone then
        ({ status := 500, success := false, available := none, availableRooms := [],
           roomId := none }, swept)
      else if availableRooms.length > 0 then
        ({ status := 200, success := true, available := some true,
           availableRooms := availableRooms,
           roomId := availableRooms.head?.map fun r => r.id }, swept)
      else
        ({ status := 200, success := true, available := some false,
           availableRooms := [], roomId := none }, swept)

/-! ## Front desk (`updateBookingStatus` of `imsController.js`) -/

/-- The request of `PATCH /api/ims/bookings/:id/status`: the route parameter and
`req.body.status`. -/
structure StatusUpdateRequest where
  id : Nat
  status : String
  deriving DecidableEq

/-- The answer of an IMS handler. -/
structure ImsResponse where
  status : Nat
  success : Bool
  message : String
  deriving DecidableEq

/-- The list `validStatuses` of `updateBookingStatus`, each name with the value
of the `status` ENUM it denotes. -/
def validStatuses : List (String × BookingStatus) :=
  [("Confirmed", .Confirmed), ("Checked_In", .Checked_In), ("Completed", .Completed),
   ("Cancelled", .Cancelled)]

/-- The query `Booking.findByPk`. -/
def findByPk (db : Db) (id : Nat) : Option Booking :=
  db.bookings.find? fun b => b.booking_id == id

/-- The object `updateData` applied to a row: the status; for `Checked_In` the
check-in time `now` and, when `duration_hours` is truthy, the check-out time
`now + duration_hours` hours; for `Completed` the check-out time `now`. -/
def applyUpdateData (env : Env) (booking : Booking) (status : BookingStatus)
    (b : Booking) : Booking :=
  match status with
  | .Checked_In =>
    if booking.duration_hours ≠ 0 then
      { b with status := status, check_in_time := env.now,
               check_out_time := env.now + booking.duration_hours * 60 * 60 * 1000 }
    else { b with status := status, check_in_time := env.now }
  | .Completed => { b with status := status, check_out_time := env.now }
  | _ => { b with status := status }

/-- The call `booking.room.update` with a status: an `UPDATE` of the rooms with
the booking's `room_id`. -/
def setRoomStatus (db : Db) (roomId : Nat) (status : RoomStatus) : Db :=
  { db with rooms := db.rooms.map fun r =>
      if r.room_id = roomId then { r with status := status } else r }

/-- The handler `updateBookingStatus`: the answer and the tables afterwards. -/
def updateBookingStatus (env : Env) (db : Db) (req : StatusUpdateRequest) :
    ImsResponse × Db :=
  match validStatuses.lookup req.status with
  | none => ({ status := 400, success := false, message := "Invalid status" }, db)
  | some status =>
    match findByPk db req.id with
    | none => ({ status := 404, success := false, message := "Booking not found" }, db)
    | some booking =>
      let updated : Db :=
        { db with bookings := db.bookings.map fun b =>
            if b.booking_id = booking.booking_id then applyUpdateData env booking status b
            else b }
      let hasRoom := (findRoom db booking.room_id).isSome
      let final :=
        if status = .Checked_In ∧ hasRoom = true then
          setRoomStatus updated booking.room_id .Occupied
        else if status = .Completed ∧ hasRoom = true then
          setRoomStatus updated booking.room_id .Dirty
        else updated
      ({ status := 200, success := true,
         message := "Booking updated to " ++ req.status }, final)

/-! ## Walk-in bookings (`createWalkInBooking` of `imsController.js`) -/

/-- The body of `POST /api/ims/bookings/walk-in`.  `roomId` is a number, 0 when
absent; `duration` is the text the template literal makes of the field, the
empty string when absent; `adults` and `children` are integers, `none` when
absent. -/
structure WalkInRequest where
  roomId : Nat
  guestName : String
  duration : String
  adults : Option Int
  children : Option Int
  deriving DecidableEq

/-- The variable `refCode` of `createWalkInBooking`. -/
def walkInReferenceCode (env : Env) : String :=
  "WLK-" ++ env.toUpperCase (toBase36 (env.dateNow 0)) ++ "-" ++
    env.toUpperCase (substring (env.mathRandom 0) 2 6)

/-- The row `Booking.create` inserts in `createWalkInBooking`; the columns the
call does not name keep their defaults. -/
def walkInBooking (env : Env) (db : Db) (req : WalkInRequest) (rate : Money) : Booking :=
  { booking_id := nextBookingId db,
    guest_id := none,
    room_id := req.roomId,
    reference_code := walkInReferenceCode env,
    checkout_session_id := none,
    check_in_time := env.now,
    check_out_time := env.now + durationHours req.duration * 60 * 60 * 1000,
    duration_hours := durationHours req.duration,
    adults_count := match req.adults with
      | none => 1
      | some adults => if adults = 0 then 1 else adults,
    children_count := match req.children with
      | none => 0
      | some children => children,
    child_ages := none,
    source := .Walk_in,
    status := .Checked_In,
    total_amount := rate,
    created_at := env.now }

/-- The handler `createWalkInBooking`: the answer and the tables afterwards.  The
rate is `parseFloat(room['base_rate_' + duration + 'hr'])`, which is a number only
for the four rate columns; for those `duration * 60 * 60 * 1000` and
`parseInt(duration)` denote the same number of hours. -/
def createWalkInBooking (env : Env) (db : Db) (req : WalkInRequest) : ImsResponse × Db :=
  if req.roomId = 0 ∨ req.duration = "" then
    ({ status := 400, success := false, message := "Room and duration are required" }, db)
  else
    match findRoom db req.roomId with
    | none => ({ status := 404, success := false, message := "Room not found" }, db)
    | some room =>
      match baseRoomPrice room req.duration with
      | none => ({ status := 400, success := false, message := "Invalid duration" }, db)
      | some rate =>
        let created : Db :=
          { db with bookings := db.bookings ++ [walkInBooking env db req rate] }
        ({ status := 200, success := true,
           message := "Walk-in created for room " ++ room.room_number },
          setRoomStatus created room.room_id .Occupied)

/-! ## The web booking under a concurrent commit -/

/-- The handler `createCheckoutSession` when another request commits between the
availability scan and the lock: everything before the transaction reads
`scanned`, the callback of `sequelize.transaction` runs on `locked`.  With
`locked = scanned` this is `createCheckoutSession`. -/
def createCheckoutSessionAfterCommit (env : Env) (scanned locked : Db)
    (req : CheckoutRequest) : CheckoutResult :=
  match prepareBooking env scanned req with
  | .error response =>
    { response := response, db := locked, gatewayCalls := [], log := guestIdLog req }
  | .ok p =>
    match bookingTransaction env locked req p with
    | (.error message, calls) =>
      { response := reject 500 message, db := locked, gatewayCalls := calls,
        log := checkoutLog req p }
    | (.ok (checkoutSession, committed), calls) =>
      { response :=
          { status := 200, success := true, message := "",
            checkoutUrl := some checkoutSession.checkout_url,
            referenceCode := some p.referenceCode },
        db := committed, gatewayCalls := calls, log := checkoutLog req p }

/-! ## Decimal notation -/

/-- The character of a decimal digit. -/
def decimalDigit (d : Nat) : Char := Char.ofNat (48 + d)

/-- Decimal digits of `n`, most significant first, in front of `acc`, with
`fuel` division steps. -/
def decimalAux : Nat → Nat → List Char → List Char
  | 0, _, acc => acc
  | fuel + 1, n, acc =>
    if n / 10 = 0 then decimalDigit (n % 10) :: acc
    else decimalAux fuel (n / 10) (decimalDigit (n % 10) :: acc)

/-- The decimal notation of a non-negative integer, which is what `String(n)` and
`Array.prototype.join` make of the number `n` below 10^21 (from there on they
write an exponent). -/
def decimal (n : Nat) : List Char := decimalAux (n + 1) n []

/-- The constant `Number.MAX_SAFE_INTEGER`, 2^53 - 1: up to it the numbers of
JavaScript are the integers, `String(n)` is the decimal notation and the
arithmetic of `parseInt` is exact. -/
def MAX_SAFE_INTEGER : Nat := 9007199254740991

/-- An element of a comma-separated list typed by hand: the decimal notation of
`n` with `before` spaces in front of it and `after` spaces behind it. -/
def paddedDecimal (before n after : Nat) : String :=
  String.mk (List.replicate before ' ' ++ decimal n ++ List.replicate after ' ')

/-- The text is the decimal notation of a non-negative integer: one or more
characters, all of them digits. -/
def isDecimalString (s : String) : Bool :=
  s.data != [] && s.data.all fun c => 48 ≤ c.toNat && c.toNat ≤ 57

/-- The characters `join(',')` writes after the first element: a comma in front
of each further element. -/
def commaTail : List (List Char) → List Char
  | [] => []
  | a :: as => ',' :: (a ++ commaTail as)

/-! ## Properties the statements below are about -/

/-- Two reservations are separated when one of them starts at or after the other's
check-out plus the 30-minute cleaning buffer. -/
def Separated (a b : Booking) : Prop :=
  a.check_out_time + 30 * 60000 ≤ b.check_in_time ∨
    b.check_out_time + 30 * 60000 ≤ a.check_in_time

instance (a b : Booking) : Decidable (Separated a b) := by
  unfold Separated
  infer_instance

/-- No double booking: any two distinct rows that are active and on the same room
are separated. -/
def NoDoubleBooking (db : Db) : Prop :=
  db.bookings.Pairwise fun a b =>
    a.room_id = b.room_id → isActiveStatus a.status = true →
      isActiveStatus b.status = true → Separated a b

instance (db : Db) : Decidable (NoDoubleBooking db) := by
  unfold NoDoubleBooking
  infer_instance

/-- The status of the reservation with a reference code, if there is one. -/
def statusOf (db : Db) (referenceCode : String) : Option BookingStatus :=
  (findByReference db referenceCode).map fun b => b.status

/-- A webhook request is correctly signed when the secret is configured and the
header carries the hex HMAC-SHA256 of the raw body under it.  The last conjunct
records that a hex digest is not the empty string. -/
def CorrectlySigned (env : Env) (req : WebhookRequest) : Prop :=
  ∃ secret, env.PAYMONGO_WEBHOOK_SECRET = some secret ∧ secret ≠ "" ∧
    req.signature = some (env.hmacSha256Hex secret req.body) ∧
    env.hmacSha256Hex secret req.body ≠ ""

/-- Primary key of `rooms`: no two rows share a `room_id`. -/
def RoomIdsUnique (db : Db) : Prop :=
  db.rooms.Pairwise fun a b => a.room_id ≠ b.room_id

instance (db : Db) : Decidable (RoomIdsUnique db) := by
  unfold RoomIdsUnique
  infer_instance

/-- Primary key of `bookings`: no two rows share a `booking_id`. -/
def BookingIdsUnique (db : Db) : Prop :=
  db.bookings.Pairwise fun a b => a.booking_id ≠ b.booking_id

instance (db : Db) : Decidable (BookingIdsUnique db) := by
  unfold BookingIdsUnique
  infer_instance

/-- The edges of the booking state machine of the specification. -/
def isTransition : BookingStatus → BookingStatus → Bool
  | .Pending_Payment, .Confirmed => true
  | .Pending_Payment, .Cancelled => true
  | .Confirmed, .Checked_In => true
  | .Confirmed, .Cancelled => true
  | .Checked_In, .Completed => true
  | _, _ => false

/-- The invariant `check_out = check_in + duration_hours` of the data model, with
the duration being a non-zero number of hours. -/
def TimesConsistent (b : Booking) : Prop :=
  b.duration_hours ≠ 0 ∧
    b.check_out_time = b.check_in_time + b.duration_hours * 3600000

instance (b : Booking) : Decidable (TimesConsistent b) := by
  unfold TimesConsistent
  infer_instance

/-- The states reachable from tables without reservations through
`createCheckoutSession`, `createWalkInBooking` and `updateBookingStatus`, each call
with its own platform and request. -/
inductive Reachable : Db → Prop where
  | initial (rooms : List Room) : Reachable { rooms := rooms, bookings := [] }
  | web (env : Env) (req : CheckoutRequest) (db : Db) :
      Reachable db → Reachable (createCheckoutSession env db req).db
  | walkIn (env : Env) (req : WalkInRequest) (db : Db) :
      Reachable db → Reachable (createWalkInBooking env db req).2
  | update (env : Env) (req : StatusUpdateRequest) (db : Db) :
      Reachable db → Reachable (updateBookingStatus env db req).2

/-- The states reachable as in `Reachable` when `updateBookingStatus` is never
asked for the status Completed. -/
inductive ReachableUncompleted : Db → Prop where
  | initial (rooms : List Room) : ReachableUncompleted { rooms := rooms, bookings := [] }
  | web (env : Env) (req : CheckoutRequest) (db : Db) :
      ReachableUncompleted db → ReachableUncompleted (createCheckoutSession env db req).db
  | walkIn (env : Env) (req : WalkInRequest) (db : Db) :
      ReachableUncompleted db → ReachableUncompleted (createWalkInBooking env db req).2
  | update (env : Env) (req : StatusUpdateRequest) (db : Db) :
      req.status ≠ "Completed" →
      ReachableUncompleted db → ReachableUncompleted (updateBookingStatus env db req).2

/-! ## Sample data -/

/-- A Standard room with a 3-hour rate of 500 pesos. -/
def sampleRoom : Room :=
  { room_id := 1, room_number := "101", type := "Standard", name := some "Standard Room",
    base_rate_3hr := pesos 500, base_rate_6hr := pesos 800,
    base_rate_12hr := pesos 1200, base_rate_24hr := pesos 2000,
    status := .Available, lock_expiration := none, locked_by_session_id := none }

/-- A reservation of `sampleRoom` from 14:00 to 17:00 of day 0, in milliseconds. -/
def sampleBooking (status : BookingStatus) : Booking :=
  { booking_id := 1, guest_id := some 7, room_id := 1, reference_code := "BKG-A-B",
    checkout_session_id := some "cs_1", check_in_time := 50400000,
    check_out_time := 61200000, duration_hours := 3, adults_count := 2,
    children_count := 0, child_ages := none, source := .Web, status := status,
    total_amount := pesos 500, created_at := 0 }

/-- The tables with `sampleRoom` and one reservation of the given status. -/
def sampleDb (status : BookingStatus) : Db :=
  { rooms := [sampleRoom], bookings := [sampleBooking status] }

/-- The tables with `sampleRoom` and no reservation. -/
def emptyDb : Db := { rooms := [sampleRoom], bookings := [] }

/-- A toy platform: the clock stands at 0, times are `HH:00` strings read as
hours of day 0, the gateway always opens session `cs_new`, the signature of a
body is the secret followed by the body, and a body decodes to a `paid` event
for reference `BKG-A-B` when it is `paid`, to an `expired` event when it is
`expired`, to an event of an unknown type when it is `other`, and is not JSON
otherwise. -/
def sampleEnv : Env :=
  { now := 0,
    oneYearFromNow := 31536000000,
    dateNow := fun _ => 0,
    mathRandom := fun _ => "0.abcdefghijk",
    toUpperCase := fun s => String.mk (s.data.map Char.toUpper),
    minutesOf := fun _ => some 0,
    dateTimeOf := fun _ t =>
      if t = "11:00" then 39600000 else if t = "14:00" then 50400000 else 64800000,
    FRONTEND_URL := none,
    PAYMONGO_WEBHOOK_SECRET := some "whsec",
    paymongoCreate := fun _ => some { id := "cs_new", checkout_url := "https://pay/cs_new" },
    paymongoGet := fun _ => some { status := some "active", payments := [] },
    hmacSha256Hex := fun secret body => secret ++ ":" ++ body,
    jsonParse := fun body =>
      if body = "paid" then
        some { type := some "checkout_session.payment.paid",
               reference_code := some "BKG-A-B" }
      else if body = "expired" then
        some { type := some "checkout_session.expired", reference_code := some "BKG-A-B" }
      else if body = "other" then
        some { type := some "payment.refunded", reference_code := some "BKG-A-B" }
      else none,
    strictSqlMode := true }

/-- The toy platform with a gateway whose session is expired and lists a failed
payment followed by a paid one. -/
def paidEnv : Env :=
  { sampleEnv with
    paymongoGet := fun _ =>
      some { status := some "expired",
             payments := [{ id := "pay_1", status := "failed" },
                          { id := "pay_2", status := "paid" }] } }

/-- A guest with two adults and the given children. -/
def sampleGuest (children : Int) (ages : ChildAgesInput) : GuestInfo :=
  { guestId := none, firstName := "Ana", lastName := "Cruz", email := "ana@example.com",
    phone := "09170000000", adults := some 2, children := some children,
    childAges := ages }

/-- A request for a Standard room for 3 hours at the given time of day 0. -/
def sampleRequest (checkInTime : String) (children : Int) (ages : ChildAgesInput) :
    CheckoutRequest :=
  { userId := 7, userRole := none, roomSlug := "standard-room", roomId := none,
    selectedRoomId := none, checkInDate := "1970-01-01", checkInTime := checkInTime,
    duration := "3", totalAmount := .absent,
    guestInfo := some (sampleGuest children ages) }

/-- A correctly signed delivery of the given body to `sampleEnv`. -/
def signedWebhook (body : String) : WebhookRequest :=
  { signature := some ("whsec:" ++ body), body := body, isBuffer := true }

/-- A second Standard room, under maintenance. -/
def maintenanceRoom : Room :=
  { sampleRoom with room_id := 2, room_number := "102", status := .Maintenance }

/-- The tables with `sampleRoom`, `maintenanceRoom` and no reservation. -/
def twoRoomDb : Db := { rooms := [sampleRoom, maintenanceRoom], bookings := [] }

/-- The tables in which the candidate code of `sampleEnv` and its fallback form
are both taken. -/
def collidingDb : Db :=
  { rooms := [sampleRoom],
    bookings := [{ sampleBooking .Confirmed with reference_code := "BKG-0-ABCDEFGH" },
                 { sampleBooking .Confirmed with
                     booking_id := 2, reference_code := "BKG-0-ABCDEFGH-ABCD",
                     check_in_time := 504000000, check_out_time := 514800000 }] }

/-- The tables with two Pending_Payment reservations, created six and four
minutes before the clock of `sampleEnv`. -/
def staleDb : Db :=
  { rooms := [sampleRoom],
    bookings := [{ sampleBooking .Pending_Payment with created_at := -360000 },
                 { sampleBooking .Pending_Payment with
                     booking_id := 2, reference_code := "BKG-C-D",
                     check_in_time := 504000000, check_out_time := 514800000,
                     created_at := -240000 }] }

/-- A request of five adults for a room type that does not exist. -/
def fiveAdultsRequest : CheckoutRequest :=
  { sampleRequest "14:00" 0 .absent with
    roomSlug := "penthouse",
    guestInfo := some { sampleGuest 0 .absent with adults := some 5 } }

/-- A request whose adult count is 0. -/
def zeroAdultsRequest : CheckoutRequest :=
  { sampleRequest "14:00" 0 .absent with
    guestInfo := some { sampleGuest 0 .absent with adults := some 0 } }

/-- The toy platform with a gateway that refuses every checkout session. -/
def failingGatewayEnv : Env :=
  { sampleEnv with paymongoCreate := fun _ => none }

/-- What `createCheckoutSession` has computed for `sampleRequest "14:00" 0 .absent`
on `emptyDb` when it opens the transaction. -/
def samplePrepared : PreparedBooking :=
  { availableRoom := sampleRoom, guestInfo := sampleGuest 0 .absent, secureGuestId := 7,
    checkInDateTime := 50400000, checkOutDateTime := 61200000, duration := "3",
    adultsCount := 2, childrenCount := 0, childAges := [],
    serverCalculatedPrice := pesos 500, referenceCode := "BKG-0-ABCDEFGH" }

/-- The request of user 7, a plain guest, who asks to book as user 9999. -/
def impersonationRequest : CheckoutRequest :=
  { sampleRequest "14:00" 0 .absent with
    guestInfo := some { sampleGuest 0 .absent with guestId := some (.id 9999) } }

/-- The availability query for a Standard room at 14:00 of day 0 for 3 hours. -/
def sampleQuery : AvailabilityQuery :=
  { slug := "standard-room", checkInDate := "1970-01-01", checkInTime := "14:00",
    duration := "3h" }

/-- The request of user 7 for the room under maintenance, selected by its id. -/
def maintenanceRoomRequest : CheckoutRequest :=
  { sampleRequest "14:00" 0 .absent with roomId := some 2 }

/-- The request of the test: two adults, three children aged 5, 7 and 10. -/
def threeChildrenRequest : CheckoutRequest :=
  sampleRequest "14:00" 3 (.array ["5", "7", "10"])

/-- The toy platform with the clock at 13:00 of day 0. -/
def afternoonEnv : Env := { sampleEnv with now := 46800000 }

/-- The toy platform with a clock reading of November 2023 and a random source
that yields eleven base-36 digits, as `Math.random().toString(36)` usually does. -/
def realisticEnv : Env :=
  { sampleEnv with dateNow := fun _ => 1700000000000, mathRandom := fun _ => "0.4fzyo82mvyr" }

/-- The platform of `realisticEnv` with a database that is not in a strict SQL
mode. -/
def realisticLaxEnv : Env := { realisticEnv with strictSqlMode := false }

/-- A walk-in for room 1, 3 hours, with the given guest counts. -/
def sampleWalkIn (adults children : Option Int) : WalkInRequest :=
  { roomId := 1, guestName := "Ana Cruz", duration := "3", adults := adults,
    children := children }

/-- The tables with `sampleRoom` and two Confirmed reservations of it, from 08:00
to 11:00 and from 14:00 to 17:00 of day 0. -/
def twoBookingsDb : Db :=
  { rooms := [sampleRoom],
    bookings := [{ sampleBooking .Confirmed with
                     check_in_time := 28800000, check_out_time := 39600000 },
                 { sampleBooking .Confirmed with
                     booking_id := 2, reference_code := "BKG-C-D" }] }

/-! ## Availability -/

theorem isActiveStatus_iff (st : BookingStatus) :
    isActiveStatus st = true ↔
      st = .Pending_Payment ∨ st = .Confirmed ∨ st = .Checked_In := by
  cases st <;> simp [isActiveStatus]

theorem hasOverlap_iff (checkIn checkOut : Int) (b : Booking) :
    hasOverlap checkIn checkOut b = true ↔
      checkIn < b.check_out_time + 30 * 60000 ∧ checkOut > b.check_in_time := by
  simp [hasOverlap, CLEANING_GAP_MINUTES]

theorem checkRoomAvailabilityLoop_false_iff (checkIn checkOut : Int) (l : List Booking) :
    checkRoomAvailabilityLoop checkIn checkOut l = false ↔
      ∃ b ∈ l, hasOverlap checkIn checkOut b = true := by
  induction l with
  | nil => simp [checkRoomAvailabilityLoop]
  | cons b rest ih =>
    by_cases h : hasOverlap checkIn checkOut b = true
    · simp [checkRoomAvailabilityLoop, h]
    · simp [checkRoomAvailabilityLoop, h, ih]

theorem mem_conflictingBookings (db : Db) (roomId : Nat) (b : Booking) :
    b ∈ conflictingBookings db roomId ↔
      b ∈ db.bookings ∧ b.room_id = roomId ∧ isActiveStatus b.status = true := by
  simp [conflictingBookings, List.mem_filter]

theorem checkRoomAvailability_eq_false_iff (db : Db) (roomId : Nat)
    (checkIn checkOut : Int) :
    checkRoomAvailability db roomId checkIn checkOut = false ↔
      ∃ b ∈ db.bookings, b.room_id = roomId ∧ isActiveStatus b.status = true ∧
        checkIn < b.check_out_time + 30 * 60000 ∧ checkOut > b.check_in_time := by
  unfold checkRoomAvailability
  rw [checkRoomAvailabilityLoop_false_iff]
  constructor
  · rintro ⟨b, hb, ho⟩
    rw [mem_conflictingBookings] at hb
    exact ⟨b, hb.1, hb.2.1, hb.2.2, (hasOverlap_iff _ _ _).1 ho⟩
  · rintro ⟨b, hb, hr, ha, ho⟩
    exact ⟨b, (mem_conflictingBookings _ _ _).2 ⟨hb, hr, ha⟩, (hasOverlap_iff _ _ _).2 ho⟩

/-- C2: `checkRoomAvailability` answers `false` exactly when some reservation of
the room with status Pending_Payment, Confirmed or Checked_In satisfies
`checkIn < check_out + 30 min` and `checkOut > check_in`; so a room whose
reservations are all Cancelled or Completed is available.  Against an active
reservation `b` a request starting at `b.check_out + 30 min` does not overlap it
(and is accepted when `b` is the room's only reservation), while every request
with a non-empty window starting in `[b.check_in, b.check_out + 30 min)` is
refused. -/
theorem checkRoomAvailability_spec (db : Db) (roomId : Nat) :
    (∀ checkIn checkOut : Int,
      checkRoomAvailability db roomId checkIn checkOut = false ↔
        ∃ b ∈ db.bookings, b.room_id = roomId ∧
          (b.status = .Pending_Payment ∨ b.status = .Confirmed ∨ b.status = .Checked_In) ∧
          checkIn < b.check_out_time + 30 * 60000 ∧ checkOut > b.check_in_time) ∧
    ((∀ b ∈ db.bookings, b.room_id = roomId →
        b.status = .Cancelled ∨ b.status = .Completed) →
      ∀ checkIn checkOut : Int,
        checkRoomAvailability db roomId checkIn checkOut = true) ∧
    (∀ (b : Booking) (checkOut : Int),
      hasOverlap (b.check_out_time + 30 * 60000) checkOut b = false ∧
      checkRoomAvailability { db with bookings := [b] } roomId
        (b.check_out_time + 30 * 60000) checkOut = true) ∧
    (∀ b ∈ db.bookings, b.room_id = roomId → isActiveStatus b.status = true →
      ∀ checkIn checkOut : Int, b.check_in_time ≤ checkIn →
        checkIn < b.check_out_time + 30 * 60000 → checkIn < checkOut →
        checkRoomAvailability db roomId checkIn checkOut = false) := by
  refine ⟨?_, ?_, ?_, ?_⟩
  · intro checkIn checkOut
    rw [checkRoomAvailability_eq_false_iff]
    simp only [isActiveStatus_iff]
  · intro hall checkIn checkOut
    cases hc : checkRoomAvailability db roomId checkIn checkOut with
    | true => rfl
    | false =>
      rw [checkRoomAvailability_eq_false_iff] at hc
      obtain ⟨b, hb, hr, ha, _⟩ := hc
      rcases hall b hb hr with h | h <;> simp [h, isActiveStatus] at ha
  · intro b checkOut
    have h1 : hasOverlap (b.check_out_time + 30 * 60000) checkOut b = false := by
      simp [hasOverlap, CLEANING_GAP_MINUTES]
    refine ⟨h1, ?_⟩
    cases hc : checkRoomAvailability { db with bookings := [b] } roomId
        (b.check_out_time + 30 * 60000) checkOut with
    | true => rfl
    | false =>
      rw [checkRoomAvailability_eq_false_iff] at hc
      obtain ⟨b1, hb1, _, _, hlt, _⟩ := hc
      simp only [List.mem_singleton] at hb1
      subst hb1
      omega
  · intro b hb hr ha checkIn checkOut h1 h2 h3
    rw [checkRoomAvailability_eq_false_iff]
    exact ⟨b, hb, hr, ha, h2, by omega⟩

/-- Witness for C2 on `sampleDb`: the room is Confirmed from 14:00 to 17:00, a
request starting at 14:00 and ending at 17:00 is refused. -/
theorem checkRoomAvailability_spec_witness :
    sampleBooking .Confirmed ∈ (sampleDb .Confirmed).bookings ∧
    checkRoomAvailability (sampleDb .Confirmed) 1 50400000 61200000 = false :=
  ⟨by decide,
   (checkRoomAvailability_spec (sampleDb .Confirmed) 1).2.2.2
     (sampleBooking .Confirmed) (by decide) (by decide) (by decide)
     50400000 61200000 (by decide) (by decide) (by decide)⟩

/-- C1, evaluated at the failing input: `sampleDb` holds one Confirmed reservation
of room 1 from 14:00 to 17:00 and satisfies `NoDoubleBooking`; the request for
11:00 to 14:00 is answered 200, its reservation ends at the instant the existing
one starts, and the tables afterwards violate `NoDoubleBooking`. -/
theorem createCheckoutSession_books_without_gap_before_existing :
    NoDoubleBooking (sampleDb .Confirmed) ∧
    (createCheckoutSession sampleEnv (sampleDb .Confirmed)
      (sampleRequest "11:00" 0 .absent)).response.status = 200 ∧
    (createCheckoutSession sampleEnv (sampleDb .Confirmed)
      (sampleRequest "11:00" 0 .absent)).db.bookings.map
        (fun b => (b.room_id, b.status, b.check_in_time, b.check_out_time)) =
      [(1, .Confirmed, 50400000, 61200000), (1, .Pending_Payment, 39600000, 50400000)] ∧
    ¬ NoDoubleBooking (createCheckoutSession sampleEnv (sampleDb .Confirmed)
      (sampleRequest "11:00" 0 .absent)).db := by
  decide

/-! ## Web booking: structure of a successful call -/

theorem reject_status (status : Nat) (message : String) :
    (reject status message).status = status := rfl

theorem validateRequest_error (env : Env) (req : CheckoutRequest) (r : CheckoutResponse)
    (h : validateRequest env req = .error r) : r.status = 400 := by
  unfold validateRequest at h
  split at h
  · cases h
    rfl
  · dsimp only at h
    split_ifs at h <;> cases h <;> rfl

theorem validateRequest_ok (env : Env) (req : CheckoutRequest) (v : ValidatedRequest)
    (h : validateRequest env req = .ok v) :
    req.guestInfo = some v.guestInfo ∧ req.duration ∈ validDurations ∧
      v.checkInDateTime = env.dateTimeOf req.checkInDate req.checkInTime ∧
      v.checkOutDateTime = v.checkInDateTime + durationHours req.duration * 3600000 := by
  unfold validateRequest at h
  split at h
  · simp at h
  · rename_i guestInfo hg
    split at h
    · simp at h
    · split at h
      · simp at h
      · rename_i hd
        split at h
        · simp at h
        · simp only at h
          split at h
          · simp at h
          · split at h
            · simp at h
            · cases h
              exact ⟨hg, not_not.mp hd, rfl, rfl⟩

theorem selectRoom_error (db : Db) (req : CheckoutRequest) (roomType : String)
    (checkIn checkOut : Int) (r : CheckoutResponse)
    (h : selectRoom db req roomType checkIn checkOut = .error r) : r.status ≠ 200 := by
  unfold selectRoom at h
  repeat' split at h
  all_goals first
    | (cases h; simp [reject])
    | (simp at h)

theorem findRoom_room_id (db : Db) (n : Nat) (r : Room) (h : findRoom db n = some r) :
    r.room_id = n := by
  unfold findRoom at h
  have := List.find?_some h
  simpa using this

theorem findAvailableRoomIDLoop_some (db : Db) (checkIn checkOut : Int) (l : List Room)
    (n : Nat) (h : findAvailableRoomIDLoop db checkIn checkOut l = some n) :
    checkRoomAvailability db n checkIn checkOut = true := by
  induction l with
  | nil => simp [findAvailableRoomIDLoop] at h
  | cons room rest ih =>
    unfold findAvailableRoomIDLoop at h
    split at h
    · rename_i hav
      cases h
      exact hav
    · exact ih h

theorem selectRoom_ok (db : Db) (req : CheckoutRequest) (roomType : String)
    (checkIn checkOut : Int) (room : Room)
    (h : selectRoom db req roomType checkIn checkOut = .ok room) :
    findRoom db room.room_id = some room ∧
      checkRoomAvailability db room.room_id checkIn checkOut = true := by
  unfold selectRoom at h
  split at h
  · simp at h
  · split at h
    · split at h
      · simp at h
      · rename_i selectedRoom hsel
        split at h
        · simp at h
        · split at h
          · simp at h
          · rename_i hav
            cases h
            have hid := findRoom_room_id _ _ _ hsel
            refine ⟨by rw [hid]; exact hsel, ?_⟩
            simpa using hav
    · split at h
      · simp at h
      · rename_i availableRoomId hsome
        split at h
        · simp at h
        · rename_i availableRoom hroom
          cases h
          have hid := findRoom_room_id _ _ _ hroom
          have hmem := (Option.filter_eq_some.1 hsome).1
          refine ⟨by rw [hid]; exact hroom, ?_⟩
          rw [hid]
          exact findAvailableRoomIDLoop_some _ _ _ _ _ hmem

theorem firstInvalidAge_none (l : List Int) (h : firstInvalidAge l = none) :
    ∀ a ∈ l, 0 ≤ a ∧ a ≤ 13 := by
  induction l with
  | nil => simp
  | cons age rest ih =>
    unfold firstInvalidAge at h
    split at h
    · simp at h
    · rename_i hage
      intro a ha
      rcases List.mem_cons.1 ha with rfl | hmem
      · omega
      · exact ih h a hmem

theorem validateGuests_some (g : GuestInfo) (r : CheckoutResponse)
    (h : validateGuests g = some r) : r.status ≠ 200 := by
  unfold validateGuests at h
  repeat' split at h
  all_goals first
    | (cases h; simp [reject])
    | (simp at h)

theorem validateGuests_none (g : GuestInfo) (h : validateGuests g = none) :
    (1 ≤ adultsCount g ∧ adultsCount g ≤ 4) ∧
    (0 ≤ childrenCount g ∧ childrenCount g ≤ 2) ∧
    (childrenCount g > 0 → ((childAges g).length : Int) = childrenCount g) ∧
    (∀ a ∈ childAges g, 0 ≤ a ∧ a ≤ 13) := by
  unfold validateGuests at h
  split at h
  · simp at h
  · split at h
    · simp at h
    · rename_i hadults
      split at h
      · simp at h
      · rename_i hchildren
        split at h
        · simp at h
        · rename_i hlen
          split at h
          · simp at h
          · rename_i hages
            refine ⟨by omega, by omega, ?_, firstInvalidAge_none _ hages⟩
            intro hpos
            by_contra hne
            exact hlen ⟨hpos, hne⟩

theorem childAddOnPrice_eq (ages : List Int) :
    childAddOnPrice ages =
      pesos 150 * ((ages.filter fun a => decide (7 ≤ a ∧ a ≤ 13)).length : Int) := by
  induction ages with
  | nil => simp [childAddOnPrice]
  | cons age rest ih =>
    unfold childAddOnPrice
    by_cases h : age ≥ 7 ∧ age ≤ 13
    · have h2 : (7 ≤ age ∧ age ≤ 13) := ⟨h.1, h.2⟩
      simp only [h, and_self, if_true, ih, List.filter_cons, h2, decide_True,
        List.length_cons, Nat.cast_add, Nat.cast_one]
      ring
    · have h2 : ¬ (7 ≤ age ∧ age ≤ 13) := fun hh => h ⟨hh.1, hh.2⟩
      simp only [h, if_false, ih, List.filter_cons, h2, decide_False]
      simp

theorem prepareBooking_error (env : Env) (db : Db) (req : CheckoutRequest)
    (r : CheckoutResponse) (h : prepareBooking env db req = .error r) :
    r.status ≠ 200 := by
  unfold prepareBooking at h
  split at h
  · rename_i response hv
    cases h
    rw [validateRequest_error env req _ hv]
    decide
  · split at h
    · rename_i response hs
      cases h
      exact selectRoom_error _ _ _ _ _ _ hs
    · split at h
      · cases h
        simp [reject]
      · split at h
        · rename_i response hg
          cases h
          exact validateGuests_some _ _ hg
        · simp at h

theorem prepareBooking_ok (env : Env) (db : Db) (req : CheckoutRequest)
    (p : PreparedBooking) (h : prepareBooking env db req = .ok p) :
    ∃ basePrice,
      validateRequest env req =
        .ok { guestInfo := p.guestInfo, checkInDateTime := p.checkInDateTime,
              checkOutDateTime := p.checkOutDateTime } ∧
      selectRoom db req (roomTypeOf env req.roomSlug) p.checkInDateTime
        p.checkOutDateTime = .ok p.availableRoom ∧
      baseRoomPrice p.availableRoom req.duration = some basePrice ∧
      validateGuests p.guestInfo = none ∧
      p.secureGuestId = secureGuestId req ∧
      p.duration = req.duration ∧
      p.adultsCount = adultsCount p.guestInfo ∧
      p.childrenCount = childrenCount p.guestInfo ∧
      p.childAges = childAges p.guestInfo ∧
      p.serverCalculatedPrice = serverCalculatedPrice basePrice (childAges p.guestInfo) ∧
      p.referenceCode = generateUniqueReferenceCode env db := by
  unfold prepareBooking at h
  split at h
  · simp at h
  · rename_i v hv
    split at h
    · simp at h
    · rename_i availableRoom hs
      split at h
      · simp at h
      · rename_i basePrice hb
        split at h
        · simp at h
        · rename_i hg
          cases h
          exact ⟨basePrice, hv, hs, hb, hg, rfl, rfl, rfl, rfl, rfl, rfl, rfl⟩

theorem booking_id_lt_nextBookingId (db : Db) (b : Booking) (h : b ∈ db.bookings) :
    b.booking_id < nextBookingId db := by
  unfold nextBookingId
  have key : ∀ l : List Booking, b ∈ l →
      b.booking_id ≤ (l.map fun b => b.booking_id).foldr max 0 := by
    intro l
    induction l with
    | nil => simp
    | cons x xs ih =>
      intro hb
      rcases List.mem_cons.1 hb with rfl | hmem
      · simp
      · have := ih hmem
        simp only [List.map_cons, List.foldr_cons]
        omega
  have := key db.bookings h
  omega

theorem setCheckoutSessionId_append_new (db : Db) (b : Booking) (sessionId : String)
    (hb : b.booking_id = nextBookingId db) :
    (setCheckoutSessionId { db with bookings := db.bookings ++ [b] } b.booking_id
        sessionId).bookings =
      db.bookings ++ [{ b with checkout_session_id := some sessionId }] := by
  unfold setCheckoutSessionId
  simp only [List.map_append, List.map_cons, List.map_nil, if_true]
  congr 1
  conv_rhs => rw [← List.map_id db.bookings]
  apply List.map_congr_left
  intro x hx
  have := booking_id_lt_nextBookingId db x hx
  have hne : x.booking_id ≠ b.booking_id := by omega
  simp [hne]

theorem createCheckoutSession_ok (env : Env) (db : Db) (req : CheckoutRequest)
    (h : (createCheckoutSession env db req).response.status = 200) :
    ∃ p lockedRoom session,
      prepareBooking env db req = .ok p ∧
      findRoom db p.availableRoom.room_id = some lockedRoom ∧
      checkRoomAvailability db lockedRoom.room_id p.checkInDateTime
        p.checkOutDateTime = true ∧
      env.paymongoCreate (checkoutPayload env req p) = some session ∧
      (createCheckoutSession env db req).response =
        { status := 200, success := true, message := "",
          checkoutUrl := some session.checkout_url,
          referenceCode := some p.referenceCode } ∧
      (createCheckoutSession env db req).db =
        setCheckoutSessionId
          { db with bookings := db.bookings ++ [pendingBooking env db lockedRoom p] }
          (nextBookingId db) session.id ∧
      (createCheckoutSession env db req).gatewayCalls = [checkoutPayload env req p] := by
  cases hprep : prepareBooking env db req with
  | error r =>
    have hne := prepareBooking_error env db req r hprep
    simp only [createCheckoutSession, hprep] at h
    exact absurd h hne
  | ok p =>
    cases hroom : findRoom db p.availableRoom.room_id with
    | none =>
      simp [createCheckoutSession, hprep, bookingTransaction, hroom, reject] at h
    | some lockedRoom =>
      cases hav : checkRoomAvailability db lockedRoom.room_id p.checkInDateTime
          p.checkOutDateTime with
      | false =>
        simp [createCheckoutSession, hprep, bookingTransaction, hroom, hav, reject] at h
      | true =>
        by_cases hlong : env.strictSqlMode = true ∧
            REFERENCE_CODE_LENGTH < p.referenceCode.length
        · simp [createCheckoutSession, hprep, bookingTransaction, hroom, hav, hlong,
            reject] at h
        · cases hpay : env.paymongoCreate (checkoutPayload env req p) with
          | none =>
            simp only [createCheckoutSession, hprep, bookingTransaction, hroom, hav,
              if_neg hlong, hpay] at h
            simp [reject] at h
          | some session =>
            refine ⟨p, lockedRoom, session, rfl, hroom, hav, hpay, ?_, ?_, ?_⟩ <;>
              simp only [createCheckoutSession, hprep, bookingTransaction, hroom, hav,
                if_neg hlong, hpay] <;>
              simp [pendingBooking]

theorem createCheckoutSession_ok_code (env : Env) (db : Db) (req : CheckoutRequest)
    (p : PreparedBooking) (hprep : prepareBooking env db req = .ok p)
    (h : (createCheckoutSession env db req).response.status = 200) :
    env.strictSqlMode = true → p.referenceCode.length ≤ REFERENCE_CODE_LENGTH := by
  intro hstrict
  by_contra hlen
  have hlong : env.strictSqlMode = true ∧
      REFERENCE_CODE_LENGTH < p.referenceCode.length := ⟨hstrict, by omega⟩
  cases hroom : findRoom db p.availableRoom.room_id with
  | none =>
    simp [createCheckoutSession, hprep, bookingTransaction, hroom, reject] at h
  | some lockedRoom =>
    cases hav : checkRoomAvailability db lockedRoom.room_id p.checkInDateTime
        p.checkOutDateTime with
    | false =>
      simp [createCheckoutSession, hprep, bookingTransaction, hroom, hav, reject] at h
    | true =>
      simp [createCheckoutSession, hprep, bookingTransaction, hroom, hav, hlong,
        reject] at h

theorem storedReferenceCode_of_le (referenceCode : String)
    (h : referenceCode.length ≤ REFERENCE_CODE_LENGTH) :
    storedReferenceCode referenceCode = referenceCode := by
  unfold storedReferenceCode
  rw [List.take_of_length_le h]

/-! ## Pricing -/

/-- C4: the price is the base rate plus 150 pesos for each age from 7 to 13, and
ages 0 to 6 add nothing; whenever `createCheckoutSession` answers 200, the duration
is one of 3, 6, 12, 24, the validated ages lie in 0..13, and both the total
persisted on the new reservation and the amount sent to the gateway equal the
chosen room's rate for the duration plus 150 pesos times the number of validated
ages from 7 to 13. -/
theorem createCheckoutSession_total (env : Env) (db : Db) (req : CheckoutRequest) :
    (∀ (base : Money) (ages : List Int),
      serverCalculatedPrice base ages =
        base + pesos 150 * ((ages.filter fun a => decide (7 ≤ a ∧ a ≤ 13)).length : Int)) ∧
    (∀ (base : Money) (ages : List Int), (∀ a ∈ ages, 0 ≤ a ∧ a ≤ 6) →
      serverCalculatedPrice base ages = base) ∧
    ((createCheckoutSession env db req).response.status = 200 →
      ∃ (room : Room) (guestInfo : GuestInfo) (base : Money) (b : Booking),
        room ∈ db.rooms ∧ req.guestInfo = some guestInfo ∧
        req.duration ∈ validDurations ∧
        room.baseRate req.duration = some base ∧
        (∀ a ∈ childAges guestInfo, 0 ≤ a ∧ a ≤ 13) ∧
        (createCheckoutSession env db req).db.bookings = db.bookings ++ [b] ∧
        b.room_id = room.room_id ∧
        b.total_amount = base + pesos 150 *
          (((childAges guestInfo).filter fun a => decide (7 ≤ a ∧ a ≤ 13)).length : Int) ∧
        (createCheckoutSession env db req).gatewayCalls.map
            (fun c => c.line_items.map fun i => i.amount) =
          [[b.total_amount]]) := by
  refine ⟨?_, ?_, ?_⟩
  · intro base ages
    simp [serverCalculatedPrice, childAddOnPrice_eq]
  · intro base ages hfree
    have hnil : (ages.filter fun a => decide (7 ≤ a ∧ a ≤ 13)) = [] := by
      rw [List.filter_eq_nil_iff]
      intro a ha
      have := hfree a ha
      simp only [decide_eq_true_eq]
      omega
    rw [serverCalculatedPrice, childAddOnPrice_eq, hnil]
    simp
  · intro h
    obtain ⟨p, lockedRoom, session, hprep, hroom, _, _, _, hdb, hcalls⟩ :=
      createCheckoutSession_ok env db req h
    obtain ⟨basePrice, hv, hs, hb, hg, _, _, _, _, _, hprice, _⟩ :=
      prepareBooking_ok env db req p hprep
    obtain ⟨hguest, hdur, _, _⟩ := validateRequest_ok env req _ hv
    obtain ⟨_, _, _, hages⟩ := validateGuests_none _ hg
    have hrate : p.availableRoom.baseRate req.duration = some basePrice := by
      unfold baseRoomPrice at hb
      exact (Option.filter_eq_some.1 hb).1
    have hmem : p.availableRoom ∈ db.rooms := by
      have := (selectRoom_ok _ _ _ _ _ _ hs).1
      unfold findRoom at this
      exact List.mem_of_find?_eq_some this
    have hlocked : lockedRoom.room_id = p.availableRoom.room_id :=
      findRoom_room_id _ _ _ hroom
    refine ⟨p.availableRoom, p.guestInfo, basePrice,
      { pendingBooking env db lockedRoom p with checkout_session_id := some session.id },
      hmem, hguest, hdur, hrate, hages, ?_, hlocked, ?_, ?_⟩
    · rw [hdb]
      exact setCheckoutSessionId_append_new db (pendingBooking env db lockedRoom p)
        session.id rfl
    · show p.serverCalculatedPrice = _
      rw [hprice]
      simp [serverCalculatedPrice, childAddOnPrice_eq]
    · rw [hcalls]
      simp [checkoutPayload, pendingBooking]

/-- Witness for C4: a Standard room with a 3-hour rate of 500 pesos and children
aged 6 and 10 is booked for 650 pesos, of which 150 for the child aged 10. -/
theorem createCheckoutSession_total_witness :
    (createCheckoutSession sampleEnv emptyDb
      (sampleRequest "14:00" 2 (.array ["6", "10"]))).response.status = 200 ∧
    serverCalculatedPrice (pesos 500) [6, 10] = pesos 650 ∧
    (createCheckoutSession sampleEnv emptyDb
      (sampleRequest "14:00" 2 (.array ["6", "10"]))).db.bookings.map
        (fun b => (b.total_amount, b.child_ages)) = [(pesos 650, some [6, 10])] ∧
    ∃ (room : Room) (guestInfo : GuestInfo) (base : Money) (b : Booking),
      room ∈ emptyDb.rooms ∧
      (sampleRequest "14:00" 2 (.array ["6", "10"])).guestInfo = some guestInfo ∧
      (sampleRequest "14:00" 2 (.array ["6", "10"])).duration ∈ validDurations ∧
      room.baseRate (sampleRequest "14:00" 2 (.array ["6", "10"])).duration = some base ∧
      (∀ a ∈ childAges guestInfo, 0 ≤ a ∧ a ≤ 13) ∧
      (createCheckoutSession sampleEnv emptyDb
        (sampleRequest "14:00" 2 (.array ["6", "10"]))).db.bookings =
          emptyDb.bookings ++ [b] ∧
      b.room_id = room.room_id ∧
      b.total_amount = base + pesos 150 *
        (((childAges guestInfo).filter fun a => decide (7 ≤ a ∧ a ≤ 13)).length : Int) ∧
      (createCheckoutSession sampleEnv emptyDb
          (sampleRequest "14:00" 2 (.array ["6", "10"]))).gatewayCalls.map
          (fun c => c.line_items.map fun i => i.amount) =
        [[b.total_amount]] :=
  ⟨by decide, by decide, by decide,
   (createCheckoutSession_total sampleEnv emptyDb
      (sampleRequest "14:00" 2 (.array ["6", "10"]))).2.2 (by decide)⟩

theorem prepareBooking_totalAmount (env : Env) (db : Db) (req : CheckoutRequest)
    (amount : ClientAmount) :
    prepareBooking env db { req with totalAmount := amount } =
      prepareBooking env db req := rfl

theorem bookingTransaction_totalAmount (env : Env) (db : Db) (req : CheckoutRequest)
    (amount : ClientAmount) (p : PreparedBooking) :
    bookingTransaction env db { req with totalAmount := amount } p =
      bookingTransaction env db req p := rfl

/-- C5: two `createCheckoutSession` requests that differ only in the client's
`totalAmount` (absent, any number, any string), run on the same tables with the
same platform and gateway, get the same answer, leave the same tables and send the
same payloads to the gateway; so the persisted `total_amount` and the amount sent
to the gateway coincide in the two runs. -/
theorem createCheckoutSession_ignores_totalAmount (env : Env) (db : Db)
    (req : CheckoutRequest) (amount1 amount2 : ClientAmount) :
    (createCheckoutSession env db { req with totalAmount := amount1 }).response =
      (createCheckoutSession env db { req with totalAmount := amount2 }).response ∧
    (createCheckoutSession env db { req with totalAmount := amount1 }).db =
      (createCheckoutSession env db { req with totalAmount := amount2 }).db ∧
    (createCheckoutSession env db { req with totalAmount := amount1 }).gatewayCalls =
      (createCheckoutSession env db { req with totalAmount := amount2 }).gatewayCalls ∧
    (createCheckoutSession env db { req with totalAmount := amount1 }).db.bookings.map
        (fun b => b.total_amount) =
      (createCheckoutSession env db { req with totalAmount := amount2 }).db.bookings.map
        (fun b => b.total_amount) ∧
    (createCheckoutSession env db { req with totalAmount := amount1 }).gatewayCalls.map
        (fun c => c.line_items.map fun i => i.amount) =
      (createCheckoutSession env db { req with totalAmount := amount2 }).gatewayCalls.map
        (fun c => c.line_items.map fun i => i.amount) := by
  have key : ∀ amount : ClientAmount,
      (createCheckoutSession env db { req with totalAmount := amount }).response =
        (createCheckoutSession env db req).response ∧
      (createCheckoutSession env db { req with totalAmount := amount }).db =
        (createCheckoutSession env db req).db ∧
      (createCheckoutSession env db { req with totalAmount := amount }).gatewayCalls =
        (createCheckoutSession env db req).gatewayCalls := by
    intro amount
    unfold createCheckoutSession
    rw [prepareBooking_totalAmount]
    cases prepareBooking env db req with
    | error r => exact ⟨rfl, rfl, rfl⟩
    | ok p =>
      simp only
      rw [bookingTransaction_totalAmount]
      rcases bookingTransaction env db req p with ⟨_ | ⟨session, committed⟩, calls⟩ <;>
        exact ⟨rfl, rfl, rfl⟩
  obtain ⟨h1, h2, h3⟩ := key amount1
  obtain ⟨k1, k2, k3⟩ := key amount2
  rw [h1, h2, h3, k1, k2, k3]
  exact ⟨rfl, rfl, rfl, rfl, rfl⟩

/-! ## Payment reconciliation -/

theorem findByReference_setStatus (db : Db) (bookingId : Nat) (status : BookingStatus)
    (referenceCode : String) :
    findByReference (setStatus db bookingId status) referenceCode =
      (findByReference db referenceCode).map fun b =>
        if b.booking_id = bookingId then { b with status := status } else b := by
  unfold findByReference setStatus
  simp only [List.find?_map]
  congr 1
  congr 1
  funext b
  by_cases h : b.booking_id = bookingId <;> simp [h]

theorem setStatus_setStatus (db : Db) (bookingId : Nat) (status : BookingStatus) :
    setStatus (setStatus db bookingId status) bookingId status =
      setStatus db bookingId status := by
  unfold setStatus
  simp only [List.map_map]
  congr 1
  apply List.map_congr_left
  intro b _
  by_cases h : b.booking_id = bookingId <;> simp [h]

theorem timingSafeEqual_self (a : String) : timingSafeEqual a a = some true := by
  simp [timingSafeEqual]

theorem timingSafeEqual_ne (a b : String) (h : a ≠ b) :
    (timingSafeEqual a b).getD false = false := by
  unfold timingSafeEqual
  split
  · rfl
  · simp [h]

theorem handleWebhook_signed (env : Env) (faults : Faults) (db : Db)
    (req : WebhookRequest) (h : CorrectlySigned env req) (hbuf : req.isBuffer = true) :
    handleWebhook env faults db req =
      match processWebhookEvent env faults db req.body with
      | .ok db1 => ({ status := 200, received := true, error := none }, db1)
      | .error message => ({ status := 200, received := true, error := some message }, db) := by
  obtain ⟨secret, hsecret, hne, hsig, hmac⟩ := h
  unfold handleWebhook
  have h1 : Option.filter (fun s => s != "") req.signature =
      some (env.hmacSha256Hex secret req.body) := by
    rw [hsig]
    simp [Option.filter, hmac]
  have h2 : Option.filter (fun s => s != "") env.PAYMONGO_WEBHOOK_SECRET = some secret := by
    rw [hsecret]
    simp [Option.filter, hne]
  rw [h1, h2]
  simp [timingSafeEqual_self, hbuf]

theorem handleWebhook_not_buffer (env : Env) (faults : Faults) (db : Db)
    (req : WebhookRequest) (h : CorrectlySigned env req) (hbuf : req.isBuffer = false) :
    handleWebhook env faults db req =
      ({ status := 200, received := true, error := some "ERR_INVALID_ARG_TYPE" }, db) := by
  obtain ⟨secret, hsecret, hne, hsig, hmac⟩ := h
  unfold handleWebhook
  have h1 : Option.filter (fun s => s != "") req.signature =
      some (env.hmacSha256Hex secret req.body) := by
    rw [hsig]
    simp [Option.filter, hmac]
  have h2 : Option.filter (fun s => s != "") env.PAYMONGO_WEBHOOK_SECRET = some secret := by
    rw [hsecret]
    simp [Option.filter, hne]
  rw [h1, h2]
  simp [hbuf]

theorem processWebhookEvent_again (env : Env) (faults : Faults) (db : Db) (body : String)
    (db1 : Db) (h : processWebhookEvent env faults db body = .ok db1) :
    processWebhookEvent env faults db1 body = .ok db1 := by
  unfold processWebhookEvent at h ⊢
  cases hp : env.jsonParse body with
  | none => simp [hp] at h
  | some payload =>
    simp only [hp] at h ⊢
    split_ifs at h ⊢ with hpaid hexp
    · cases hc : payload.reference_code.filter (fun code => code != "") with
      | none =>
        simp only [hc] at h ⊢
      | some referenceCode =>
        simp only [hc] at h ⊢
        unfold findOneBooking updateStatus at h ⊢
        by_cases hf : faults.findOneThrows = true
        · simp [hf] at h
        · simp only [hf] at h ⊢
          cases hb : findByReference db referenceCode with
          | none =>
            simp only [hb] at h
            cases h
            simp [hb]
          | some booking =>
            simp only [hb] at h
            by_cases hu : faults.updateThrows = true
            · simp [hu] at h
            · simp only [hu] at h
              simp only [Bool.false_eq_true, if_false, Except.ok.injEq] at h
              subst h
              simp only [Bool.false_eq_true, if_false, findByReference_setStatus, hb,
                Option.map_some', if_true, hu]
              rw [setStatus_setStatus]
    · cases hc : payload.reference_code.filter (fun code => code != "") with
      | none =>
        simp only [hc] at h ⊢
      | some referenceCode =>
        simp only [hc] at h ⊢
        unfold findOneBooking updateStatus at h ⊢
        by_cases hf : faults.findOneThrows = true
        · simp [hf] at h
        · simp only [hf] at h ⊢
          cases hb : findByReference db referenceCode with
          | none =>
            simp only [hb] at h
            cases h
            simp [hb]
          | some booking =>
            simp only [hb] at h
            by_cases hs : booking.status = .Pending_Payment
            · by_cases hu : faults.updateThrows = true
              · simp [hu, hs] at h
              · simp [hu, hs] at h
                subst h
                simp [findByReference_setStatus, hb]
            · simp [hs] at h
              subst h
              simp [hb, hs]
    · cases h
      rfl

/-- C6, evaluated at the failing inputs: a correctly signed `paid` event for the
reference code of a reservation that is Cancelled, Completed or Checked_In is
answered 200 and moves that reservation to Confirmed. -/
theorem handleWebhook_paid_confirms_any_status :
    CorrectlySigned sampleEnv (signedWebhook "paid") ∧
    sampleEnv.jsonParse (signedWebhook "paid").body =
      some { type := some "checkout_session.payment.paid",
             reference_code := some "BKG-A-B" } ∧
    statusOf (sampleDb .Cancelled) "BKG-A-B" = some .Cancelled ∧
    (handleWebhook sampleEnv Faults.none (sampleDb .Cancelled)
      (signedWebhook "paid")).1.status = 200 ∧
    statusOf (handleWebhook sampleEnv Faults.none (sampleDb .Cancelled)
      (signedWebhook "paid")).2 "BKG-A-B" = some .Confirmed ∧
    statusOf (handleWebhook sampleEnv Faults.none (sampleDb .Completed)
      (signedWebhook "paid")).2 "BKG-A-B" = some .Confirmed ∧
    statusOf (handleWebhook sampleEnv Faults.none (sampleDb .Checked_In)
      (signedWebhook "paid")).2 "BKG-A-B" = some .Confirmed :=
  ⟨⟨"whsec", rfl, by decide, rfl, by decide⟩, by decide, by decide, by decide, by decide,
    by decide, by decide⟩

/-- C7: delivering a correctly signed event twice leaves the same tables as
delivering it once, and both deliveries are answered 200; this holds for every
event, the `checkout_session.payment.paid` event included, and whether or not the
store calls raise. -/
theorem handleWebhook_replay (env : Env) (faults : Faults) (db : Db)
    (req : WebhookRequest) (h : CorrectlySigned env req) :
    (handleWebhook env faults (handleWebhook env faults db req).2 req).2 =
      (handleWebhook env faults db req).2 ∧
    (handleWebhook env faults db req).1.status = 200 ∧
    (handleWebhook env faults (handleWebhook env faults db req).2 req).1.status = 200 := by
  cases hbuf : req.isBuffer with
  | false =>
    have hsame : ∀ d : Db, handleWebhook env faults d req =
        ({ status := 200, received := true, error := some "ERR_INVALID_ARG_TYPE" }, d) :=
      fun d => handleWebhook_not_buffer env faults d req h hbuf
    rw [hsame db, hsame db]
    exact ⟨rfl, rfl, rfl⟩
  | true =>
    have status200 : ∀ d : Db, (handleWebhook env faults d req).1.status = 200 := by
      intro d
      rw [handleWebhook_signed env faults d req h hbuf]
      cases processWebhookEvent env faults d req.body <;> rfl
    refine ⟨?_, status200 _, status200 _⟩
    cases hp : processWebhookEvent env faults db req.body with
    | error e =>
      have h1 : (handleWebhook env faults db req).2 = db := by
        rw [handleWebhook_signed env faults db req h hbuf, hp]
      rw [h1, h1]
    | ok db1 =>
      have h1 : (handleWebhook env faults db req).2 = db1 := by
        rw [handleWebhook_signed env faults db req h hbuf, hp]
      rw [h1, handleWebhook_signed env faults db1 req h hbuf,
        processWebhookEvent_again env faults db req.body db1 hp]

/-- Witness for C7: the `paid` event for a Pending_Payment reservation, delivered
twice to `sampleEnv`; the reservation is Confirmed after the first delivery. -/
theorem handleWebhook_replay_witness :
    CorrectlySigned sampleEnv (signedWebhook "paid") ∧
    statusOf (handleWebhook sampleEnv Faults.none (sampleDb .Pending_Payment)
      (signedWebhook "paid")).2 "BKG-A-B" = some .Confirmed ∧
    ((handleWebhook sampleEnv Faults.none
        (handleWebhook sampleEnv Faults.none (sampleDb .Pending_Payment)
          (signedWebhook "paid")).2 (signedWebhook "paid")).2 =
      (handleWebhook sampleEnv Faults.none (sampleDb .Pending_Payment)
        (signedWebhook "paid")).2 ∧
    (handleWebhook sampleEnv Faults.none (sampleDb .Pending_Payment)
      (signedWebhook "paid")).1.status = 200 ∧
    (handleWebhook sampleEnv Faults.none
      (handleWebhook sampleEnv Faults.none (sampleDb .Pending_Payment)
        (signedWebhook "paid")).2 (signedWebhook "paid")).1.status = 200) :=
  ⟨⟨"whsec", rfl, by decide, rfl, by decide⟩, by decide,
    handleWebhook_replay sampleEnv Faults.none (sampleDb .Pending_Payment)
      (signedWebhook "paid") ⟨"whsec", rfl, by decide, rfl, by decide⟩⟩

/-- With the webhook secret configured, a request whose body was read into a
`Buffer` and whose `Paymongo-Signature` header is missing, or differs from the hex
HMAC-SHA256 of the raw body under the secret, is answered 401 and leaves the
tables as they were, whatever the body; a request without the header is answered
401 whether or not its body was read. -/
theorem handleWebhook_rejects_bad_signature (env : Env) (faults : Faults) (db : Db)
    (req : WebhookRequest) (secret : String)
    (hsecret : env.PAYMONGO_WEBHOOK_SECRET = some secret) (hne : secret ≠ "")
    (hbad : req.signature = none ∨
      (req.isBuffer = true ∧
        ∃ s, req.signature = some s ∧ s ≠ env.hmacSha256Hex secret req.body)) :
    (handleWebhook env faults db req).1.status = 401 ∧
      (handleWebhook env faults db req).2 = db := by
  unfold handleWebhook
  cases hsig : req.signature.filter (fun s => s != "") with
  | none => exact ⟨rfl, rfl⟩
  | some signature =>
    have h2 : Option.filter (fun s => s != "") env.PAYMONGO_WEBHOOK_SECRET = some secret := by
      rw [hsecret]
      simp [Option.filter, hne]
    have hreq : req.signature = some signature := (Option.filter_eq_some.1 hsig).1
    rcases hbad with hnone | ⟨hbuf, s, hs, hsne⟩
    · rw [hnone] at hreq
      cases hreq
    · have hdiff : signature ≠ env.hmacSha256Hex secret req.body := by
        rw [hs] at hreq
        cases hreq
        exact hsne
      simp only [h2, hbuf, Bool.true_eq_false, if_false]
      rw [timingSafeEqual_ne _ _ hdiff]
      exact ⟨rfl, rfl⟩

/-- A `paid` body of content type `application/json` for a Pending_Payment
reservation with a forged signature is answered 401 and the reservation stays
Pending_Payment. -/
theorem handleWebhook_rejects_bad_signature_sample :
    (handleWebhook sampleEnv Faults.none (sampleDb .Pending_Payment)
      { signature := some "forged", body := "paid", isBuffer := true }).1.status = 401 ∧
    (handleWebhook sampleEnv Faults.none (sampleDb .Pending_Payment)
      { signature := some "forged", body := "paid", isBuffer := true }).2 =
      sampleDb .Pending_Payment :=
  handleWebhook_rejects_bad_signature sampleEnv Faults.none (sampleDb .Pending_Payment)
    { signature := some "forged", body := "paid", isBuffer := true } "whsec" rfl (by decide)
    (Or.inr ⟨rfl, "forged", rfl, by decide⟩)

/-- C8, the code at the failing input: with the secret configured, a request
whose body `express.raw` did not read (any content type other than
`application/json`) and whose `Paymongo-Signature` header is a forged text, not the
HMAC of the body, is answered 200, not 401, because hashing `req.body` throws
before the signatures are compared; the reservation is left as it was.  The same
forged request sent as `application/json` is answered 401. -/
theorem handleWebhook_acknowledges_forged_unread_body :
    sampleEnv.PAYMONGO_WEBHOOK_SECRET = some "whsec" ∧
    "forged" ≠ sampleEnv.hmacSha256Hex "whsec" "paid" ∧
    handleWebhook sampleEnv Faults.none (sampleDb .Pending_Payment)
        { signature := some "forged", body := "paid", isBuffer := false } =
      ({ status := 200, received := true, error := some "ERR_INVALID_ARG_TYPE" },
        sampleDb .Pending_Payment) ∧
    (handleWebhook sampleEnv Faults.none (sampleDb .Pending_Payment)
      { signature := some "forged", body := "paid", isBuffer := true }).1.status = 401 := by
  decide

/-- C9: a correctly signed webhook request is always answered 200: for a known
event, for an event of an unknown type (which leaves the tables unchanged), for a
body that is not valid JSON (tables unchanged), and when the reservation lookup or
the update raises an error (tables unchanged). -/
theorem handleWebhook_always_acknowledges (env : Env) (faults : Faults) (db : Db)
    (req : WebhookRequest) (h : CorrectlySigned env req) :
    (handleWebhook env faults db req).1.status = 200 ∧
    (env.jsonParse req.body = none → (handleWebhook env faults db req).2 = db) ∧
    (∀ payload, env.jsonParse req.body = some payload →
      payload.type ≠ some "checkout_session.payment.paid" →
      payload.type ≠ some "checkout_session.expired" →
      (handleWebhook env faults db req).2 = db) ∧
    (faults.findOneThrows = true → (handleWebhook env faults db req).2 = db) ∧
    (faults.updateThrows = true → (handleWebhook env faults db req).2 = db) := by
  by_cases hbuf : req.isBuffer = false
  · rw [handleWebhook_not_buffer env faults db req h hbuf]
    exact ⟨rfl, fun _ => rfl, fun _ _ _ _ => rfl, fun _ => rfl, fun _ => rfl⟩
  rw [handleWebhook_signed env faults db req h (by simpa using hbuf)]
  refine ⟨?_, ?_, ?_, ?_, ?_⟩
  · cases processWebhookEvent env faults db req.body <;> rfl
  · intro hnone
    simp [processWebhookEvent, hnone]
  · intro payload hsome h1 h2
    simp [processWebhookEvent, hsome, h1, h2]
  · intro hf
    unfold processWebhookEvent
    cases env.jsonParse req.body with
    | none => rfl
    | some payload =>
      simp only
      split_ifs <;>
        first
        | rfl
        | (cases payload.reference_code.filter (fun code => code != "") <;>
            simp [findOneBooking, hf])
  · intro hu
    unfold processWebhookEvent
    cases env.jsonParse req.body with
    | none => rfl
    | some payload =>
      simp only
      split_ifs <;>
        first
        | rfl
        | (cases payload.reference_code.filter (fun code => code != "") with
            | none => rfl
            | some referenceCode =>
              simp only
              cases findOneBooking faults db referenceCode with
              | error e => rfl
              | ok found =>
                cases found with
                | none => rfl
                | some booking =>
                  first
                  | (simp only [updateStatus, hu, if_true]; done)
                  | (simp only [updateStatus, hu, if_true]; split_ifs <;> rfl))

/-- Witness for C9: on `sampleEnv` a signed body that is not JSON, and a signed
`paid` event whose update raises, are both answered 200 with the reservation left
Pending_Payment. -/
theorem handleWebhook_always_acknowledges_witness :
    CorrectlySigned sampleEnv (signedWebhook "garbage") ∧
    (handleWebhook sampleEnv Faults.none (sampleDb .Pending_Payment)
      (signedWebhook "garbage")).1.status = 200 ∧
    (handleWebhook sampleEnv { findOneThrows := false, updateThrows := true }
      (sampleDb .Pending_Payment) (signedWebhook "paid")) =
      ({ status := 200, received := true, error := some "SequelizeDatabaseError" },
        sampleDb .Pending_Payment) :=
  ⟨⟨"whsec", rfl, by decide, rfl, by decide⟩,
    (handleWebhook_always_acknowledges sampleEnv Faults.none (sampleDb .Pending_Payment)
      (signedWebhook "garbage") ⟨"whsec", rfl, by decide, rfl, by decide⟩).1,
    by decide⟩

theorem findOneBooking_ok (faults : Faults) (db : Db) (referenceCode : String)
    (found : Option Booking) (h : findOneBooking faults db referenceCode = .ok found) :
    findByReference db referenceCode = found := by
  unfold findOneBooking at h
  split at h
  · simp at h
  · cases h
    rfl

theorem statusOf_setStatus (db : Db) (referenceCode : String) (booking : Booking)
    (status : BookingStatus) (h : findByReference db referenceCode = some booking) :
    statusOf (setStatus db booking.booking_id status) referenceCode = some status := by
  simp [statusOf, findByReference_setStatus, h]

theorem paymentDecision_paid (info : SessionInfo)
    (h : ∃ p ∈ info.payments, p.status = "paid") :
    paymentDecision info = some .Confirmed := by
  obtain ⟨p, hp, hs⟩ := h
  have : (info.payments.find? fun p => p.status == "paid").isSome = true := by
    rw [List.find?_isSome]
    exact ⟨p, hp, by simp [hs]⟩
  simp [paymentDecision, this]

theorem paymentDecision_not_paid (info : SessionInfo)
    (h : ¬ ∃ p ∈ info.payments, p.status = "paid") :
    paymentDecision info =
      if (info.payments.find? fun p => p.status == "failed").isSome ||
          info.status == some "expired" then some .Cancelled else none := by
  have : (info.payments.find? fun p => p.status == "paid").isSome = false := by
    rw [Bool.eq_false_iff]
    intro hsome
    rw [List.find?_isSome] at hsome
    obtain ⟨p, hp, hs⟩ := hsome
    exact h ⟨p, hp, by simpa using hs⟩
  simp [paymentDecision, this]

theorem paymentDecision_failed (info : SessionInfo)
    (h : ¬ ∃ p ∈ info.payments, p.status = "paid")
    (hc : (∃ p ∈ info.payments, p.status = "failed") ∨ info.status = some "expired") :
    paymentDecision info = some .Cancelled := by
  rw [paymentDecision_not_paid info h]
  rcases hc with ⟨p, hp, hs⟩ | hexp
  · have : (info.payments.find? fun p => p.status == "failed").isSome = true := by
      rw [List.find?_isSome]
      exact ⟨p, hp, by simp [hs]⟩
    simp [this]
  · simp [hexp]

theorem paymentDecision_pending (info : SessionInfo)
    (h : ¬ ∃ p ∈ info.payments, p.status = "paid")
    (hf : ¬ ∃ p ∈ info.payments, p.status = "failed")
    (he : info.status ≠ some "expired") :
    paymentDecision info = none := by
  rw [paymentDecision_not_paid info h]
  have : (info.payments.find? fun p => p.status == "failed").isSome = false := by
    rw [Bool.eq_false_iff]
    intro hsome
    rw [List.find?_isSome] at hsome
    obtain ⟨p, hp, hs⟩ := hsome
    exact hf ⟨p, hp, by simpa using hs⟩
  simp [this, he]

/-- C10: the decision table of `verifyPayment` for a reservation found by its
reference code.  (a) When its status is not Pending_Payment nothing changes and
the gateway is not asked.  Otherwise, with a stored session id and an answer of
the gateway: (b) a payment with status `paid` makes the reservation Confirmed,
whatever the other payments and the session status; (c) without one, a payment
with status `failed` or a session status `expired` makes it Cancelled; (d) in the
remaining case nothing changes, and nothing changes either when the session id is
missing or the gateway lookup fails.  In (b) and (c) the update is assumed not to
raise; the only row written is the reservation's. -/
theorem verifyPayment_decision (env : Env) (faults : Faults) (db : Db)
    (referenceCode : String) (booking : Booking)
    (hfind : findOneBooking faults db referenceCode = .ok (some booking)) :
    (booking.status ≠ .Pending_Payment →
      (verifyPayment env faults db referenceCode).db = db ∧
      (verifyPayment env faults db referenceCode).gatewayQueries = [] ∧
      statusOf (verifyPayment env faults db referenceCode).db referenceCode =
        some booking.status) ∧
    (booking.status = .Pending_Payment →
      ((booking.checkout_session_id = none ∨ booking.checkout_session_id = some "") →
        (verifyPayment env faults db referenceCode).db = db ∧
        (verifyPayment env faults db referenceCode).gatewayQueries = []) ∧
      (∀ sessionId, booking.checkout_session_id = some sessionId → sessionId ≠ "" →
        (env.paymongoGet sessionId = none →
          (verifyPayment env faults db referenceCode).db = db) ∧
        (∀ info, env.paymongoGet sessionId = some info →
          ((∃ p ∈ info.payments, p.status = "paid") → faults.updateThrows = false →
            (verifyPayment env faults db referenceCode).db =
              setStatus db booking.booking_id .Confirmed ∧
            statusOf (verifyPayment env faults db referenceCode).db referenceCode =
              some .Confirmed) ∧
          ((¬ ∃ p ∈ info.payments, p.status = "paid") →
            ((∃ p ∈ info.payments, p.status = "failed") ∨
              info.status = some "expired") →
            faults.updateThrows = false →
            (verifyPayment env faults db referenceCode).db =
              setStatus db booking.booking_id .Cancelled ∧
            statusOf (verifyPayment env faults db referenceCode).db referenceCode =
              some .Cancelled) ∧
          ((¬ ∃ p ∈ info.payments, p.status = "paid") →
            (¬ ∃ p ∈ info.payments, p.status = "failed") →
            info.status ≠ some "expired" →
            (verifyPayment env faults db referenceCode).db = db)))) := by
  have hby := findOneBooking_ok faults db referenceCode _ hfind
  have hv : verifyPayment env faults db referenceCode =
      { response := { status := 200, success := true,
                      label := some (statusMap (reconcileBooking env faults db booking).1),
                      bookingStatus := some (reconcileBooking env faults db booking).1 },
        db := (reconcileBooking env faults db booking).2.1,
        gatewayQueries := (reconcileBooking env faults db booking).2.2 } := by
    unfold verifyPayment
    rw [hfind]
  rw [hv]
  refine ⟨?_, ?_⟩
  · intro hs
    simp [reconcileBooking, hs, statusOf, hby]
  · intro hs
    refine ⟨?_, ?_⟩
    · intro hnone
      rcases hnone with h0 | h0 <;> simp [reconcileBooking, hs, h0, Option.filter]
    · intro sessionId hsid hne
      have hfilter : booking.checkout_session_id.filter (fun s => s != "") =
          some sessionId := by
        rw [hsid]
        simp [Option.filter, hne]
      refine ⟨?_, ?_⟩
      · intro hget
        simp [reconcileBooking, hs, hfilter, hget]
      · intro info hget
        refine ⟨?_, ?_, ?_⟩
        · intro hpaid hu
          have hd := paymentDecision_paid info hpaid
          simp only [reconcileBooking, hs, hfilter, hget, hd, updateStatus, hu, if_true]
          exact ⟨rfl, statusOf_setStatus db referenceCode booking _ hby⟩
        · intro hnp hc hu
          have hd := paymentDecision_failed info hnp hc
          simp only [reconcileBooking, hs, hfilter, hget, hd, updateStatus, hu, if_true]
          exact ⟨rfl, statusOf_setStatus db referenceCode booking _ hby⟩
        · intro hnp hnf hne2
          have hd := paymentDecision_pending info hnp hnf hne2
          simp [reconcileBooking, hs, hfilter, hget, hd]

/-- Witness for C10: the reservation is Pending_Payment with session `cs_1`, and
the gateway reports an expired session with a failed and a paid payment; the
reservation becomes Confirmed. -/
theorem verifyPayment_decision_witness :
    findOneBooking Faults.none (sampleDb .Pending_Payment) "BKG-A-B" =
      .ok (some (sampleBooking .Pending_Payment)) ∧
    (verifyPayment paidEnv Faults.none (sampleDb .Pending_Payment) "BKG-A-B").db =
      setStatus (sampleDb .Pending_Payment) (sampleBooking .Pending_Payment).booking_id
        .Confirmed ∧
    statusOf (verifyPayment paidEnv Faults.none (sampleDb .Pending_Payment)
      "BKG-A-B").db "BKG-A-B" = some .Confirmed :=
  ⟨rfl,
    ((((verifyPayment_decision paidEnv Faults.none (sampleDb .Pending_Payment) "BKG-A-B"
      (sampleBooking .Pending_Payment) rfl).2 rfl).2 "cs_1" rfl (by decide)).2
        { status := some "expired",
          payments := [{ id := "pay_1", status := "failed" },
                       { id := "pay_2", status := "paid" }] } rfl).1
      ⟨{ id := "pay_2", status := "paid" }, by decide, rfl⟩ rfl⟩

/-! ## Stale reservations -/

theorem isStale_iff (env : Env) (b : Booking) :
    isStale (env.now - STALE_THRESHOLD_MINUTES * 60000) b = true ↔
      b.status = .Pending_Payment ∧ b.created_at < env.now - 5 * 60000 := by
  simp [isStale, STALE_THRESHOLD_MINUTES]

/-- C11: for every state and clock value, `cleanUpStaleBookingsInternal` leaves the
rooms alone, turns into Cancelled exactly the reservations that are
Pending_Payment with `created_at` strictly before `now` minus 5 minutes, changes
no other reservation and no other field, and returns the number of reservations
it cancelled. -/
theorem cleanUpStaleBookingsInternal_spec (env : Env) (db : Db) :
    (cleanUpStaleBookingsInternal env db).1.rooms = db.rooms ∧
    (cleanUpStaleBookingsInternal env db).1.bookings =
      db.bookings.map (fun b =>
        if b.status = .Pending_Payment ∧ b.created_at < env.now - 5 * 60000 then
          { b with status := .Cancelled }
        else b) ∧
    (cleanUpStaleBookingsInternal env db).2 =
      (db.bookings.filter fun b =>
        decide (b.status = .Pending_Payment ∧ b.created_at < env.now - 5 * 60000)).length := by
  have hfun : isStale (env.now - STALE_THRESHOLD_MINUTES * 60000) =
      fun b => decide (b.status = .Pending_Payment ∧ b.created_at < env.now - 5 * 60000) := by
    funext b
    rw [Bool.eq_iff_iff, isStale_iff]
    simp
  have hmap : (fun b : Booking =>
        if isStale (env.now - STALE_THRESHOLD_MINUTES * 60000) b = true then
          { b with status := BookingStatus.Cancelled }
        else b) =
      fun b => if b.status = .Pending_Payment ∧ b.created_at < env.now - 5 * 60000 then
          { b with status := .Cancelled }
        else b := by
    funext b
    simp only [isStale_iff]
  unfold cleanUpStaleBookingsInternal
  simp only
  rw [hmap, hfun]
  split
  · rename_i hzero
    refine ⟨rfl, ?_, ?_⟩
    · have hnil := List.length_eq_zero.1 hzero
      rw [List.filter_eq_nil_iff] at hnil
      conv_lhs => rw [← List.map_id db.bookings]
      apply List.map_congr_left
      intro b hb
      have := hnil b hb
      simp only [decide_eq_true_eq] at this
      simp only [id_eq]
      rw [if_neg this]
    · exact hzero.symm
  · exact ⟨rfl, rfl, rfl⟩

/-- Witness for C11: of two Pending_Payment reservations, the one created 6
minutes ago is cancelled and the one created 4 minutes ago is untouched; the
count returned is 1. -/
theorem cleanUpStaleBookingsInternal_spec_witness :
    staleDb.bookings.map (fun b => (b.status, sampleEnv.now - b.created_at)) =
      [(.Pending_Payment, 6 * 60000), (.Pending_Payment, 4 * 60000)] ∧
    (cleanUpStaleBookingsInternal sampleEnv staleDb).1.bookings.map (fun b => b.status) =
      [.Cancelled, .Pending_Payment] ∧
    (cleanUpStaleBookingsInternal sampleEnv staleDb).2 = 1 ∧
    (cleanUpStaleBookingsInternal sampleEnv staleDb).1.rooms = staleDb.rooms :=
  ⟨by decide, by decide, by decide,
    (cleanUpStaleBookingsInternal_spec sampleEnv staleDb).1⟩

/-! ## Front desk -/

theorem findByPk_booking_id (db : Db) (id : Nat) (b : Booking)
    (h : findByPk db id = some b) : b.booking_id = id := by
  unfold findByPk at h
  have := List.find?_some h
  simpa using this

theorem applyUpdateData_booking_id (env : Env) (booking : Booking)
    (status : BookingStatus) (b : Booking) :
    (applyUpdateData env booking status b).booking_id = b.booking_id := by
  cases status <;> simp only [applyUpdateData]
  split <;> rfl

theorem applyUpdateData_status (env : Env) (booking : Booking)
    (status : BookingStatus) (b : Booking) :
    (applyUpdateData env booking status b).status = status := by
  cases status <;> simp only [applyUpdateData]
  split <;> rfl

theorem findByPk_map (db : Db) (id : Nat) (f : Booking → Booking)
    (hf : ∀ b, (f b).booking_id = b.booking_id) (rooms : List Room) :
    findByPk { rooms := rooms, bookings := db.bookings.map f } id =
      (findByPk db id).map f := by
  unfold findByPk
  simp only [List.find?_map]
  congr 1
  congr 1
  funext b
  simp [hf]

theorem updateBookingStatus_bookings (env : Env) (db : Db) (req : StatusUpdateRequest)
    (target : BookingStatus) (booking : Booking)
    (ht : validStatuses.lookup req.status = some target)
    (hb : findByPk db req.id = some booking) :
    (updateBookingStatus env db req).1.status = 200 ∧
    (updateBookingStatus env db req).2.bookings =
      db.bookings.map (fun b =>
        if b.booking_id = booking.booking_id then applyUpdateData env booking target b
        else b) := by
  unfold updateBookingStatus
  simp only [ht, hb]
  refine ⟨trivial, ?_⟩
  split_ifs <;> rfl

/-- C12, the claim refuted: a Cancelled reservation, which has no outgoing edge in
the state machine, is moved to Confirmed by `updateBookingStatus`, and a
Completed one to Checked_In; both requests are answered 200. -/
theorem updateBookingStatus_ignores_state_machine :
    statusOf (sampleDb .Cancelled) "BKG-A-B" = some .Cancelled ∧
    isTransition .Cancelled .Confirmed = false ∧
    (updateBookingStatus sampleEnv (sampleDb .Cancelled)
      { id := 1, status := "Confirmed" }).1.status = 200 ∧
    statusOf (updateBookingStatus sampleEnv (sampleDb .Cancelled)
      { id := 1, status := "Confirmed" }).2 "BKG-A-B" = some .Confirmed ∧
    isTransition .Completed .Checked_In = false ∧
    (updateBookingStatus sampleEnv (sampleDb .Completed)
      { id := 1, status := "Checked_In" }).1.status = 200 ∧
    statusOf (updateBookingStatus sampleEnv (sampleDb .Completed)
      { id := 1, status := "Checked_In" }).2 "BKG-A-B" = some .Checked_In := by
  decide

/-- C12 as amended: `updateBookingStatus` checks the target, not the transition.
When the requested status is one of Confirmed, Checked_In, Completed, Cancelled
and the reservation exists, the request is answered 200 and the reservation gets
that status whatever its current status, while every other reservation keeps its
status; a request for any other target (Pending_Payment included) is answered 400
and a request for an unknown reservation 404, both leaving the tables unchanged. -/
theorem updateBookingStatus_sets_any_valid_target (env : Env) (db : Db)
    (req : StatusUpdateRequest) :
    (∀ target booking, validStatuses.lookup req.status = some target →
      findByPk db req.id = some booking →
      (updateBookingStatus env db req).1.status = 200 ∧
      (findByPk (updateBookingStatus env db req).2 req.id).map (fun b => b.status) =
        some target ∧
      (updateBookingStatus env db req).2.bookings.map (fun b => b.booking_id) =
        db.bookings.map (fun b => b.booking_id) ∧
      ∀ id other, id ≠ req.id → findByPk db id = some other →
        findByPk (updateBookingStatus env db req).2 id = some other) ∧
    (validStatuses.lookup req.status = some .Confirmed ↔ req.status = "Confirmed") ∧
    (validStatuses.lookup req.status = some .Checked_In ↔ req.status = "Checked_In") ∧
    (validStatuses.lookup req.status = some .Completed ↔ req.status = "Completed") ∧
    (validStatuses.lookup req.status = some .Cancelled ↔ req.status = "Cancelled") ∧
    (validStatuses.lookup req.status ≠ some .Pending_Payment) ∧
    (validStatuses.lookup req.status = none →
      (updateBookingStatus env db req).1.status = 400 ∧
      (updateBookingStatus env db req).2 = db) ∧
    (findByPk db req.id = none →
      (updateBookingStatus env db req).1.status ≠ 200 ∧
      (updateBookingStatus env db req).2 = db) ∧
    (∀ target, validStatuses.lookup req.status = some target →
      findByPk db req.id = none →
      (updateBookingStatus env db req).1.status = 404) := by
  have hlookup : ∀ st : BookingStatus, validStatuses.lookup req.status = some st →
      (st = .Confirmed ∧ req.status = "Confirmed") ∨
      (st = .Checked_In ∧ req.status = "Checked_In") ∨
      (st = .Completed ∧ req.status = "Completed") ∨
      (st = .Cancelled ∧ req.status = "Cancelled") := by
    intro st h
    simp only [validStatuses, List.lookup] at h
    split at h
    · simp_all
    · split at h
      · simp_all
      · split at h
        · simp_all
        · split at h
          · simp_all
          · simp at h
  refine ⟨?_, ?_, ?_, ?_, ?_, ?_, ?_, ?_, ?_⟩
  · intro target booking ht hb
    obtain ⟨hstatus, hbookings⟩ := updateBookingStatus_bookings env db req target booking ht hb
    have hid := findByPk_booking_id db req.id booking hb
    have hpres : ∀ b : Booking,
        (if b.booking_id = booking.booking_id then applyUpdateData env booking target b
          else b).booking_id = b.booking_id := by
      intro b
      split
      · exact applyUpdateData_booking_id env booking target b
      · rfl
    have hfind : ∀ id, findByPk (updateBookingStatus env db req).2 id =
        (findByPk db id).map (fun b =>
          if b.booking_id = booking.booking_id then applyUpdateData env booking target b
          else b) := by
      intro id
      have := findByPk_map db id _ hpres (updateBookingStatus env db req).2.rooms
      rw [← hbookings] at this
      exact this
    refine ⟨hstatus, ?_, ?_, ?_⟩
    · rw [hfind, hb]
      simp [applyUpdateData_status]
    · rw [hbookings, List.map_map]
      apply List.map_congr_left
      intro b _
      exact hpres b
    · intro id other hne hother
      rw [hfind, hother]
      have hoid := findByPk_booking_id db id other hother
      have : other.booking_id ≠ booking.booking_id := by
        rw [hoid, hid]
        exact hne
      simp [this]
  · constructor
    · intro h
      rcases hlookup _ h with ⟨_, h2⟩ | ⟨h1, _⟩ | ⟨h1, _⟩ | ⟨h1, _⟩
      · exact h2
      all_goals cases h1
    · intro h
      rw [h]
      decide
  · constructor
    · intro h
      rcases hlookup _ h with ⟨h1, _⟩ | ⟨_, h2⟩ | ⟨h1, _⟩ | ⟨h1, _⟩
      · cases h1
      · exact h2
      all_goals cases h1
    · intro h
      rw [h]
      decide
  · constructor
    · intro h
      rcases hlookup _ h with ⟨h1, _⟩ | ⟨h1, _⟩ | ⟨_, h2⟩ | ⟨h1, _⟩
      · cases h1
      · cases h1
      · exact h2
      · cases h1
    · intro h
      rw [h]
      decide
  · constructor
    · intro h
      rcases hlookup _ h with ⟨h1, _⟩ | ⟨h1, _⟩ | ⟨h1, _⟩ | ⟨_, h2⟩
      · cases h1
      · cases h1
      · cases h1
      · exact h2
    · intro h
      rw [h]
      decide
  · intro h
    rcases hlookup _ h with ⟨h1, _⟩ | ⟨h1, _⟩ | ⟨h1, _⟩ | ⟨h1, _⟩ <;> cases h1
  · intro h
    unfold updateBookingStatus
    simp [h]
  · intro h
    unfold updateBookingStatus
    cases hl : validStatuses.lookup req.status with
    | none => simp
    | some st => simp [h]
  · intro target ht h
    unfold updateBookingStatus
    simp [ht, h]

/-- Witness for C12 as amended: the Cancelled reservation 1 of `sampleDb` is set to
Confirmed. -/
theorem updateBookingStatus_sets_any_valid_target_witness :
    (updateBookingStatus sampleEnv (sampleDb .Cancelled)
      { id := 1, status := "Confirmed" }).1.status = 200 ∧
    (findByPk (updateBookingStatus sampleEnv (sampleDb .Cancelled)
      { id := 1, status := "Confirmed" }).2 1).map (fun b => b.status) =
      some .Confirmed :=
  ⟨((updateBookingStatus_sets_any_valid_target sampleEnv (sampleDb .Cancelled)
      { id := 1, status := "Confirmed" }).1 .Confirmed (sampleBooking .Cancelled)
      (by decide) (by decide)).1,
   ((updateBookingStatus_sets_any_valid_target sampleEnv (sampleDb .Cancelled)
      { id := 1, status := "Confirmed" }).1 .Confirmed (sampleBooking .Cancelled)
      (by decide) (by decide)).2.1⟩

/-! ## Web booking: atomicity and postcondition -/

theorem createCheckoutSession_created (env : Env) (db : Db) (req : CheckoutRequest)
    (h : (createCheckoutSession env db req).response.status = 200) :
    ∃ p lockedRoom session,
      prepareBooking env db req = .ok p ∧
      findRoom db p.availableRoom.room_id = some lockedRoom ∧
      env.paymongoCreate (checkoutPayload env req p) = some session ∧
      (createCheckoutSession env db req).response =
        { status := 200, success := true, message := "",
          checkoutUrl := some session.checkout_url,
          referenceCode := some p.referenceCode } ∧
      (createCheckoutSession env db req).db.rooms = db.rooms ∧
      (createCheckoutSession env db req).db.bookings =
        db.bookings ++
          [{ pendingBooking env db lockedRoom p with
             checkout_session_id := some session.id }] ∧
      (createCheckoutSession env db req).gatewayCalls = [checkoutPayload env req p] := by
  obtain ⟨p, lockedRoom, session, hprep, hroom, _, hpay, hresp, hdb, hcalls⟩ :=
    createCheckoutSession_ok env db req h
  refine ⟨p, lockedRoom, session, hprep, hroom, hpay, hresp, ?_, ?_, hcalls⟩
  · rw [hdb]
    rfl
  · rw [hdb]
    exact setCheckoutSessionId_append_new db (pendingBooking env db lockedRoom p)
      session.id rfl

theorem createCheckoutSession_not_ok (env : Env) (db : Db) (req : CheckoutRequest)
    (h : (createCheckoutSession env db req).response.status ≠ 200) :
    (createCheckoutSession env db req).db = db := by
  unfold createCheckoutSession at h ⊢
  cases hprep : prepareBooking env db req with
  | error r => rfl
  | ok p =>
    simp only [hprep] at h ⊢
    rcases hbt : bookingTransaction env db req p with ⟨_ | ⟨session, committed⟩, calls⟩
    · rfl
    · rw [hbt] at h
      exact absurd rfl h

/-- C13: when a request has passed validation and the availability checks and the
gateway call that creates the checkout session fails, `createCheckoutSession`
answers with an error (HTTP 500, `success: false`), the tables afterwards equal
the tables before, so the tentative Pending_Payment row does not persist, and the
gateway was asked at most once; more generally every answer other than 200 leaves
the tables as they were. -/
theorem createCheckoutSession_gateway_failure_rolls_back (env : Env) (db : Db)
    (req : CheckoutRequest) :
    (∀ p, prepareBooking env db req = .ok p →
      env.paymongoCreate (checkoutPayload env req p) = none →
      (createCheckoutSession env db req).response.status = 500 ∧
      (createCheckoutSession env db req).response.success = false ∧
      (createCheckoutSession env db req).response.referenceCode = none ∧
      (createCheckoutSession env db req).db = db ∧
      (createCheckoutSession env db req).gatewayCalls.length ≤ 1) ∧
    ((createCheckoutSession env db req).response.status ≠ 200 →
      (createCheckoutSession env db req).db = db) := by
  refine ⟨?_, createCheckoutSession_not_ok env db req⟩
  intro p hprep hpay
  unfold createCheckoutSession bookingTransaction
  simp only [hprep, hpay]
  cases findRoom db p.availableRoom.room_id with
  | none => simp [reject]
  | some lockedRoom =>
    by_cases hlong : env.strictSqlMode = true ∧
        REFERENCE_CODE_LENGTH < p.referenceCode.length <;>
      cases hav : checkRoomAvailability db lockedRoom.room_id p.checkInDateTime
        p.checkOutDateTime <;> simp [hav, hlong, reject]

/-- Witness for C13: on `failingGatewayEnv` the request for a free room passes
validation and the availability checks, is answered 500, leaves the tables empty
of reservations, and the gateway was asked once. -/
theorem createCheckoutSession_gateway_failure_rolls_back_witness :
    prepareBooking failingGatewayEnv emptyDb (sampleRequest "14:00" 0 .absent) =
      .ok samplePrepared ∧
    (createCheckoutSession failingGatewayEnv emptyDb
      (sampleRequest "14:00" 0 .absent)).gatewayCalls.length = 1 ∧
    ((createCheckoutSession failingGatewayEnv emptyDb
        (sampleRequest "14:00" 0 .absent)).response.status = 500 ∧
      (createCheckoutSession failingGatewayEnv emptyDb
        (sampleRequest "14:00" 0 .absent)).response.success = false ∧
      (createCheckoutSession failingGatewayEnv emptyDb
        (sampleRequest "14:00" 0 .absent)).response.referenceCode = none ∧
      (createCheckoutSession failingGatewayEnv emptyDb
        (sampleRequest "14:00" 0 .absent)).db = emptyDb ∧
      (createCheckoutSession failingGatewayEnv emptyDb
        (sampleRequest "14:00" 0 .absent)).gatewayCalls.length ≤ 1) :=
  ⟨rfl, by decide,
    (createCheckoutSession_gateway_failure_rolls_back failingGatewayEnv emptyDb
      (sampleRequest "14:00" 0 .absent)).1 samplePrepared rfl rfl⟩

theorem room_eq_of_room_id (db : Db) (hu : RoomIdsUnique db) (a b : Room)
    (ha : a ∈ db.rooms) (hb : b ∈ db.rooms) (hid : a.room_id = b.room_id) : a = b := by
  by_contra hne
  have hsymm : Symmetric fun a b : Room => a.room_id ≠ b.room_id :=
    fun _ _ h => Ne.symm h
  exact List.Pairwise.forall hsymm hu ha hb hne hid

theorem findAvailableRoomIDLoop_mem (db : Db) (checkIn checkOut : Int) (l : List Room)
    (n : Nat) (h : findAvailableRoomIDLoop db checkIn checkOut l = some n) :
    ∃ r ∈ l, r.room_id = n := by
  induction l with
  | nil => simp [findAvailableRoomIDLoop] at h
  | cons room rest ih =>
    unfold findAvailableRoomIDLoop at h
    split at h
    · cases h
      exact ⟨room, List.mem_cons_self _ _, rfl⟩
    · obtain ⟨r, hr, hid⟩ := ih h
      exact ⟨r, List.mem_cons_of_mem _ hr, hid⟩

theorem mem_roomsOfType (db : Db) (roomType : String) (r : Room) :
    r ∈ roomsOfType db roomType ↔
      r ∈ db.rooms ∧ r.type = roomType ∧
        (r.status = .Available ∨ r.status = .Occupied) := by
  simp [roomsOfType, List.mem_filter]

theorem selectRoom_ok_type (db : Db) (req : CheckoutRequest) (roomType : String)
    (checkIn checkOut : Int) (room : Room)
    (h : selectRoom db req roomType checkIn checkOut = .ok room)
    (hu : RoomIdsUnique db) : room.type = roomType := by
  have hmem : room ∈ db.rooms := by
    have := (selectRoom_ok _ _ _ _ _ _ h).1
    unfold findRoom at this
    exact List.mem_of_find?_eq_some this
  unfold selectRoom at h
  split at h
  · simp at h
  · split at h
    · split at h
      · simp at h
      · split at h
        · simp at h
        · rename_i hty
          split at h
          · simp at h
          · cases h
            exact not_not.mp hty
    · split at h
      · simp at h
      · rename_i availableRoomId hsome
        split at h
        · simp at h
        · rename_i availableRoom hroom
          cases h
          have hid := findRoom_room_id _ _ _ hroom
          have hloop := (Option.filter_eq_some.1 hsome).1
          obtain ⟨r, hr, hrid⟩ := findAvailableRoomIDLoop_mem _ _ _ _ _ hloop
          rw [mem_roomsOfType] at hr
          have heq : room = r :=
            room_eq_of_room_id db hu room r hmem hr.1 (by rw [hid, hrid])
          rw [heq]
          exact hr.2.1

/-- The shape of a successful web booking: whenever `createCheckoutSession`
answers 200, exactly one reservation has been added and the rooms are untouched;
the new reservation is Pending_Payment, comes from the Web, is on a room of the
tables which, `room_id` being the primary key, has the requested room type; its
check-in is the requested date and time, its duration the requested one (one of
3, 6, 12, 24), its total the server-computed price, and its checkout session id
the id of the session the gateway returned for the single payload sent.  Its
reference code is what the column holds of the code returned to the caller: the
code itself when that has at most 20 characters, which is always so when the
database is strict, and its first 20 characters otherwise. -/
theorem createCheckoutSession_success_shape (env : Env) (db : Db) (req : CheckoutRequest)
    (h : (createCheckoutSession env db req).response.status = 200) :
    ∃ (b : Booking) (room : Room) (guestInfo : GuestInfo) (base : Money)
      (payload : CheckoutPayload) (session : CheckoutSession) (code : String),
      (createCheckoutSession env db req).db.bookings = db.bookings ++ [b] ∧
      (createCheckoutSession env db req).db.rooms = db.rooms ∧
      b.status = .Pending_Payment ∧
      b.source = .Web ∧
      room ∈ db.rooms ∧ b.room_id = room.room_id ∧
      (RoomIdsUnique db → room.type = roomTypeOf env req.roomSlug) ∧
      b.check_in_time = env.dateTimeOf req.checkInDate req.checkInTime ∧
      req.duration ∈ validDurations ∧
      b.duration_hours = durationHours req.duration ∧
      (b.duration_hours = 3 ∨ b.duration_hours = 6 ∨ b.duration_hours = 12 ∨
        b.duration_hours = 24) ∧
      req.guestInfo = some guestInfo ∧
      room.baseRate req.duration = some base ∧
      b.total_amount = serverCalculatedPrice base (childAges guestInfo) ∧
      (createCheckoutSession env db req).response.referenceCode = some code ∧
      b.reference_code = storedReferenceCode code ∧
      (code.length ≤ REFERENCE_CODE_LENGTH → b.reference_code = code) ∧
      (env.strictSqlMode = true → b.reference_code = code) ∧
      (createCheckoutSession env db req).gatewayCalls = [payload] ∧
      env.paymongoCreate payload = some session ∧
      b.checkout_session_id = some session.id := by
  obtain ⟨p, lockedRoom, session, hprep, hroom, hpay, hresp, hrooms, hbookings, hcalls⟩ :=
    createCheckoutSession_created env db req h
  obtain ⟨basePrice, hv, hs, hb, _, _, hdur, _, _, _, hprice, _⟩ :=
    prepareBooking_ok env db req p hprep
  obtain ⟨hguest, hvalid, hin, _⟩ := validateRequest_ok env req _ hv
  have hrate : p.availableRoom.baseRate req.duration = some basePrice := by
    unfold baseRoomPrice at hb
    exact (Option.filter_eq_some.1 hb).1
  have hmem : p.availableRoom ∈ db.rooms := by
    have := (selectRoom_ok _ _ _ _ _ _ hs).1
    unfold findRoom at this
    exact List.mem_of_find?_eq_some this
  have hlocked : lockedRoom.room_id = p.availableRoom.room_id :=
    findRoom_room_id _ _ _ hroom
  have hhours : durationHours req.duration = 3 ∨ durationHours req.duration = 6 ∨
      durationHours req.duration = 12 ∨ durationHours req.duration = 24 := by
    simp only [validDurations, List.mem_cons, List.mem_singleton, List.mem_nil_iff,
      or_false] at hvalid
    rcases hvalid with h1 | h1 | h1 | h1 <;> rw [h1] <;> decide
  refine ⟨{ pendingBooking env db lockedRoom p with
            checkout_session_id := some session.id },
    p.availableRoom, p.guestInfo, basePrice, checkoutPayload env req p, session,
    p.referenceCode,
    hbookings, hrooms, rfl, rfl, hmem, hlocked,
    fun hu => selectRoom_ok_type _ _ _ _ _ _ hs hu, hin, hvalid, ?_, ?_, hguest, hrate,
    hprice, ?_, rfl, ?_, ?_, hcalls, hpay, rfl⟩
  · show durationHours p.duration = _
    rw [hdur]
  · show durationHours p.duration = 3 ∨ durationHours p.duration = 6 ∨
      durationHours p.duration = 12 ∨ durationHours p.duration = 24
    rw [hdur]
    exact hhours
  · rw [hresp]
  · intro hlen
    exact storedReferenceCode_of_le p.referenceCode hlen
  · intro hstrict
    exact storedReferenceCode_of_le p.referenceCode
      (createCheckoutSession_ok_code env db req p hprep h hstrict)

/-- A Standard room for 3 hours with one child aged 8 is booked at the Standard
3-hour rate of 500 pesos plus 150. -/
theorem createCheckoutSession_success_shape_sample :
    (createCheckoutSession sampleEnv emptyDb
      (sampleRequest "14:00" 1 (.array ["8"]))).response.status = 200 ∧
    RoomIdsUnique emptyDb ∧
    (createCheckoutSession sampleEnv emptyDb
      (sampleRequest "14:00" 1 (.array ["8"]))).db.bookings.map
        (fun b => (b.room_id, b.status, b.source, b.duration_hours, b.child_ages,
          b.total_amount, b.reference_code, b.checkout_session_id)) =
      [(1, .Pending_Payment, .Web, 3, some [8], pesos 500 + pesos 150, "BKG-0-ABCDEFGH",
        some "cs_new")] ∧
    (createCheckoutSession sampleEnv emptyDb
      (sampleRequest "14:00" 1 (.array ["8"]))).response.referenceCode =
      some "BKG-0-ABCDEFGH" ∧
    ∃ (b : Booking) (room : Room),
      (createCheckoutSession sampleEnv emptyDb
        (sampleRequest "14:00" 1 (.array ["8"]))).db.bookings = emptyDb.bookings ++ [b] ∧
      b.room_id = room.room_id ∧ room.type = "Standard" := by
  refine ⟨by decide, by decide, rfl, by decide, ?_⟩
  obtain ⟨b, room, _, _, _, _, _, hb, _, _, _, _, hid, htype, _⟩ :=
    createCheckoutSession_success_shape sampleEnv emptyDb
      (sampleRequest "14:00" 1 (.array ["8"])) (by decide)
  exact ⟨b, room, hb, hid, htype (by decide)⟩

/-- C14, the code at the failing input: with the clock of November 2023 and a
random part of 8 characters the reference code has 21 characters.  On a database
that is not strict the request is answered 200 with that code, while the
reservation is stored under its first 20 characters, so the stored code is not
the returned one and a lookup by the returned code finds nothing.  On a strict
database the insert is refused: the answer is 500 and nothing is stored. -/
theorem createCheckoutSession_stores_cut_reference_code :
    (createCheckoutSession realisticLaxEnv emptyDb
      (sampleRequest "14:00" 0 .absent)).response.status = 200 ∧
    (createCheckoutSession realisticLaxEnv emptyDb
      (sampleRequest "14:00" 0 .absent)).response.referenceCode =
      some "BKG-LOYW3V28-4FZYO82M" ∧
    (createCheckoutSession realisticLaxEnv emptyDb
      (sampleRequest "14:00" 0 .absent)).db.bookings.map (fun b => b.reference_code) =
      ["BKG-LOYW3V28-4FZYO82"] ∧
    findByReference (createCheckoutSession realisticLaxEnv emptyDb
      (sampleRequest "14:00" 0 .absent)).db "BKG-LOYW3V28-4FZYO82M" = none ∧
    (createCheckoutSession realisticLaxEnv emptyDb
      (sampleRequest "14:00" 0 .absent)).gatewayCalls.map (fun c => c.reference_code) =
      ["BKG-LOYW3V28-4FZYO82M"] ∧
    (createCheckoutSession realisticEnv emptyDb
      (sampleRequest "14:00" 0 .absent)).response =
      reject 500 "Data too long for column 'reference_code' at row 1" ∧
    (createCheckoutSession realisticEnv emptyDb
      (sampleRequest "14:00" 0 .absent)).db = emptyDb := by
  refine ⟨by decide, by decide, by decide, by decide, by decide, by decide, rfl⟩

/-! ## Guest attribution -/

theorem isStaffRole_iff (role : String) :
    isStaffRole role = true ↔ role = "Admin" ∨ role = "FrontDesk" ∨ role = "Manager" := by
  simp [isStaffRole, or_assoc]

/-- C15: the `guest_id` persisted by `createCheckoutSession` is `secureGuestId`.
For a caller whose role is not Admin, FrontDesk or Manager it is the authenticated
user id, whatever `guestInfo.guestId` holds; it differs from the authenticated
user id only when the caller has one of those roles and supplied a guest id
different from their own, and it is then that guest id. -/
theorem createCheckoutSession_guest_attribution (env : Env) (db : Db)
    (req : CheckoutRequest) :
    ((createCheckoutSession env db req).response.status = 200 →
      ∃ b, (createCheckoutSession env db req).db.bookings = db.bookings ++ [b] ∧
        b.guest_id = some (secureGuestId req)) ∧
    (¬ (userRoleOf req = "Admin" ∨ userRoleOf req = "FrontDesk" ∨
          userRoleOf req = "Manager") →
      secureGuestId req = req.userId) ∧
    (secureGuestId req ≠ req.userId →
      (userRoleOf req = "Admin" ∨ userRoleOf req = "FrontDesk" ∨
        userRoleOf req = "Manager") ∧
      ∃ guestInfo, req.guestInfo = some guestInfo ∧
        guestInfo.guestId = some (.id (secureGuestId req))) ∧
    (∀ guestInfo n, req.guestInfo = some guestInfo → guestInfo.guestId = some (.id n) →
      (userRoleOf req = "Admin" ∨ userRoleOf req = "FrontDesk" ∨
        userRoleOf req = "Manager") →
      secureGuestId req = n) := by
  refine ⟨?_, ?_, ?_, ?_⟩
  · intro h
    obtain ⟨p, lockedRoom, session, hprep, _, _, _, _, hbookings, _⟩ :=
      createCheckoutSession_created env db req h
    obtain ⟨_, _, _, _, _, hguest, _⟩ := prepareBooking_ok env db req p hprep
    refine ⟨_, hbookings, ?_⟩
    show some p.secureGuestId = _
    rw [hguest]
  · intro hrole
    have hstaff : isStaffRole (userRoleOf req) = false := by
      rw [Bool.eq_false_iff, Ne, isStaffRole_iff]
      exact hrole
    unfold secureGuestId
    cases req.guestInfo with
    | none => rfl
    | some guestInfo =>
      simp only
      cases guestInfo.guestId with
      | none => rfl
      | some gid =>
        cases gid with
        | walk_in => rfl
        | id n =>
          simp only [hstaff]
          split <;> simp
  · intro hne
    unfold secureGuestId at hne ⊢
    cases hg : req.guestInfo with
    | none => simp [hg] at hne
    | some guestInfo =>
      simp only [hg] at hne ⊢
      cases hgid : guestInfo.guestId with
      | none => simp [hgid] at hne
      | some gid =>
        cases gid with
        | walk_in => simp [hgid] at hne
        | id n =>
          simp only [hgid] at hne ⊢
          by_cases hn : n ≠ req.userId
          · by_cases hstaff : isStaffRole (userRoleOf req) = true
            · refine ⟨(isStaffRole_iff _).1 hstaff, guestInfo, rfl, ?_⟩
              rw [hgid, if_pos hn, if_pos hstaff]
            · simp [hn, hstaff] at hne
          · simp [hn] at hne
  · intro guestInfo n hg hgid hrole
    have hstaff : isStaffRole (userRoleOf req) = true := (isStaffRole_iff _).2 hrole
    unfold secureGuestId
    simp only [hg, hgid, hstaff, if_true]
    split
    · rfl
    · rename_i hn
      exact (not_not.mp hn).symm

/-- Witness for C15: user 7, a plain guest, asks to book as user 9999; the
reservation is attributed to user 7. -/
theorem createCheckoutSession_guest_attribution_witness :
    (createCheckoutSession sampleEnv emptyDb impersonationRequest).response.status = 200 ∧
    (createCheckoutSession sampleEnv emptyDb impersonationRequest).db.bookings.map
      (fun b => b.guest_id) = [some 7] ∧
    secureGuestId impersonationRequest = impersonationRequest.userId ∧
    ∃ b, (createCheckoutSession sampleEnv emptyDb impersonationRequest).db.bookings =
        emptyDb.bookings ++ [b] ∧
      b.guest_id = some (secureGuestId impersonationRequest) :=
  ⟨by decide, by decide,
    (createCheckoutSession_guest_attribution sampleEnv emptyDb impersonationRequest).2.1
      (by decide),
    (createCheckoutSession_guest_attribution sampleEnv emptyDb impersonationRequest).1
      (by decide)⟩

/-! ## Reference codes -/

theorem findByReference_none_iff (db : Db) (code : String) :
    findByReference db code = none ↔ ∀ b ∈ db.bookings, b.reference_code ≠ code := by
  simp [findByReference, List.find?_eq_none]

theorem findByReference_some_mem (db : Db) (code : String) (b : Booking)
    (h : findByReference db code = some b) :
    b ∈ db.bookings ∧ b.reference_code = code := by
  unfold findByReference at h
  refine ⟨List.mem_of_find?_eq_some h, ?_⟩
  have := List.find?_some h
  simpa using this

theorem generateUniqueReferenceCodeLoop_spec (env : Env) (db : Db) (fuel : Nat) :
    ∀ attempts0 : Nat, attempts0 + fuel = 10 → 1 ≤ fuel →
      (∃ k, attempts0 ≤ k ∧ k < 9 ∧
        generateUniqueReferenceCodeLoop env db fuel attempts0 = generateReferenceCode env k ∧
        (∀ b ∈ db.bookings, b.reference_code ≠ generateReferenceCode env k) ∧
        ∀ j, attempts0 ≤ j → j < k →
          ∃ b ∈ db.bookings, b.reference_code = generateReferenceCode env j) ∨
      ((∀ j, attempts0 ≤ j → j < 9 →
          ∃ b ∈ db.bookings, b.reference_code = generateReferenceCode env j) ∧
        generateUniqueReferenceCodeLoop env db fuel attempts0 =
          generateReferenceCode env 9 ++ "-" ++
            env.toUpperCase (substring (env.mathRandom 10) 2 6)) := by
  induction fuel with
  | zero =>
    intro attempts0 _ h
    omega
  | succ n ih =>
    intro attempts0 hsum _
    unfold generateUniqueReferenceCodeLoop
    simp only [MAX_ATTEMPTS]
    by_cases hmax : attempts0 + 1 ≥ 10
    · have h9 : attempts0 = 9 := by omega
      subst h9
      right
      refine ⟨fun j h1 h2 => by omega, ?_⟩
      simp
    · simp only [hmax, if_false]
      cases hfind : findByReference db (generateReferenceCode env attempts0) with
      | none =>
        left
        refine ⟨attempts0, le_refl _, by omega, by simp, ?_, fun j h1 h2 => by omega⟩
        exact (findByReference_none_iff db _).1 hfind
      | some existing =>
        have hstored := findByReference_some_mem db _ existing hfind
        simp only [Option.isNone_some, Bool.false_eq_true, if_false]
        rcases ih (attempts0 + 1) (by omega) (by omega) with
          ⟨k, hk1, hk2, hk3, hk4, hk5⟩ | ⟨hall, hres⟩
        · left
          refine ⟨k, by omega, hk2, hk3, hk4, ?_⟩
          intro j hj1 hj2
          by_cases hj : j = attempts0
          · subst hj
            exact ⟨existing, hstored.1, hstored.2⟩
          · exact hk5 j (by omega) hj2
        · right
          refine ⟨?_, hres⟩
          intro j hj1 hj2
          by_cases hj : j = attempts0
          · subst hj
            exact ⟨existing, hstored.1, hstored.2⟩
          · exact hall j (by omega) hj2

/-- C16, the code at the failing input: on `collidingDb` with the clock and random
source of `sampleEnv`, every candidate collides, the fallback is taken without a
lookup, and the code returned is the reference code of the stored reservation 2,
where the function's header promises a unique code. -/
theorem generateUniqueReferenceCode_fallback_collides :
    generateUniqueReferenceCode sampleEnv collidingDb = "BKG-0-ABCDEFGH-ABCD" ∧
    (findByReference collidingDb
      (generateUniqueReferenceCode sampleEnv collidingDb)).map (fun b => b.booking_id) =
      some 2 := by
  decide

/-- The two ways `generateUniqueReferenceCode` returns: either the code returned is
one of the first nine candidates, it differs from the reference code of every
stored reservation and all earlier candidates were taken; or the first nine
candidates were all taken and the code returned is the tenth candidate followed by
`-` and four characters of extra entropy. -/
theorem generateUniqueReferenceCode_unique_or_fallback (env : Env) (db : Db) :
    (∃ k, k < 9 ∧
      generateUniqueReferenceCode env db = generateReferenceCode env k ∧
      (∀ b ∈ db.bookings, b.reference_code ≠ generateUniqueReferenceCode env db) ∧
      ∀ j, j < k → ∃ b ∈ db.bookings, b.reference_code = generateReferenceCode env j) ∨
    ((∀ j, j < 9 → ∃ b ∈ db.bookings, b.reference_code = generateReferenceCode env j) ∧
      generateUniqueReferenceCode env db =
        generateReferenceCode env 9 ++ "-" ++
          env.toUpperCase (substring (env.mathRandom 10) 2 6)) := by
  unfold generateUniqueReferenceCode
  rcases generateUniqueReferenceCodeLoop_spec env db MAX_ATTEMPTS 0 (by decide) (by decide)
    with ⟨k, _, hk2, hk3, hk4, hk5⟩ | ⟨hall, hres⟩
  · left
    refine ⟨k, hk2, hk3, ?_, fun j hj => hk5 j (Nat.zero_le _) hj⟩
    rw [hk3]
    exact hk4
  · right
    exact ⟨fun j hj => hall j (Nat.zero_le _) hj, hres⟩

/-! ## Room status and availability search -/

/-- C17, evaluated at the failing input: `twoRoomDb` holds an Available Standard
room 1 and a Standard room 2 under Maintenance; the request that selects room 2 by
its id is answered 200 and the reservation is created on room 2. -/
theorem createCheckoutSession_books_selected_maintenance_room :
    twoRoomDb.rooms.map (fun r => (r.room_id, r.type, r.status)) =
      [(1, "Standard", .Available), (2, "Standard", .Maintenance)] ∧
    maintenanceRoomRequest.roomId = some 2 ∧
    (createCheckoutSession sampleEnv twoRoomDb maintenanceRoomRequest).response.status =
      200 ∧
    (createCheckoutSession sampleEnv twoRoomDb maintenanceRoomRequest).db.bookings.map
      (fun b => (b.room_id, b.status)) = [(2, .Pending_Payment)] ∧
    (findRoom (createCheckoutSession sampleEnv twoRoomDb maintenanceRoomRequest).db
      2).map (fun r => r.status) = some .Maintenance := by
  decide

theorem hasConflict_eq (checkIn checkOut : Int) (l : List Booking) :
    hasConflict checkIn (some checkOut) l =
      !checkRoomAvailabilityLoop checkIn checkOut l := by
  induction l with
  | nil => rfl
  | cons b rest ih =>
    have hq : queryHasOverlap checkIn (some checkOut) b = hasOverlap checkIn checkOut b := rfl
    unfold hasConflict checkRoomAvailabilityLoop
    rw [hq, ih]
    cases hasOverlap checkIn checkOut b <;> simp

theorem collectAvailableRooms_eq (env : Env) (db : Db) (checkIn checkOut : Int)
    (rooms : List Room) :
    collectAvailableRooms env db checkIn (some checkOut) rooms =
      (rooms.filter fun room =>
        (room.lock_expiration.all fun t => decide (t ≤ env.now)) &&
          checkRoomAvailability db room.room_id checkIn checkOut).map
        (fun room => { id := room.room_id, number := room.room_number, name := room.name }) := by
  induction rooms with
  | nil => rfl
  | cons room rest ih =>
    unfold collectAvailableRooms
    rw [ih, hasConflict_eq]
    have hlock : isLocked env room =
        !(room.lock_expiration.all fun t => decide (t ≤ env.now)) := by
      unfold isLocked
      cases room.lock_expiration with
      | none => rfl
      | some t =>
        simp only [Option.all_some]
        by_cases ht : t ≤ env.now
        · have : ¬ t > env.now := by omega
          simp [ht, this]
        · have : t > env.now := by omega
          simp [ht, this]
    have hfold : checkRoomAvailabilityLoop checkIn checkOut
        (conflictingBookings db room.room_id) =
        checkRoomAvailability db room.room_id checkIn checkOut := rfl
    rw [hlock, hfold]
    cases h1 : (room.lock_expiration.all fun t => decide (t ≤ env.now)) <;>
      cases h2 : checkRoomAvailability db room.room_id checkIn checkOut <;>
      simp [List.filter_cons, h1, h2]

/-- C18: for a valid availability query (the duration parses to `d` hours and the
handler answers 200), the tables afterwards are the tables after the stale sweep,
and `availableRooms` lists, in the order of the rooms table, exactly the rooms of
the swept tables that have the requested type, status Available or Occupied, no
`lock_expiration` later than `now`, and no conflicting active reservation for the
window from the requested check-in to `d` hours later; `roomId` is the id of the
first listed room, and `available` tells whether the list is non-empty. -/
theorem checkAvailability_spec (env : Env) (db : Db) (q : AvailabilityQuery) (d : Int)
    (hd : queryDurationHours q.duration = some d)
    (h200 : (checkAvailability env db q).1.status = 200) :
    (checkAvailability env db q).2 = (cleanUpStaleBookingsInternal env db).1 ∧
    (checkAvailability env db q).1.availableRooms =
      ((cleanUpStaleBookingsInternal env db).1.rooms.filter fun room =>
        (room.type == roomTypeOf env q.slug &&
          (room.status == .Available || room.status == .Occupied)) &&
        ((room.lock_expiration.all fun t => decide (t ≤ env.now)) &&
          checkRoomAvailability (cleanUpStaleBookingsInternal env db).1 room.room_id
            (env.dateTimeOf q.checkInDate q.checkInTime)
            (env.dateTimeOf q.checkInDate q.checkInTime + d * 3600000))).map
        (fun room => { id := room.room_id, number := room.room_number, name := room.name }) ∧
    (checkAvailability env db q).1.roomId =
      (checkAvailability env db q).1.availableRooms.head?.map (fun r => r.id) ∧
    (checkAvailability env db q).1.available =
      some (decide ((checkAvailability env db q).1.availableRooms ≠ [])) := by
  have hout : env.dateTimeOf q.checkInDate q.checkInTime + d * 60 * 60 * 1000 =
      env.dateTimeOf q.checkInDate q.checkInTime + d * 3600000 := by omega
  have hcollect := collectAvailableRooms_eq env (cleanUpStaleBookingsInternal env db).1
    (env.dateTimeOf q.checkInDate q.checkInTime)
    (env.dateTimeOf q.checkInDate q.checkInTime + d * 3600000)
    (roomsOfType (cleanUpStaleBookingsInternal env db).1 (roomTypeOf env q.slug))
  have hfilter : ∀ (rooms : List Room) (f : Room → Bool),
      ((rooms.filter fun r =>
          r.type == roomTypeOf env q.slug &&
            (r.status == .Available || r.status == .Occupied)).filter f) =
        rooms.filter fun room =>
          (room.type == roomTypeOf env q.slug &&
            (room.status == .Available || room.status == .Occupied)) && f room := by
    intro rooms f
    rw [List.filter_filter]
    congr 1
    funext r
    exact Bool.and_comm _ _
  unfold roomsOfType at hcollect
  rw [hfilter] at hcollect
  unfold checkAvailability at h200 ⊢
  simp only [hd, Option.map_some', hout] at h200 ⊢
  split_ifs at h200 ⊢ with h1 h2 h3 h5 h4
  all_goals first
    | (simp at h200; done)
    | skip
  · refine ⟨rfl, ?_, rfl, ?_⟩
    · exact hcollect
    · have hne : collectAvailableRooms env (cleanUpStaleBookingsInternal env db).1
          (env.dateTimeOf q.checkInDate q.checkInTime)
          (some (env.dateTimeOf q.checkInDate q.checkInTime + d * 3600000))
          (roomsOfType (cleanUpStaleBookingsInternal env db).1 (roomTypeOf env q.slug)) ≠
          [] := by
        intro hnil
        rw [hnil] at h4
        simp at h4
      simp [hne]
  · have hnil : collectAvailableRooms env (cleanUpStaleBookingsInternal env db).1
        (env.dateTimeOf q.checkInDate q.checkInTime)
        (some (env.dateTimeOf q.checkInDate q.checkInTime + d * 3600000))
        (roomsOfType (cleanUpStaleBookingsInternal env db).1 (roomTypeOf env q.slug)) =
        [] := by
      apply List.eq_nil_of_length_eq_zero
      omega
    refine ⟨rfl, ?_, rfl, by simp⟩
    rw [← hcollect]
    exact hnil.symm

/-- Witness for C18: on `staleDb` the reservation of room 1 for 14:00 to 17:00 is
Pending_Payment and 6 minutes old; the query for 14:00, 3 hours, sweeps it and
lists room 1. -/
theorem checkAvailability_spec_witness :
    queryDurationHours sampleQuery.duration = some 3 ∧
    (checkAvailability sampleEnv staleDb sampleQuery).1 =
      { status := 200, success := true, available := some true,
        availableRooms := [{ id := 1, number := "101", name := some "Standard Room" }],
        roomId := some 1 } ∧
    (checkAvailability sampleEnv staleDb sampleQuery).2.bookings.map (fun b => b.status) =
      [.Cancelled, .Pending_Payment] ∧
    (checkAvailability sampleEnv staleDb sampleQuery).2 =
      (cleanUpStaleBookingsInternal sampleEnv staleDb).1 :=
  ⟨by decide, by decide, by decide,
    (checkAvailability_spec sampleEnv staleDb sampleQuery 3 (by decide) (by decide)).1⟩

/-! ## Guest counts and child ages -/

theorem validateGuests_counts (g : GuestInfo)
    (h : adultsCount g < 1 ∨ adultsCount g > 4 ∨ childrenCount g < 0 ∨
      childrenCount g > 2) :
    ∃ r, validateGuests g = some r ∧
      (r.status = 400 ∨
        (r.status = 500 ∧ childrenCount g > 4294967295 ∧
          (parsedChildAges g).length = 0)) := by
  unfold validateGuests
  split
  · rename_i hrange
    exact ⟨_, rfl, Or.inr ⟨rfl, hrange.1, hrange.2⟩⟩
  · split
    · exact ⟨_, rfl, Or.inl rfl⟩
    · split
      · exact ⟨_, rfl, Or.inl rfl⟩
      · omega

theorem prepareBooking_guests_rejected (env : Env) (db : Db) (req : CheckoutRequest)
    (g : GuestInfo) (r : CheckoutResponse) (hg : req.guestInfo = some g)
    (hr : validateGuests g = some r) :
    (∃ r1, prepareBooking env db req = .error r1) ∧
    (∀ v room base, validateRequest env req = .ok v →
      selectRoom db req (roomTypeOf env req.roomSlug) v.checkInDateTime
        v.checkOutDateTime = .ok room →
      baseRoomPrice room req.duration = some base →
      prepareBooking env db req = .error r) := by
  have hkey : ∀ v, validateRequest env req = .ok v → v.guestInfo = g := by
    intro v hv
    have := (validateRequest_ok env req v hv).1
    rw [hg] at this
    exact (Option.some.inj this).symm
  constructor
  · unfold prepareBooking
    cases hv : validateRequest env req with
    | error r1 => exact ⟨r1, rfl⟩
    | ok v =>
      simp only
      cases hs : selectRoom db req (roomTypeOf env req.roomSlug) v.checkInDateTime
          v.checkOutDateTime with
      | error r1 => exact ⟨r1, rfl⟩
      | ok room =>
        simp only
        cases hb : baseRoomPrice room req.duration with
        | none => exact ⟨_, rfl⟩
        | some base =>
          simp only
          rw [hkey v hv, hr]
          exact ⟨r, rfl⟩
  · intro v room base hv hs hb
    unfold prepareBooking
    simp only [hv, hs, hb]
    rw [hkey v hv, hr]

theorem createCheckoutSession_prepare_error (env : Env) (db : Db) (req : CheckoutRequest)
    (r : CheckoutResponse) (h : prepareBooking env db req = .error r) :
    (createCheckoutSession env db req).response = r ∧
      (createCheckoutSession env db req).db = db ∧
      (createCheckoutSession env db req).gatewayCalls = [] := by
  unfold createCheckoutSession
  rw [h]
  exact ⟨rfl, rfl, rfl⟩

theorem selectRoom_error_status (db : Db) (req : CheckoutRequest) (roomType : String)
    (checkIn checkOut : Int) (r : CheckoutResponse)
    (h : selectRoom db req roomType checkIn checkOut = .error r) :
    r.status = 400 ∨ r.status = 404 ∨ r.status = 409 ∨ r.status = 500 := by
  unfold selectRoom at h
  repeat' split at h
  all_goals first
    | (cases h; simp [reject])
    | (simp at h)

theorem validateGuests_some_status (g : GuestInfo) (r : CheckoutResponse)
    (h : validateGuests g = some r) :
    r.status = 400 ∨ r.status = 404 ∨ r.status = 409 ∨ r.status = 500 := by
  unfold validateGuests at h
  repeat' split at h
  all_goals first
    | (cases h; simp [reject])
    | (simp at h)

theorem prepareBooking_error_status (env : Env) (db : Db) (req : CheckoutRequest)
    (r : CheckoutResponse) (h : prepareBooking env db req = .error r) :
    r.status = 400 ∨ r.status = 404 ∨ r.status = 409 ∨ r.status = 500 := by
  unfold prepareBooking at h
  split at h
  · rename_i response hv
    cases h
    exact Or.inl (validateRequest_error env req _ hv)
  · split at h
    · rename_i response hs
      cases h
      exact selectRoom_error_status _ _ _ _ _ _ hs
    · split at h
      · cases h
        simp [reject]
      · split at h
        · rename_i response hg
          cases h
          exact validateGuests_some_status _ _ hg
        · simp at h

/-- C19, the claim refuted: a request with five adults for a room type that has no
room is answered 404, not 400, because the room lookup comes before the guest
validation; and a request with an adult count of 0 is answered 200 and creates a
reservation for one adult, because `parseInt(adults) || 1` reads 0 as absent. -/
theorem createCheckoutSession_adults_not_always_400 :
    fiveAdultsRequest.guestInfo.map (fun g => g.adults) = some (some 5) ∧
    (createCheckoutSession sampleEnv emptyDb fiveAdultsRequest).response.status = 404 ∧
    zeroAdultsRequest.guestInfo.map (fun g => g.adults) = some (some 0) ∧
    (createCheckoutSession sampleEnv emptyDb zeroAdultsRequest).response.status = 200 ∧
    (createCheckoutSession sampleEnv emptyDb zeroAdultsRequest).db.bookings.map
      (fun b => b.adults_count) = [1] := by
  decide

/-- C19 as amended: a request whose supplied adult count is a non-zero integer
outside 1..4, or whose supplied child count is an integer outside 0..2, never
creates a reservation, is never answered 200 and reaches no gateway call.  When it
passes the checks that come before the guest validation (required fields,
duration, 5-minute increment, date boundaries, room type, room availability,
rate) it is answered 400, unless the child count exceeds `2^32 - 1` and no age
was parsed; in every case the status is one of 400, 404, 409 and 500. -/
theorem createCheckoutSession_rejects_bad_counts (env : Env) (db : Db)
    (req : CheckoutRequest) (g : GuestInfo) (hg : req.guestInfo = some g)
    (hbad : (∃ a, g.adults = some a ∧ a ≠ 0 ∧ (a < 1 ∨ a > 4)) ∨
      (∃ c, g.children = some c ∧ (c < 0 ∨ c > 2))) :
    (createCheckoutSession env db req).response.status ≠ 200 ∧
    (createCheckoutSession env db req).db = db ∧
    (createCheckoutSession env db req).gatewayCalls = [] ∧
    (∀ v room base, validateRequest env req = .ok v →
      selectRoom db req (roomTypeOf env req.roomSlug) v.checkInDateTime
        v.checkOutDateTime = .ok room →
      baseRoomPrice room req.duration = some base →
      ¬ (childrenCount g > 4294967295 ∧ (parsedChildAges g).length = 0) →
      (createCheckoutSession env db req).response.status = 400) ∧
    ((createCheckoutSession env db req).response.status = 400 ∨
      (createCheckoutSession env db req).response.status = 404 ∨
      (createCheckoutSession env db req).response.status = 409 ∨
      (createCheckoutSession env db req).response.status = 500) := by
  have hcounts : adultsCount g < 1 ∨ adultsCount g > 4 ∨ childrenCount g < 0 ∨
      childrenCount g > 2 := by
    rcases hbad with ⟨a, ha, hne, hr⟩ | ⟨c, hc, hr⟩
    · have : adultsCount g = a := by simp [adultsCount, ha, hne]
      omega
    · have : childrenCount g = c := by simp [childrenCount, hc]
      omega
  obtain ⟨r, hr, hstatus⟩ := validateGuests_counts g hcounts
  obtain ⟨⟨r1, hr1⟩, hpass⟩ := prepareBooking_guests_rejected env db req g r hg hr
  obtain ⟨hresp, hdb, hcalls⟩ := createCheckoutSession_prepare_error env db req r1 hr1
  refine ⟨?_, hdb, hcalls, ?_, ?_⟩
  · rw [hresp]
    exact prepareBooking_error env db req r1 hr1
  · intro v room base hv hs hb hrange
    have hprep := hpass v room base hv hs hb
    rw [(createCheckoutSession_prepare_error env db req r hprep).1]
    rcases hstatus with h400 | ⟨_, h1, h2⟩
    · exact h400
    · exact absurd ⟨h1, h2⟩ hrange
  · rw [hresp]
    exact prepareBooking_error_status env db req r1 hr1

/-- Witness for C19 as amended: the request with three children is answered 400
and creates nothing. -/
theorem createCheckoutSession_rejects_bad_counts_witness :
    (createCheckoutSession sampleEnv emptyDb threeChildrenRequest).response.status = 400 ∧
    ((createCheckoutSession sampleEnv emptyDb threeChildrenRequest).response.status ≠
        200 ∧
      (createCheckoutSession sampleEnv emptyDb threeChildrenRequest).db = emptyDb ∧
      (createCheckoutSession sampleEnv emptyDb threeChildrenRequest).gatewayCalls = []) :=
  ⟨by decide,
    (createCheckoutSession_rejects_bad_counts sampleEnv emptyDb threeChildrenRequest
      (sampleGuest 3 (.array ["5", "7", "10"])) rfl
      (Or.inr ⟨3, rfl, Or.inr (by decide)⟩)).1,
    (createCheckoutSession_rejects_bad_counts sampleEnv emptyDb threeChildrenRequest
      (sampleGuest 3 (.array ["5", "7", "10"])) rfl
      (Or.inr ⟨3, rfl, Or.inr (by decide)⟩)).2.1,
    (createCheckoutSession_rejects_bad_counts sampleEnv emptyDb threeChildrenRequest
      (sampleGuest 3 (.array ["5", "7", "10"])) rfl
      (Or.inr ⟨3, rfl, Or.inr (by decide)⟩)).2.2.1⟩

theorem firstInvalidAge_eq_none_iff (l : List Int) :
    firstInvalidAge l = none ↔ ∀ a ∈ l, 0 ≤ a ∧ a ≤ 13 := by
  constructor
  · exact firstInvalidAge_none l
  · intro h
    induction l with
    | nil => rfl
    | cons age rest ih =>
      unfold firstInvalidAge
      have hage := h age (List.mem_cons_self _ _)
      have hnot : ¬ (age < 0 ∨ age > 13) := by omega
      rw [if_neg hnot]
      exact ih fun a ha => h a (List.mem_cons_of_mem _ ha)

theorem childAges_of_parsed_nil (g : GuestInfo) (hc : childrenCount g > 0)
    (hnil : parsedChildAges g = []) :
    childAges g = List.replicate (childrenCount g).toNat 0 := by
  unfold childAges
  rw [hnil]
  have : ((([] : List Int).length : Nat) : Int) ≠ childrenCount g := by
    simp only [List.length_nil, Nat.cast_zero]
    omega
  rw [if_pos ⟨hc, this⟩]
  rfl

theorem childAges_of_parsed_ne_nil (g : GuestInfo) (hne : parsedChildAges g ≠ []) :
    childAges g = parsedChildAges g := by
  unfold childAges
  have hlen : (parsedChildAges g).length ≠ 0 := by
    intro h
    exact hne (List.eq_nil_of_length_eq_zero h)
  simp only [hlen, if_false]
  split_ifs <;> rfl

theorem validateGuests_eq_none_iff (g : GuestInfo)
    (hadults : 1 ≤ adultsCount g ∧ adultsCount g ≤ 4)
    (hc : childrenCount g = 1 ∨ childrenCount g = 2) :
    validateGuests g = none ↔
      parsedChildAges g = [] ∨
        (((parsedChildAges g).length : Int) = childrenCount g ∧
          ∀ a ∈ parsedChildAges g, 0 ≤ a ∧ a ≤ 13) := by
  have hpos : childrenCount g > 0 := by omega
  have h1 : ¬ (childrenCount g > 4294967295 ∧ (parsedChildAges g).length = 0) := by omega
  have h2 : ¬ (adultsCount g < 1 ∨ adultsCount g > 4) := by omega
  have h3 : ¬ (childrenCount g < 0 ∨ childrenCount g > 2) := by omega
  unfold validateGuests
  rw [if_neg h1, if_neg h2, if_neg h3]
  by_cases hnil : parsedChildAges g = []
  · have hages := childAges_of_parsed_nil g hpos hnil
    have hlen : ¬ (childrenCount g > 0 ∧
        ((childAges g).length : Int) ≠ childrenCount g) := by
      rw [hages, List.length_replicate]
      intro h
      apply h.2
      omega
    have hvalid : firstInvalidAge (childAges g) = none := by
      rw [firstInvalidAge_eq_none_iff, hages]
      intro a ha
      have := List.eq_of_mem_replicate ha
      omega
    rw [if_neg hlen, hvalid]
    simp [hnil]
  · have hages := childAges_of_parsed_ne_nil g hnil
    rw [hages]
    by_cases hlen : ((parsedChildAges g).length : Int) = childrenCount g
    · have hl : ¬ (childrenCount g > 0 ∧
          ((parsedChildAges g).length : Int) ≠ childrenCount g) := fun h => h.2 hlen
      rw [if_neg hl]
      cases hf : firstInvalidAge (parsedChildAges g) with
      | none =>
        simp only [true_iff]
        exact Or.inr ⟨hlen, (firstInvalidAge_eq_none_iff _).1 hf⟩
      | some age =>
        constructor
        · intro h
          cases h
        · intro h
          rcases h with h | ⟨_, hall⟩
          · exact absurd h hnil
          · rw [(firstInvalidAge_eq_none_iff _).2 hall] at hf
            cases hf
    · have hl : childrenCount g > 0 ∧
          ((parsedChildAges g).length : Int) ≠ childrenCount g := ⟨hpos, hlen⟩
      rw [if_pos hl]
      constructor
      · intro h
        cases h
      · intro h
        rcases h with h | ⟨h, _⟩
        · exact absurd h hnil
        · exact absurd h hlen

theorem validateGuests_status_400 (g : GuestInfo) (r : CheckoutResponse)
    (hc : childrenCount g ≤ 2) (h : validateGuests g = some r) : r.status = 400 := by
  unfold validateGuests at h
  split at h
  · omega
  · repeat' split at h
    all_goals first
      | (cases h; rfl)
      | (simp at h)

theorem child_age_condition (ages : List Int) (c : Int) :
    ¬ (ages = [] ∨ ((ages.length : Int) = c ∧ ∀ a ∈ ages, 0 ≤ a ∧ a ≤ 13)) ↔
      (ages ≠ [] ∧ (ages.length : Int) ≠ c) ∨ (∃ a ∈ ages, a < 0 ∨ a > 13) := by
  constructor
  · intro h
    have hne : ages ≠ [] := fun hnil => h (Or.inl hnil)
    by_cases hlen : (ages.length : Int) = c
    · right
      by_contra hno
      apply h
      right
      refine ⟨hlen, fun a ha => ?_⟩
      by_contra hbad
      exact hno ⟨a, ha, by omega⟩
    · exact Or.inl ⟨hne, hlen⟩
  · rintro (⟨hne, hlen⟩ | ⟨a, ha, hbad⟩) h
    · rcases h with hnil | ⟨hl, _⟩
      · exact hne hnil
      · exact hlen hl
    · rcases h with hnil | ⟨_, hall⟩
      · rw [hnil] at ha
        cases ha
      · have := hall a ha
        omega

theorem createCheckoutSession_prepared_status (env : Env) (db : Db) (req : CheckoutRequest)
    (p : PreparedBooking) (h : prepareBooking env db req = .ok p) :
    (createCheckoutSession env db req).response.status = 200 ∨
      (createCheckoutSession env db req).response.status = 500 := by
  unfold createCheckoutSession
  rw [h]
  simp only
  rcases bookingTransaction env db req p with ⟨_ | ⟨session, committed⟩, calls⟩
  · exact Or.inr rfl
  · exact Or.inl rfl

theorem prepareBooking_guests_accepted (env : Env) (db : Db) (req : CheckoutRequest)
    (v : ValidatedRequest) (room : Room) (base : Money)
    (hv : validateRequest env req = .ok v)
    (hs : selectRoom db req (roomTypeOf env req.roomSlug) v.checkInDateTime
      v.checkOutDateTime = .ok room)
    (hb : baseRoomPrice room req.duration = some base)
    (hnone : validateGuests v.guestInfo = none) :
    ∃ p, prepareBooking env db req = .ok p := by
  unfold prepareBooking
  simp only [hv, hs, hb, hnone]
  exact ⟨_, rfl⟩

/-- C20: the child-age validation of `createCheckoutSession`, for a child count
`c` of 1 or 2 and the list `L` of parsed ages, on a request with a valid adult
count.  The guest validation rejects exactly when `L` is non-empty with a length
other than `c`, or some age of `L` lies outside 0..13, and it then answers 400;
for a request that has passed the earlier checks this is exactly when the handler
answers 400.  When `L` is empty the ages become `c` zeros, the validation passes
and no surcharge is added.  Every reservation created with `children_count > 0`
stores exactly `children_count` ages, each in 0..13. -/
theorem createCheckoutSession_child_age_validation (env : Env) (db : Db)
    (req : CheckoutRequest) :
    (∀ g : GuestInfo, (1 ≤ adultsCount g ∧ adultsCount g ≤ 4) →
      (childrenCount g = 1 ∨ childrenCount g = 2) →
      ((∃ r, validateGuests g = some r) ↔
        (parsedChildAges g ≠ [] ∧
          ((parsedChildAges g).length : Int) ≠ childrenCount g) ∨
        (∃ a ∈ parsedChildAges g, a < 0 ∨ a > 13)) ∧
      (∀ r, validateGuests g = some r → r.status = 400) ∧
      (parsedChildAges g = [] →
        childAges g = List.replicate (childrenCount g).toNat 0 ∧
        validateGuests g = none ∧
        childAddOnPrice (childAges g) = 0)) ∧
    (∀ (g : GuestInfo) (v : ValidatedRequest) (room : Room) (base : Money),
      req.guestInfo = some g →
      (1 ≤ adultsCount g ∧ adultsCount g ≤ 4) →
      (childrenCount g = 1 ∨ childrenCount g = 2) →
      validateRequest env req = .ok v →
      selectRoom db req (roomTypeOf env req.roomSlug) v.checkInDateTime
        v.checkOutDateTime = .ok room →
      baseRoomPrice room req.duration = some base →
      ((createCheckoutSession env db req).response.status = 400 ↔
        (parsedChildAges g ≠ [] ∧
          ((parsedChildAges g).length : Int) ≠ childrenCount g) ∨
        (∃ a ∈ parsedChildAges g, a < 0 ∨ a > 13))) ∧
    ((createCheckoutSession env db req).response.status = 200 →
      ∃ b, (createCheckoutSession env db req).db.bookings = db.bookings ++ [b] ∧
        (b.children_count > 0 →
          ∃ ages, b.child_ages = some ages ∧
            (ages.length : Int) = b.children_count ∧
            ∀ a ∈ ages, 0 ≤ a ∧ a ≤ 13)) := by
  have hiff : ∀ g : GuestInfo, (1 ≤ adultsCount g ∧ adultsCount g ≤ 4) →
      (childrenCount g = 1 ∨ childrenCount g = 2) →
      ((∃ r, validateGuests g = some r) ↔
        (parsedChildAges g ≠ [] ∧
          ((parsedChildAges g).length : Int) ≠ childrenCount g) ∨
        (∃ a ∈ parsedChildAges g, a < 0 ∨ a > 13)) := by
    intro g hadults hc
    rw [← child_age_condition, ← validateGuests_eq_none_iff g hadults hc]
    cases validateGuests g <;> simp
  refine ⟨?_, ?_, ?_⟩
  · intro g hadults hc
    refine ⟨hiff g hadults hc, ?_, ?_⟩
    · intro r hr
      exact validateGuests_status_400 g r (by omega) hr
    · intro hnil
      have hages := childAges_of_parsed_nil g (by omega) hnil
      refine ⟨hages, (validateGuests_eq_none_iff g hadults hc).2 (Or.inl hnil), ?_⟩
      rw [childAddOnPrice_eq]
      have hfilter : (childAges g).filter (fun a => decide (7 ≤ a ∧ a ≤ 13)) = [] := by
        rw [List.filter_eq_nil_iff, hages]
        intro a ha
        have := List.eq_of_mem_replicate ha
        simp only [decide_eq_true_eq]
        omega
      rw [hfilter]
      simp
  · intro g v room base hg hadults hc hv hs hb
    have hvg : v.guestInfo = g := by
      have := (validateRequest_ok env req v hv).1
      rw [hg] at this
      exact (Option.some.inj this).symm
    rw [← hiff g hadults hc]
    cases hval : validateGuests g with
    | some r =>
      have hprep := (prepareBooking_guests_rejected env db req g r hg hval).2 v room base
        hv hs hb
      rw [(createCheckoutSession_prepare_error env db req r hprep).1,
        validateGuests_status_400 g r (by omega) hval]
      simp
    | none =>
      obtain ⟨p, hp⟩ := prepareBooking_guests_accepted env db req v room base hv hs hb
        (by rw [hvg]; exact hval)
      have hst := createCheckoutSession_prepared_status env db req p hp
      constructor
      · intro h400
        omega
      · rintro ⟨r, hr⟩
        cases hr
  · intro h
    obtain ⟨p, lockedRoom, session, hprep, _, _, _, _, hbookings, _⟩ :=
      createCheckoutSession_created env db req h
    obtain ⟨_, _, _, _, hguests, _, _, _, hcount, hages, _, _⟩ :=
      prepareBooking_ok env db req p hprep
    obtain ⟨_, _, hlen, hrange⟩ := validateGuests_none _ hguests
    refine ⟨_, hbookings, ?_⟩
    intro hpos
    have hpos2 : p.childrenCount > 0 := hpos
    refine ⟨p.childAges, ?_, ?_, ?_⟩
    · show (if p.childrenCount > 0 then some p.childAges else none) = _
      rw [if_pos hpos2]
    · show ((p.childAges.length : Int) = p.childrenCount)
      rw [hages, hcount]
      apply hlen
      rw [← hcount]
      exact hpos2
    · rw [hages]
      exact hrange

/-- Witness for C20: two children with the single age 7 are rejected with 400; two
children with no age are accepted with ages `[0, 0]` at the base rate. -/
theorem createCheckoutSession_child_age_validation_witness :
    (createCheckoutSession sampleEnv emptyDb
      (sampleRequest "14:00" 2 (.array ["7"]))).response.status = 400 ∧
    (createCheckoutSession sampleEnv emptyDb
      (sampleRequest "14:00" 2 .absent)).response.status = 200 ∧
    (createCheckoutSession sampleEnv emptyDb
      (sampleRequest "14:00" 2 .absent)).db.bookings.map
        (fun b => (b.children_count, b.child_ages, b.total_amount)) =
      [(2, some [0, 0], pesos 500)] ∧
    (∃ b, (createCheckoutSession sampleEnv emptyDb
        (sampleRequest "14:00" 2 .absent)).db.bookings = emptyDb.bookings ++ [b] ∧
      (b.children_count > 0 →
        ∃ ages, b.child_ages = some ages ∧
          (ages.length : Int) = b.children_count ∧
          ∀ a ∈ ages, 0 ≤ a ∧ a ≤ 13)) ∧
    (childAges (sampleGuest 2 .absent) = List.replicate (2 : Int).toNat 0 ∧
      validateGuests (sampleGuest 2 .absent) = none ∧
      childAddOnPrice (childAges (sampleGuest 2 .absent)) = 0) :=
  ⟨by decide, by decide, rfl,
    (createCheckoutSession_child_age_validation sampleEnv emptyDb
      (sampleRequest "14:00" 2 .absent)).2.2 (by decide),
    ((createCheckoutSession_child_age_validation sampleEnv emptyDb
      (sampleRequest "14:00" 2 .absent)).1 (sampleGuest 2 .absent) (by decide)
      (Or.inr (by decide))).2.2 (by decide)⟩

/-! ## Input validation -/

theorem minutes_check_iff (minutes : Option Int) :
    minutes.all (fun m => m % 5 != 0) = true ↔ ¬ ∃ m, minutes = some m ∧ m % 5 = 0 := by
  cases minutes with
  | none => simp
  | some m => simp

theorem validateRequest_bad_duration_or_minutes (env : Env) (req : CheckoutRequest)
    (h : req.duration ∉ validDurations ∨
      ¬ ∃ m, env.minutesOf req.checkInTime = some m ∧ m % 5 = 0) :
    ∃ r, validateRequest env req = .error r := by
  rw [← minutes_check_iff] at h
  unfold validateRequest
  split
  · exact ⟨_, rfl⟩
  · split_ifs with h1 h2 h3
    · exact ⟨_, rfl⟩
    · exact ⟨_, rfl⟩
    · rcases h with h | h
      · exact absurd h2 h
      · exact absurd h h3
    · exact ⟨_, rfl⟩

theorem prepareBooking_validation_error (env : Env) (db : Db) (req : CheckoutRequest)
    (r : CheckoutResponse) (h : validateRequest env req = .error r) :
    prepareBooking env db req = .error r := by
  unfold prepareBooking
  rw [h]

/-- C21: a request to `createCheckoutSession` whose duration is not one of 3, 6,
12, 24, or whose check-in time has no minute value that is a multiple of 5, is
answered 400; the tables are unchanged (no reservation created or modified) and
nothing is sent to the payment gateway. -/
theorem createCheckoutSession_rejects_bad_duration_or_minutes (env : Env) (db : Db)
    (req : CheckoutRequest)
    (h : req.duration ∉ validDurations ∨
      ¬ ∃ m, env.minutesOf req.checkInTime = some m ∧ m % 5 = 0) :
    (createCheckoutSession env db req).response.status = 400 ∧
      (createCheckoutSession env db req).db = db ∧
      (createCheckoutSession env db req).gatewayCalls = [] := by
  obtain ⟨r, hr⟩ := validateRequest_bad_duration_or_minutes env req h
  obtain ⟨h1, h2, h3⟩ := createCheckoutSession_prepare_error env db req r
    (prepareBooking_validation_error env db req r hr)
  rw [h1]
  exact ⟨validateRequest_error env req r hr, h2, h3⟩

/-- C21, witnesses: a duration of 5 hours, and a check-in time at minute 7, on
tables with a free room. -/
theorem createCheckoutSession_rejects_bad_duration_or_minutes_witness :
    ((createCheckoutSession sampleEnv emptyDb
        { sampleRequest "14:00" 0 .absent with duration := "5" }).response.status = 400 ∧
      (createCheckoutSession sampleEnv emptyDb
        { sampleRequest "14:00" 0 .absent with duration := "5" }).db = emptyDb ∧
      (createCheckoutSession sampleEnv emptyDb
        { sampleRequest "14:00" 0 .absent with duration := "5" }).gatewayCalls = []) ∧
    ((createCheckoutSession { sampleEnv with minutesOf := fun _ => some 7 } emptyDb
        (sampleRequest "14:07" 0 .absent)).response.status = 400 ∧
      (createCheckoutSession { sampleEnv with minutesOf := fun _ => some 7 } emptyDb
        (sampleRequest "14:07" 0 .absent)).db = emptyDb ∧
      (createCheckoutSession { sampleEnv with minutesOf := fun _ => some 7 } emptyDb
        (sampleRequest "14:07" 0 .absent)).gatewayCalls = []) :=
  ⟨createCheckoutSession_rejects_bad_duration_or_minutes sampleEnv emptyDb
      { sampleRequest "14:00" 0 .absent with duration := "5" } (Or.inl (by decide)),
    createCheckoutSession_rejects_bad_duration_or_minutes
      { sampleEnv with minutesOf := fun _ => some 7 } emptyDb
      (sampleRequest "14:07" 0 .absent)
      (Or.inr (by rintro ⟨m, hm, h5⟩; cases hm; exact absurd h5 (by decide)))⟩

theorem validateRequest_dates (env : Env) (req : CheckoutRequest) (guestInfo : GuestInfo)
    (hg : req.guestInfo = some guestInfo)
    (hf : req.roomSlug ≠ "" ∧ req.checkInDate ≠ "" ∧ req.checkInTime ≠ "" ∧
      req.duration ≠ "")
    (hd : req.duration ∈ validDurations)
    (hm : ∃ m, env.minutesOf req.checkInTime = some m ∧ m % 5 = 0) :
    validateRequest env req =
      if env.dateTimeOf req.checkInDate req.checkInTime < env.now - 5 * 60 * 1000 then
        .error (reject 400 "Cannot book dates in the past")
      else if env.dateTimeOf req.checkInDate req.checkInTime > env.oneYearFromNow then
        .error (reject 400 "Bookings limited to 1 year in advance")
      else
        .ok { guestInfo := guestInfo,
              checkInDateTime := env.dateTimeOf req.checkInDate req.checkInTime,
              checkOutDateTime := env.dateTimeOf req.checkInDate req.checkInTime +
                durationHours req.duration * 3600000 } := by
  have hm2 : ¬ (env.minutesOf req.checkInTime).all (fun m => m % 5 != 0) = true := by
    rw [minutes_check_iff]
    exact not_not.mpr hm
  have hf2 : ¬ (req.roomSlug = "" ∨ req.checkInDate = "" ∨ req.checkInTime = "" ∨
      req.duration = "") := by
    rintro (h | h | h | h)
    · exact hf.1 h
    · exact hf.2.1 h
    · exact hf.2.2.1 h
    · exact hf.2.2.2 h
  unfold validateRequest
  rw [hg]
  simp only [if_neg hf2, if_neg (not_not.mpr hd), if_neg hm2, GRACE_PERIOD_MS]

/-- C28: for a request that passes the checks on required fields, duration and
minutes, `createCheckoutSession` answers 400 and leaves the tables unchanged when
the check-in time is earlier than `now` minus 5 minutes and when it is later than
`now` plus one year; a check-in time from `now` minus 5 minutes to `now` plus one
year, both ends included, passes the validation block. -/
theorem createCheckoutSession_date_boundaries (env : Env) (db : Db) (req : CheckoutRequest)
    (guestInfo : GuestInfo) (hg : req.guestInfo = some guestInfo)
    (hf : req.roomSlug ≠ "" ∧ req.checkInDate ≠ "" ∧ req.checkInTime ≠ "" ∧
      req.duration ≠ "")
    (hd : req.duration ∈ validDurations)
    (hm : ∃ m, env.minutesOf req.checkInTime = some m ∧ m % 5 = 0) :
    (env.dateTimeOf req.checkInDate req.checkInTime < env.now - 5 * 60 * 1000 →
      (createCheckoutSession env db req).response =
          reject 400 "Cannot book dates in the past" ∧
        (createCheckoutSession env db req).db = db) ∧
    (env.now - 5 * 60 * 1000 ≤ env.dateTimeOf req.checkInDate req.checkInTime →
      env.oneYearFromNow < env.dateTimeOf req.checkInDate req.checkInTime →
      (createCheckoutSession env db req).response =
          reject 400 "Bookings limited to 1 year in advance" ∧
        (createCheckoutSession env db req).db = db) ∧
    (env.now - 5 * 60 * 1000 ≤ env.dateTimeOf req.checkInDate req.checkInTime →
      env.dateTimeOf req.checkInDate req.checkInTime ≤ env.oneYearFromNow →
      validateRequest env req =
        .ok { guestInfo := guestInfo,
              checkInDateTime := env.dateTimeOf req.checkInDate req.checkInTime,
              checkOutDateTime := env.dateTimeOf req.checkInDate req.checkInTime +
                durationHours req.duration * 3600000 }) := by
  have hv := validateRequest_dates env req guestInfo hg hf hd hm
  refine ⟨fun h => ?_, fun h1 h2 => ?_, fun h1 h2 => ?_⟩
  · rw [if_pos h] at hv
    obtain ⟨h1, h2, _⟩ := createCheckoutSession_prepare_error env db req _
      (prepareBooking_validation_error env db req _ hv)
    exact ⟨h1, h2⟩
  · rw [if_neg (not_lt.mpr h1), if_pos h2] at hv
    obtain ⟨h1, h2, _⟩ := createCheckoutSession_prepare_error env db req _
      (prepareBooking_validation_error env db req _ hv)
    exact ⟨h1, h2⟩
  · rw [if_neg (not_lt.mpr h1), if_neg (not_lt.mpr h2)] at hv
    exact hv

/-- C28, witnesses: a check-in at 14:00 of day 0 is rejected as past when the
clock stands more than a day later, rejected as too far ahead when the year ends
one second after the clock, and passes the validation block when the clock stands
at 0 and the year ends 365 days later. -/
theorem createCheckoutSession_date_boundaries_witness :
    ((createCheckoutSession { sampleEnv with now := 100000000 } emptyDb
          (sampleRequest "14:00" 0 .absent)).response =
        reject 400 "Cannot book dates in the past" ∧
      (createCheckoutSession { sampleEnv with now := 100000000 } emptyDb
          (sampleRequest "14:00" 0 .absent)).db = emptyDb) ∧
    ((createCheckoutSession { sampleEnv with oneYearFromNow := 1000 } emptyDb
          (sampleRequest "14:00" 0 .absent)).response =
        reject 400 "Bookings limited to 1 year in advance" ∧
      (createCheckoutSession { sampleEnv with oneYearFromNow := 1000 } emptyDb
          (sampleRequest "14:00" 0 .absent)).db = emptyDb) ∧
    validateRequest sampleEnv (sampleRequest "14:00" 0 .absent) =
      .ok { guestInfo := sampleGuest 0 .absent, checkInDateTime := 50400000,
            checkOutDateTime := 61200000 } :=
  ⟨(createCheckoutSession_date_boundaries { sampleEnv with now := 100000000 } emptyDb
      (sampleRequest "14:00" 0 .absent) (sampleGuest 0 .absent) rfl (by decide) (by decide)
      ⟨0, rfl, by decide⟩).1 (by decide),
    (createCheckoutSession_date_boundaries { sampleEnv with oneYearFromNow := 1000 } emptyDb
      (sampleRequest "14:00" 0 .absent) (sampleGuest 0 .absent) rfl (by decide) (by decide)
      ⟨0, rfl, by decide⟩).2.1 (by decide) (by decide),
    (createCheckoutSession_date_boundaries sampleEnv emptyDb
      (sampleRequest "14:00" 0 .absent) (sampleGuest 0 .absent) rfl (by decide) (by decide)
      ⟨0, rfl, by decide⟩).2.2 (by decide) (by decide)⟩

/-! ## Walk-in bookings -/

theorem baseRoomPrice_some (room : Room) (duration : String) (rate : Money)
    (h : baseRoomPrice room duration = some rate) :
    duration ∈ validDurations ∧ rate ≠ 0 := by
  unfold baseRoomPrice at h
  rw [Option.filter_eq_some] at h
  obtain ⟨h1, h2⟩ := h
  constructor
  · unfold Room.baseRate at h1
    unfold validDurations
    split_ifs at h1 with a b c d
    · simp [a]
    · simp [b]
    · simp [c]
    · simp [d]
    · simp at h1
  · simpa using h2

theorem durationHours_valid (duration : String) (h : duration ∈ validDurations) :
    durationHours duration = 3 ∨ durationHours duration = 6 ∨
      durationHours duration = 12 ∨ durationHours duration = 24 := by
  simp only [validDurations, List.mem_cons, List.mem_singleton, List.not_mem_nil,
    or_false] at h
  rcases h with h | h | h | h <;> subst h <;> decide

theorem createWalkInBooking_ok (env : Env) (db : Db) (req : WalkInRequest) (room : Room)
    (rate : Money) (hid : req.roomId ≠ 0) (hroom : findRoom db req.roomId = some room)
    (hrate : baseRoomPrice room req.duration = some rate) :
    createWalkInBooking env db req =
      ({ status := 200, success := true,
         message := "Walk-in created for room " ++ room.room_number },
        setRoomStatus { db with bookings := db.bookings ++ [walkInBooking env db req rate] }
          req.roomId .Occupied) := by
  have hd : req.duration ≠ "" := by
    intro h
    have := (baseRoomPrice_some room req.duration rate hrate).1
    rw [h] at this
    exact absurd this (by decide)
  have hne : ¬ (req.roomId = 0 ∨ req.duration = "") := by
    rintro (h | h)
    · exact hid h
    · exact hd h
  unfold createWalkInBooking
  rw [if_neg hne]
  simp only [hroom, hrate, findRoom_room_id db req.roomId room hroom]

theorem createWalkInBooking_cases (env : Env) (db : Db) (req : WalkInRequest) :
    ((createWalkInBooking env db req).1.success = false ∧
      (createWalkInBooking env db req).2 = db) ∨
    ∃ room rate, req.roomId ≠ 0 ∧ findRoom db req.roomId = some room ∧
      baseRoomPrice room req.duration = some rate := by
  by_cases h : req.roomId = 0 ∨ req.duration = ""
  · left
    unfold createWalkInBooking
    rw [if_pos h]
    exact ⟨rfl, rfl⟩
  · cases hroom : findRoom db req.roomId with
    | none =>
      left
      unfold createWalkInBooking
      rw [if_neg h]
      simp only [hroom]
      exact ⟨trivial, trivial⟩
    | some room =>
      cases hrate : baseRoomPrice room req.duration with
      | none =>
        left
        unfold createWalkInBooking
        rw [if_neg h]
        simp only [hroom, hrate]
        exact ⟨trivial, trivial⟩
      | some rate =>
        right
        exact ⟨room, rate, fun h0 => h (Or.inl h0), rfl, hrate⟩

/-- C24: for a room that exists and a duration for which it has a rate,
`createWalkInBooking` answers 200 and appends exactly one reservation: of that
room, Checked_In, from a walk-in, without guest id and checkout session, from `now`
to `now` plus the duration in hours, for the room's rate; the rows of that room get
the status Occupied and nothing else changes.  When the room does not exist or has
no rate for the duration, the answer is a failure and the tables are unchanged. -/
theorem createWalkInBooking_postcondition (env : Env) (db : Db) (req : WalkInRequest) :
    (∀ room rate, req.roomId ≠ 0 → findRoom db req.roomId = some room →
      baseRoomPrice room req.duration = some rate →
      (createWalkInBooking env db req).1.status = 200 ∧
      (∃ b, (createWalkInBooking env db req).2.bookings = db.bookings ++ [b] ∧
        b.room_id = req.roomId ∧ b.status = .Checked_In ∧ b.source = .Walk_in ∧
        b.guest_id = none ∧ b.checkout_session_id = none ∧
        b.check_in_time = env.now ∧
        b.check_out_time = env.now + b.duration_hours * 3600000 ∧
        (b.duration_hours = 3 ∨ b.duration_hours = 6 ∨ b.duration_hours = 12 ∨
          b.duration_hours = 24) ∧
        req.duration = toString b.duration_hours ∧
        b.total_amount = rate) ∧
      (createWalkInBooking env db req).2.rooms =
        db.rooms.map (fun r =>
          if r.room_id = req.roomId then { r with status := .Occupied } else r)) ∧
    ((findRoom db req.roomId = none ∨
        ∃ room, findRoom db req.roomId = some room ∧
          baseRoomPrice room req.duration = none) →
      (createWalkInBooking env db req).1.success = false ∧
      (createWalkInBooking env db req).2 = db) := by
  constructor
  · intro room rate hid hroom hrate
    rw [createWalkInBooking_ok env db req room rate hid hroom hrate]
    have hd := (baseRoomPrice_some room req.duration rate hrate).1
    refine ⟨rfl, ⟨walkInBooking env db req rate, rfl, rfl, rfl, rfl, rfl, rfl, rfl, ?_,
      durationHours_valid req.duration hd, ?_, rfl⟩, rfl⟩
    · show env.now + durationHours req.duration * 60 * 60 * 1000 =
        env.now + durationHours req.duration * 3600000
      omega
    · show req.duration = toString (durationHours req.duration)
      simp only [validDurations, List.mem_cons, List.mem_singleton, List.not_mem_nil,
        or_false] at hd
      rcases hd with h | h | h | h <;> rw [h] <;> decide
  · intro h
    rcases createWalkInBooking_cases env db req with hc | ⟨room, rate, _, hroom, hrate⟩
    · exact hc
    · rcases h with h | ⟨room2, h2, h3⟩
      · rw [h] at hroom
        cases hroom
      · rw [h2] at hroom
        cases hroom
        rw [h3] at hrate
        cases hrate

/-- C24, witnesses: a 3-hour walk-in for `sampleRoom` is answered 200 and the room
becomes Occupied; a walk-in for a room id that no room has is answered with a
failure and changes nothing. -/
theorem createWalkInBooking_postcondition_witness :
    ((createWalkInBooking sampleEnv emptyDb (sampleWalkIn none none)).1.status = 200 ∧
      (createWalkInBooking sampleEnv emptyDb (sampleWalkIn none none)).2.rooms =
        [{ sampleRoom with status := .Occupied }]) ∧
    ((createWalkInBooking sampleEnv emptyDb
        { sampleWalkIn none none with roomId := 9 }).1.success = false ∧
      (createWalkInBooking sampleEnv emptyDb
        { sampleWalkIn none none with roomId := 9 }).2 = emptyDb) :=
  ⟨⟨((createWalkInBooking_postcondition sampleEnv emptyDb (sampleWalkIn none none)).1
        sampleRoom (pesos 500) (by decide) (by decide) (by decide)).1,
      ((createWalkInBooking_postcondition sampleEnv emptyDb (sampleWalkIn none none)).1
        sampleRoom (pesos 500) (by decide) (by decide) (by decide)).2.2⟩,
    (createWalkInBooking_postcondition sampleEnv emptyDb
      { sampleWalkIn none none with roomId := 9 }).2 (Or.inl (by decide))⟩

/-- C22, the code at the failing input: a walk-in with 10 adults and 5 children is
answered 200 and stored with these counts, and one with -3 adults likewise, while
`createCheckoutSession` answers 400 to 10 adults and creates nothing. -/
theorem createWalkInBooking_stores_unchecked_counts :
    (createWalkInBooking sampleEnv emptyDb (sampleWalkIn (some 10) (some 5))).1.status = 200 ∧
    (createWalkInBooking sampleEnv emptyDb
        (sampleWalkIn (some 10) (some 5))).2.bookings.map
      (fun b => (b.adults_count, b.children_count)) = [(10, 5)] ∧
    (createWalkInBooking sampleEnv emptyDb
        (sampleWalkIn (some (-3)) none)).2.bookings.map
      (fun b => (b.adults_count, b.children_count)) = [(-3, 0)] ∧
    (createCheckoutSession sampleEnv emptyDb
        { sampleRequest "14:00" 0 .absent with
          guestInfo := some { sampleGuest 0 .absent with adults := some 10 } }).response.status
      = 400 ∧
    (createCheckoutSession sampleEnv emptyDb
        { sampleRequest "14:00" 0 .absent with
          guestInfo := some { sampleGuest 0 .absent with adults := some 10 } }).db.bookings
      = [] := by
  decide

theorem createCheckoutSessionAfterCommit_same (env : Env) (db : Db) (req : CheckoutRequest) :
    createCheckoutSessionAfterCommit env db db req = createCheckoutSession env db req :=
  rfl

/-- C27, the code at the failing input: a request for 14:00 finds the room free in
the scan; when a Confirmed reservation of the same room and window is committed
before the room row is locked, the re-check inside the transaction fails and the
caller gets 500, not 409, with nothing created and nothing sent to the gateway.
The same conflict found by the scan is answered 409. -/
theorem createCheckoutSession_lock_conflict_answers_500 :
    (createCheckoutSession sampleEnv emptyDb
        (sampleRequest "14:00" 0 .absent)).response.status = 200 ∧
    (createCheckoutSessionAfterCommit sampleEnv emptyDb (sampleDb .Confirmed)
        (sampleRequest "14:00" 0 .absent)).response =
      reject 500
        "Room is no longer available (booked by another user during your session)" ∧
    (createCheckoutSessionAfterCommit sampleEnv emptyDb (sampleDb .Confirmed)
        (sampleRequest "14:00" 0 .absent)).db = sampleDb .Confirmed ∧
    (createCheckoutSessionAfterCommit sampleEnv emptyDb (sampleDb .Confirmed)
        (sampleRequest "14:00" 0 .absent)).gatewayCalls = [] ∧
    (createCheckoutSession sampleEnv (sampleDb .Confirmed)
        (sampleRequest "14:00" 0 .absent)).response.status = 409 := by
  refine ⟨by decide, by decide, rfl, by decide, by decide⟩

/-- C30, the code at the failing input: with the clock of November 2023, whose
reading has 8 digits in base 36, and a random part of 8 characters, the reference
code has 21 characters, one more than the column `reference_code` holds, so the
column would hold only its first 20 characters; the code that
`generateUniqueReferenceCode` returns is the same, and its fallback after ten
collisions has 26 characters. -/
theorem generateReferenceCode_exceeds_column_width :
    generateReferenceCode realisticEnv 0 = "BKG-LOYW3V28-4FZYO82M" ∧
    (generateReferenceCode realisticEnv 0).length = 21 ∧
    REFERENCE_CODE_LENGTH < (generateReferenceCode realisticEnv 0).length ∧
    generateUniqueReferenceCode realisticEnv emptyDb = "BKG-LOYW3V28-4FZYO82M" ∧
    generateUniqueReferenceCode realisticEnv
        { emptyDb with bookings :=
            [{ sampleBooking .Confirmed with reference_code := "BKG-LOYW3V28-4FZYO82M" }] } =
      "BKG-LOYW3V28-4FZYO82M-4FZY" ∧
    storedReferenceCode (generateReferenceCode realisticEnv 0) = "BKG-LOYW3V28-4FZYO82" ∧
    storedReferenceCode (generateReferenceCode realisticEnv 0) ≠
      generateReferenceCode realisticEnv 0 := by
  decide

/-! ## Front desk: side effects -/

theorem validStatuses_lookup (s : String) :
    validStatuses.lookup s =
      if s = "Confirmed" then some .Confirmed
      else if s = "Checked_In" then some .Checked_In
      else if s = "Completed" then some .Completed
      else if s = "Cancelled" then some .Cancelled
      else none := by
  have hbeq : ∀ t : String, (s == t) = decide (s = t) := fun t => by
    by_cases h : s = t <;> simp [h]
  simp only [validStatuses, List.lookup, hbeq]
  split_ifs with h1 h2 h3 h4
  · subst h1
    rfl
  · subst h2
    rfl
  · subst h3
    rfl
  · subst h4
    rfl
  · simp only [h1, h2, h3, h4, decide_False]

theorem map_rooms_of_findRoom_none (db : Db) (roomId : Nat) (status : RoomStatus)
    (h : findRoom db roomId = none) :
    db.rooms.map (fun r => if r.room_id = roomId then { r with status := status } else r) =
      db.rooms := by
  unfold findRoom at h
  rw [List.find?_eq_none] at h
  conv_rhs => rw [← List.map_id db.rooms]
  apply List.map_congr_left
  intro r hr
  have := h r hr
  simp only [beq_iff_eq] at this
  rw [if_neg this]
  rfl

theorem updateBookingStatus_rooms (env : Env) (db : Db) (req : StatusUpdateRequest)
    (target : BookingStatus) (booking : Booking)
    (ht : validStatuses.lookup req.status = some target)
    (hb : findByPk db req.id = some booking) :
    (updateBookingStatus env db req).2.rooms =
      if target = .Checked_In then
        db.rooms.map (fun r =>
          if r.room_id = booking.room_id then { r with status := .Occupied } else r)
      else if target = .Completed then
        db.rooms.map (fun r =>
          if r.room_id = booking.room_id then { r with status := .Dirty } else r)
      else db.rooms := by
  unfold updateBookingStatus
  simp only [ht, hb]
  cases hroom : findRoom db booking.room_id with
  | none =>
    simp only [Option.isSome_none, Bool.false_eq_true, and_false, if_false]
    rw [map_rooms_of_findRoom_none db booking.room_id _ hroom,
      map_rooms_of_findRoom_none db booking.room_id _ hroom]
    split_ifs <;> rfl
  | some room =>
    simp only [Option.isSome_some, and_true]
    split_ifs <;> rfl

theorem updateBookingStatus_findByPk (env : Env) (db : Db) (req : StatusUpdateRequest)
    (target : BookingStatus) (booking : Booking)
    (ht : validStatuses.lookup req.status = some target)
    (hb : findByPk db req.id = some booking) :
    findByPk (updateBookingStatus env db req).2 req.id =
      some (applyUpdateData env booking target booking) := by
  obtain ⟨_, hbookings⟩ := updateBookingStatus_bookings env db req target booking ht hb
  have hpres : ∀ b : Booking,
      (if b.booking_id = booking.booking_id then applyUpdateData env booking target b
        else b).booking_id = b.booking_id := by
    intro b
    split
    · exact applyUpdateData_booking_id env booking target b
    · rfl
  have := findByPk_map db req.id _ hpres (updateBookingStatus env db req).2.rooms
  rw [← hbookings] at this
  rw [this, hb]
  simp

theorem updateBookingStatus_unchanged (env : Env) (db : Db) (req : StatusUpdateRequest)
    (h : validStatuses.lookup req.status = none ∨ findByPk db req.id = none) :
    (updateBookingStatus env db req).2 = db := by
  unfold updateBookingStatus
  cases hl : validStatuses.lookup req.status with
  | none => rfl
  | some st =>
    rcases h with h | h
    · rw [hl] at h
      cases h
    · simp [h]

/-- C26: for a reservation that exists, `updateBookingStatus` with target
Checked_In gives it that status and the check-in time `now`, the check-out time
`now` plus its `duration_hours` hours (the source sets it when `duration_hours` is
not 0), and gives the rows of its room the status Occupied; with target Completed
it gives it that status and the check-out time `now`, keeps the check-in time, and
gives the room the status Dirty; with target Confirmed or Cancelled it sets the
status, keeps both times and leaves the rooms unchanged.  A target outside the
four names, or an id that no reservation has, leaves the tables unchanged. -/
theorem updateBookingStatus_side_effects (env : Env) (db : Db) (req : StatusUpdateRequest) :
    (∀ booking, findByPk db req.id = some booking →
      (req.status = "Checked_In" →
        (∃ updated, findByPk (updateBookingStatus env db req).2 req.id = some updated ∧
          updated.status = .Checked_In ∧ updated.check_in_time = env.now ∧
          (booking.duration_hours ≠ 0 →
            updated.check_out_time = env.now + booking.duration_hours * 3600000)) ∧
        (updateBookingStatus env db req).2.rooms =
          db.rooms.map (fun r =>
            if r.room_id = booking.room_id then { r with status := .Occupied } else r)) ∧
      (req.status = "Completed" →
        (∃ updated, findByPk (updateBookingStatus env db req).2 req.id = some updated ∧
          updated.status = .Completed ∧ updated.check_in_time = booking.check_in_time ∧
          updated.check_out_time = env.now) ∧
        (updateBookingStatus env db req).2.rooms =
          db.rooms.map (fun r =>
            if r.room_id = booking.room_id then { r with status := .Dirty } else r)) ∧
      (req.status = "Confirmed" ∨ req.status = "Cancelled" →
        (∃ updated, findByPk (updateBookingStatus env db req).2 req.id = some updated ∧
          (req.status = "Confirmed" → updated.status = .Confirmed) ∧
          (req.status = "Cancelled" → updated.status = .Cancelled) ∧
          updated.check_in_time = booking.check_in_time ∧
          updated.check_out_time = booking.check_out_time) ∧
        (updateBookingStatus env db req).2.rooms = db.rooms)) ∧
    (req.status ∉ ["Confirmed", "Checked_In", "Completed", "Cancelled"] ∨
        findByPk db req.id = none →
      (updateBookingStatus env db req).2 = db) := by
  constructor
  · intro booking hb
    refine ⟨fun hs => ?_, fun hs => ?_, fun hs => ?_⟩
    · have ht : validStatuses.lookup req.status = some .Checked_In := by
        rw [hs]
        rfl
      rw [updateBookingStatus_findByPk env db req _ booking ht hb,
        updateBookingStatus_rooms env db req _ booking ht hb]
      refine ⟨⟨_, rfl, applyUpdateData_status _ _ _ _, ?_, ?_⟩, rfl⟩
      · simp only [applyUpdateData]
        split <;> rfl
      · intro hd
        simp only [applyUpdateData]
        rw [if_pos hd]
        show env.now + booking.duration_hours * 60 * 60 * 1000 = _
        omega
    · have ht : validStatuses.lookup req.status = some .Completed := by
        rw [hs]
        rfl
      rw [updateBookingStatus_findByPk env db req _ booking ht hb,
        updateBookingStatus_rooms env db req _ booking ht hb]
      exact ⟨⟨_, rfl, rfl, rfl, rfl⟩, rfl⟩
    · rcases hs with hs | hs
      · have ht : validStatuses.lookup req.status = some .Confirmed := by
          rw [hs]
          rfl
        rw [updateBookingStatus_findByPk env db req _ booking ht hb,
          updateBookingStatus_rooms env db req _ booking ht hb]
        refine ⟨⟨_, rfl, fun _ => rfl, fun h => ?_, rfl, rfl⟩, rfl⟩
        rw [hs] at h
        exact absurd h (by decide)
      · have ht : validStatuses.lookup req.status = some .Cancelled := by
          rw [hs]
          rfl
        rw [updateBookingStatus_findByPk env db req _ booking ht hb,
          updateBookingStatus_rooms env db req _ booking ht hb]
        refine ⟨⟨_, rfl, fun h => ?_, fun _ => rfl, rfl, rfl⟩, rfl⟩
        rw [hs] at h
        exact absurd h (by decide)
  · intro h
    apply updateBookingStatus_unchanged
    rcases h with h | h
    · left
      rw [validStatuses_lookup]
      simp only [List.mem_cons, List.mem_singleton, List.not_mem_nil, or_false,
        not_or] at h
      rw [if_neg h.1, if_neg h.2.1, if_neg h.2.2.1, if_neg h.2.2.2]
    · right
      exact h

/-- C26, witnesses: checking in the Confirmed reservation 1 of `sampleDb` at 13:00
moves it to 13:00 to 16:00 and makes the room Occupied; an unknown target changes
nothing. -/
theorem updateBookingStatus_side_effects_witness :
    ((∃ updated, findByPk (updateBookingStatus afternoonEnv (sampleDb .Confirmed)
          { id := 1, status := "Checked_In" }).2 1 = some updated ∧
        updated.status = .Checked_In ∧ updated.check_in_time = 46800000 ∧
        updated.check_out_time = 57600000) ∧
      (updateBookingStatus afternoonEnv (sampleDb .Confirmed)
          { id := 1, status := "Checked_In" }).2.rooms =
        [{ sampleRoom with status := .Occupied }]) ∧
    (updateBookingStatus afternoonEnv (sampleDb .Confirmed)
        { id := 1, status := "Pending_Payment" }).2 = sampleDb .Confirmed :=
  by
  obtain ⟨⟨updated, h1, h2, h3, h4⟩, h5⟩ :=
    ((updateBookingStatus_side_effects afternoonEnv (sampleDb .Confirmed)
      { id := 1, status := "Checked_In" }).1 (sampleBooking .Confirmed) (by decide)).1 rfl
  exact ⟨⟨⟨updated, h1, h2, h3, h4 (by decide)⟩, h5⟩,
    (updateBookingStatus_side_effects afternoonEnv (sampleDb .Confirmed)
      { id := 1, status := "Pending_Payment" }).2 (Or.inl (by decide))⟩

theorem eq_of_booking_id_eq (db : Db) (h : BookingIdsUnique db) (a b : Booking)
    (ha : a ∈ db.bookings) (hb : b ∈ db.bookings) (hid : a.booking_id = b.booking_id) :
    a = b := by
  by_contra hne
  have hsymm : Symmetric fun a b : Booking => a.booking_id ≠ b.booking_id :=
    fun _ _ hxy => fun hyx => hxy hyx.symm
  exact List.Pairwise.forall hsymm h ha hb hne hid

theorem findByPk_mem (db : Db) (id : Nat) (b : Booking) (h : findByPk db id = some b) :
    b ∈ db.bookings :=
  List.mem_of_find?_eq_some h

/-- C25, the code at the failing inputs: neither front-desk operation looks at the
other reservations of the room.  With a Confirmed reservation of room 1 from 14:00
to 17:00, a 3-hour walk-in for room 1 at 13:00 is answered 200 and stored from
13:00 to 16:00.  With Confirmed reservations of room 1 from 08:00 to 11:00 and
from 14:00 to 17:00, a check-in of the first at 13:00 is answered 200 and moves it
to 13:00 to 16:00.  Both states before have their active reservations separated,
both states after do not. -/
theorem front_desk_operations_double_book :
    NoDoubleBooking (sampleDb .Confirmed) ∧
    (createWalkInBooking afternoonEnv (sampleDb .Confirmed)
      (sampleWalkIn none none)).1.status = 200 ∧
    (createWalkInBooking afternoonEnv (sampleDb .Confirmed)
        (sampleWalkIn none none)).2.bookings.map
      (fun b => (b.room_id, b.status, b.check_in_time, b.check_out_time)) =
      [(1, .Confirmed, 50400000, 61200000), (1, .Checked_In, 46800000, 57600000)] ∧
    ¬ NoDoubleBooking (createWalkInBooking afternoonEnv (sampleDb .Confirmed)
      (sampleWalkIn none none)).2 ∧
    NoDoubleBooking twoBookingsDb ∧
    (updateBookingStatus afternoonEnv twoBookingsDb
      { id := 1, status := "Checked_In" }).1.status = 200 ∧
    (updateBookingStatus afternoonEnv twoBookingsDb
        { id := 1, status := "Checked_In" }).2.bookings.map
      (fun b => (b.room_id, b.status, b.check_in_time, b.check_out_time)) =
      [(1, .Checked_In, 46800000, 57600000), (1, .Confirmed, 50400000, 61200000)] ∧
    ¬ NoDoubleBooking (updateBookingStatus afternoonEnv twoBookingsDb
      { id := 1, status := "Checked_In" }).2 := by
  decide

/-- When the window from `now` to `now` plus the duration is separated by the
30-minute buffer from every other active reservation of the same room, a check-in
through `updateBookingStatus` is answered 200 and keeps the active reservations
pairwise separated (booking ids being a primary key). -/
theorem updateBookingStatus_check_in_preserves_separation (env : Env) (db : Db)
    (req : StatusUpdateRequest) (booking : Booking)
    (hs : req.status = "Checked_In") (hb : findByPk db req.id = some booking)
    (hd : booking.duration_hours ≠ 0)
    (hids : BookingIdsUnique db) (hinv : NoDoubleBooking db)
    (hfree : ∀ other ∈ db.bookings, other.booking_id ≠ req.id →
      other.room_id = booking.room_id → isActiveStatus other.status = true →
      other.check_out_time + 30 * 60000 ≤ env.now ∨
        env.now + booking.duration_hours * 3600000 + 30 * 60000 ≤ other.check_in_time) :
    (updateBookingStatus env db req).1.status = 200 ∧
      NoDoubleBooking (updateBookingStatus env db req).2 := by
  have ht : validStatuses.lookup req.status = some .Checked_In := by
    rw [hs]
    rfl
  obtain ⟨hstatus, hbookings⟩ :=
    updateBookingStatus_bookings env db req .Checked_In booking ht hb
  refine ⟨hstatus, ?_⟩
  have hid := findByPk_booking_id db req.id booking hb
  have hmem := findByPk_mem db req.id booking hb
  have hupd : applyUpdateData env booking .Checked_In booking =
      { booking with status := .Checked_In, check_in_time := env.now,
                     check_out_time := env.now + booking.duration_hours * 60 * 60 * 1000 } := by
    simp only [applyUpdateData]
    rw [if_pos hd]
  have hsep : ∀ other ∈ db.bookings, other.booking_id ≠ booking.booking_id →
      (applyUpdateData env booking .Checked_In booking).room_id = other.room_id →
      isActiveStatus other.status = true →
      Separated (applyUpdateData env booking .Checked_In booking) other := by
    intro other hother hne hroom hact
    rw [hupd] at hroom ⊢
    have := hfree other hother (by rw [← hid]; exact hne) hroom.symm hact
    unfold Separated
    simp only
    omega
  unfold NoDoubleBooking
  rw [hbookings, List.pairwise_map]
  refine List.Pairwise.imp_of_mem ?_ (hinv.and hids)
  intro a b ha hbm hab
  obtain ⟨hR, hne⟩ := hab
  by_cases h1 : a.booking_id = booking.booking_id
  · have hab : a = booking := eq_of_booking_id_eq db hids a booking ha hmem h1
    have h2 : ¬ b.booking_id = booking.booking_id := fun h => hne (h1.trans h.symm)
    rw [if_pos h1, if_neg h2, hab]
    intro hroom _ hact
    exact hsep b hbm h2 hroom hact
  · by_cases h2 : b.booking_id = booking.booking_id
    · have hbb : b = booking := eq_of_booking_id_eq db hids b booking hbm hmem h2
      rw [if_neg h1, if_pos h2, hbb]
      intro hroom hact _
      exact (hsep a ha h1 hroom.symm hact).symm
    · rw [if_neg h1, if_neg h2]
      exact hR

/-- With the clock at 0, checking in the 08:00 reservation of `twoBookingsDb` moves
it to 00:00 to 03:00, well before the 14:00 one. -/
theorem updateBookingStatus_check_in_early :
    (updateBookingStatus sampleEnv twoBookingsDb
      { id := 1, status := "Checked_In" }).1.status = 200 ∧
    NoDoubleBooking (updateBookingStatus sampleEnv twoBookingsDb
      { id := 1, status := "Checked_In" }).2 :=
  updateBookingStatus_check_in_preserves_separation sampleEnv twoBookingsDb
    { id := 1, status := "Checked_In" }
    { sampleBooking .Confirmed with check_in_time := 28800000, check_out_time := 39600000 }
    rfl (by decide) (by decide) (by decide) (by decide) (by decide)

/-! ## Check-out time and duration -/

theorem timesConsistent_append (db after : Db) (b : Booking)
    (hafter : after.bookings = db.bookings ++ [b])
    (hid : b.booking_id = nextBookingId db) (hb : TimesConsistent b)
    (hinv : BookingIdsUnique db ∧ ∀ x ∈ db.bookings, TimesConsistent x) :
    BookingIdsUnique after ∧ ∀ x ∈ after.bookings, TimesConsistent x := by
  constructor
  · unfold BookingIdsUnique
    rw [hafter, List.pairwise_append]
    refine ⟨hinv.1, List.pairwise_singleton _ _, ?_⟩
    intro x hx y hy
    rw [List.mem_singleton] at hy
    have := booking_id_lt_nextBookingId db x hx
    rw [hy, hid]
    omega
  · intro x hx
    rw [hafter, List.mem_append, List.mem_singleton] at hx
    rcases hx with hx | hx
    · exact hinv.2 x hx
    · rw [hx]
      exact hb

theorem durationHours_ne_zero (duration : String) (h : duration ∈ validDurations) :
    durationHours duration ≠ 0 := by
  rcases durationHours_valid duration h with h | h | h | h <;> rw [h] <;> decide

theorem createCheckoutSession_times (env : Env) (db : Db) (req : CheckoutRequest)
    (hinv : BookingIdsUnique db ∧ ∀ x ∈ db.bookings, TimesConsistent x) :
    BookingIdsUnique (createCheckoutSession env db req).db ∧
      ∀ x ∈ (createCheckoutSession env db req).db.bookings, TimesConsistent x := by
  by_cases h : (createCheckoutSession env db req).response.status = 200
  · obtain ⟨p, lockedRoom, session, hprep, _, _, _, _, hbookings, _⟩ :=
      createCheckoutSession_created env db req h
    obtain ⟨_, hv, _, _, _, _, hdur, _⟩ := prepareBooking_ok env db req p hprep
    obtain ⟨_, hvalid, _, hout⟩ := validateRequest_ok env req _ hv
    refine timesConsistent_append db _ _ hbookings rfl ?_ hinv
    constructor
    · show durationHours p.duration ≠ 0
      rw [hdur]
      exact durationHours_ne_zero req.duration hvalid
    · show p.checkOutDateTime = p.checkInDateTime + durationHours p.duration * 3600000
      rw [hdur]
      exact hout
  · rw [createCheckoutSession_not_ok env db req h]
    exact hinv

theorem createWalkInBooking_times (env : Env) (db : Db) (req : WalkInRequest)
    (hinv : BookingIdsUnique db ∧ ∀ x ∈ db.bookings, TimesConsistent x) :
    BookingIdsUnique (createWalkInBooking env db req).2 ∧
      ∀ x ∈ (createWalkInBooking env db req).2.bookings, TimesConsistent x := by
  rcases createWalkInBooking_cases env db req with ⟨_, h⟩ | ⟨room, rate, hid, hroom, hrate⟩
  · rw [h]
    exact hinv
  · rw [createWalkInBooking_ok env db req room rate hid hroom hrate]
    refine timesConsistent_append db _ (walkInBooking env db req rate) rfl rfl ?_ hinv
    constructor
    · exact durationHours_ne_zero req.duration (baseRoomPrice_some room _ rate hrate).1
    · show env.now + durationHours req.duration * 60 * 60 * 1000 =
        env.now + durationHours req.duration * 3600000
      omega

theorem updateBookingStatus_times (env : Env) (db : Db) (req : StatusUpdateRequest)
    (hs : req.status ≠ "Completed")
    (hinv : BookingIdsUnique db ∧ ∀ x ∈ db.bookings, TimesConsistent x) :
    BookingIdsUnique (updateBookingStatus env db req).2 ∧
      ∀ x ∈ (updateBookingStatus env db req).2.bookings, TimesConsistent x := by
  cases ht : validStatuses.lookup req.status with
  | none =>
    rw [updateBookingStatus_unchanged env db req (Or.inl ht)]
    exact hinv
  | some target =>
    cases hb : findByPk db req.id with
    | none =>
      rw [updateBookingStatus_unchanged env db req (Or.inr hb)]
      exact hinv
    | some booking =>
      obtain ⟨_, hbookings⟩ := updateBookingStatus_bookings env db req target booking ht hb
      have hmem := findByPk_mem db req.id booking hb
      have htarget : target ≠ .Completed := by
        intro h
        rw [h, validStatuses_lookup] at ht
        split_ifs at ht <;> cases ht
      constructor
      · unfold BookingIdsUnique
        rw [hbookings, List.pairwise_map]
        refine List.Pairwise.imp ?_ hinv.1
        intro a b hab
        have hpres : ∀ x : Booking,
            (if x.booking_id = booking.booking_id then applyUpdateData env booking target x
              else x).booking_id = x.booking_id := by
          intro x
          split
          · exact applyUpdateData_booking_id env booking target x
          · rfl
        rw [hpres a, hpres b]
        exact hab
      · intro x hx
        rw [hbookings, List.mem_map] at hx
        obtain ⟨y, hy, hxy⟩ := hx
        by_cases hid : y.booking_id = booking.booking_id
        · have hyb : y = booking := eq_of_booking_id_eq db hinv.1 y booking hy hmem hid
          rw [if_pos hid, hyb] at hxy
          have hcons := hinv.2 booking hmem
          rw [← hxy]
          cases target with
          | Completed => exact absurd rfl htarget
          | Checked_In =>
            simp only [applyUpdateData]
            rw [if_pos hcons.1]
            refine ⟨hcons.1, ?_⟩
            show env.now + booking.duration_hours * 60 * 60 * 1000 =
              env.now + booking.duration_hours * 3600000
            omega
          | Pending_Payment => exact hcons
          | Confirmed => exact hcons
          | Cancelled => exact hcons
        · rw [if_neg hid] at hxy
          rw [← hxy]
          exact hinv.2 y hy

theorem reachableUncompleted_invariant (db : Db) (h : ReachableUncompleted db) :
    BookingIdsUnique db ∧ ∀ x ∈ db.bookings, TimesConsistent x := by
  induction h with
  | initial rooms =>
    exact ⟨List.Pairwise.nil, fun x hx => absurd hx (List.not_mem_nil x)⟩
  | web env req db _ ih => exact createCheckoutSession_times env db req ih
  | walkIn env req db _ ih => exact createWalkInBooking_times env db req ih
  | update env req db hs _ ih => exact updateBookingStatus_times env db req hs ih

/-- C23, the claim refuted: the state after a 3-hour walk-in at 00:00 and an
`updateBookingStatus` to Completed at 13:00 is reachable, and its reservation runs
from 00:00 to 13:00 with `duration_hours` 3. -/
theorem reachable_completed_breaks_times :
    Reachable (updateBookingStatus afternoonEnv
      (createWalkInBooking sampleEnv emptyDb (sampleWalkIn none none)).2
      { id := 1, status := "Completed" }).2 ∧
    (updateBookingStatus afternoonEnv
        (createWalkInBooking sampleEnv emptyDb (sampleWalkIn none none)).2
        { id := 1, status := "Completed" }).2.bookings.map
      (fun b => (b.status, b.check_in_time, b.check_out_time, b.duration_hours)) =
      [(.Completed, 0, 46800000, 3)] ∧
    ¬ ∀ b ∈ (updateBookingStatus afternoonEnv
        (createWalkInBooking sampleEnv emptyDb (sampleWalkIn none none)).2
        { id := 1, status := "Completed" }).2.bookings,
      b.check_out_time = b.check_in_time + b.duration_hours * 3600000 :=
  ⟨Reachable.update afternoonEnv { id := 1, status := "Completed" } _
      (Reachable.walkIn sampleEnv (sampleWalkIn none none) _
        (Reachable.initial [sampleRoom])),
    by decide, by decide⟩

/-- C23 as amended: in every state reachable through `createCheckoutSession`,
`createWalkInBooking` and `updateBookingStatus` with a target other than Completed,
every reservation has `check_out_time = check_in_time + duration_hours` hours and
a `duration_hours` that is not 0.  (An update to Completed sets `check_out_time`
to the actual time `now` and keeps `check_in_time` and `duration_hours`.) -/
theorem reachable_uncompleted_times_consistent (db : Db) (h : ReachableUncompleted db) :
    ∀ b ∈ db.bookings,
      b.check_out_time = b.check_in_time + b.duration_hours * 3600000 ∧
        b.duration_hours ≠ 0 :=
  fun b hb =>
    ⟨((reachableUncompleted_invariant db h).2 b hb).2,
      ((reachableUncompleted_invariant db h).2 b hb).1⟩

/-- C23 as amended, witness: the state after a web booking for 14:00, a walk-in
and a check-in of the web booking at 13:00. -/
theorem reachable_uncompleted_times_consistent_witness :
    (updateBookingStatus afternoonEnv
        (createWalkInBooking sampleEnv
          (createCheckoutSession sampleEnv emptyDb (sampleRequest "14:00" 0 .absent)).db
          { sampleWalkIn none none with duration := "6" }).2
        { id := 1, status := "Checked_In" }).2.bookings.length = 2 ∧
    ∀ b ∈ (updateBookingStatus afternoonEnv
        (createWalkInBooking sampleEnv
          (createCheckoutSession sampleEnv emptyDb (sampleRequest "14:00" 0 .absent)).db
          { sampleWalkIn none none with duration := "6" }).2
        { id := 1, status := "Checked_In" }).2.bookings,
      b.check_out_time = b.check_in_time + b.duration_hours * 3600000 ∧
        b.duration_hours ≠ 0 :=
  ⟨by decide,
    reachable_uncompleted_times_consistent _
      (ReachableUncompleted.update afternoonEnv { id := 1, status := "Checked_In" } _
        (by decide)
        (ReachableUncompleted.walkIn sampleEnv { sampleWalkIn none none with duration := "6" } _
          (ReachableUncompleted.web sampleEnv (sampleRequest "14:00" 0 .absent) _
            (ReachableUncompleted.initial [sampleRoom]))))⟩

/-! ## Child ages: the parser -/

theorem decimalDigit_facts (d : Nat) (h : d < 10) :
    digitValue 10 (decimalDigit d) = some d ∧ isJsWhiteSpace (decimalDigit d) = false ∧
      decimalDigit d ≠ ',' ∧ decimalDigit d ≠ '-' ∧ decimalDigit d ≠ '+' ∧
      decimalDigit d ≠ 'x' ∧ decimalDigit d ≠ 'X' := by
  interval_cases d <;> decide

theorem decimalAux_mem (fuel n : Nat) (acc : List Char) (c : Char)
    (h : c ∈ decimalAux fuel n acc) : c ∈ acc ∨ ∃ d, d < 10 ∧ c = decimalDigit d := by
  induction fuel generalizing n acc with
  | zero => exact Or.inl h
  | succ fuel ih =>
    have hd : n % 10 < 10 := Nat.mod_lt n (by decide)
    unfold decimalAux at h
    split_ifs at h
    · rcases List.mem_cons.mp h with h | h
      · exact Or.inr ⟨n % 10, hd, h⟩
      · exact Or.inl h
    · rcases ih (n / 10) _ h with h | h
      · rcases List.mem_cons.mp h with h | h
        · exact Or.inr ⟨n % 10, hd, h⟩
        · exact Or.inl h
      · exact Or.inr h

theorem decimalAux_ne_nil (fuel n : Nat) (acc : List Char) (h : acc ≠ []) :
    decimalAux fuel n acc ≠ [] := by
  induction fuel generalizing n acc with
  | zero => exact h
  | succ fuel ih =>
    unfold decimalAux
    split_ifs
    · exact List.cons_ne_nil _ _
    · exact ih _ _ (List.cons_ne_nil _ _)

theorem decimal_ne_nil (n : Nat) : decimal n ≠ [] := by
  unfold decimal decimalAux
  split_ifs
  · exact List.cons_ne_nil _ _
  · exact decimalAux_ne_nil _ _ _ (List.cons_ne_nil _ _)

theorem decimal_mem (n : Nat) (c : Char) (h : c ∈ decimal n) :
    ∃ d, d < 10 ∧ c = decimalDigit d := by
  rcases decimalAux_mem _ _ _ c h with h | h
  · exact absurd h (List.not_mem_nil c)
  · exact h

theorem readDigits_decimalAux (fuel n : Nat) (acc : List Char) (h : n < fuel) :
    ∃ k, 0 < k ∧ ∀ a count, readDigits 10 (decimalAux fuel n acc) a count =
      readDigits 10 acc (a * 10 ^ k + n) (count + k) := by
  induction fuel generalizing n acc with
  | zero => exact absurd h (Nat.not_lt_zero n)
  | succ fuel ih =>
    have hd : n % 10 < 10 := Nat.mod_lt n (by decide)
    have hdigit := (decimalDigit_facts (n % 10) hd).1
    unfold decimalAux
    split_ifs with h0
    · refine ⟨1, Nat.one_pos, fun a count => ?_⟩
      have hn : n % 10 = n := by omega
      rw [hn] at hdigit
      simp only [readDigits, hdigit, pow_one, hn]
    · have hlt : n / 10 < fuel := by omega
      obtain ⟨k, hk, hread⟩ := ih (n / 10) (decimalDigit (n % 10) :: acc) hlt
      refine ⟨k + 1, Nat.succ_pos k, fun a count => ?_⟩
      rw [hread]
      simp only [readDigits, hdigit]
      have : (a * 10 ^ k + n / 10) * 10 + n % 10 = a * 10 ^ (k + 1) + n := by
        rw [pow_succ]
        have := Nat.div_add_mod n 10
        nlinarith
      rw [this]
      rfl

theorem readDigits_decimal (n : Nat) :
    ∃ k, 0 < k ∧ readDigits 10 (decimal n) 0 0 = (n, k) := by
  obtain ⟨k, hk, hread⟩ := readDigits_decimalAux (n + 1) n [] (Nat.lt_succ_self n)
  refine ⟨k, hk, ?_⟩
  unfold decimal
  rw [hread]
  simp [readDigits]

theorem parseInt_of_digits (s : List Char) (hne : s ≠ [])
    (hall : ∀ c ∈ s, ∃ d, d < 10 ∧ c = decimalDigit d)
    (hr : (readDigits 10 s 0 0).2 ≠ 0) :
    parseInt s = some ((readDigits 10 s 0 0).1 : Int) := by
  cases s with
  | nil => exact absurd rfl hne
  | cons c rest =>
    obtain ⟨d, hd, hc⟩ := hall c (List.mem_cons_self _ _)
    obtain ⟨_, hws, _, hminus, hplus, _, _⟩ := decimalDigit_facts d hd
    rw [← hc] at hws hminus hplus
    have hdrop : (c :: rest).dropWhile isJsWhiteSpace = c :: rest := by
      rw [List.dropWhile_cons, hws]
      rfl
    have hhex : ∀ x : Char, x = 'x' ∨ x = 'X' → ((c :: rest).take 2 == ['0', x]) = false := by
      intro x hx
      cases rest with
      | nil => simp
      | cons c2 r =>
        obtain ⟨d2, hd2, hc2⟩ := hall c2 (List.mem_cons_of_mem _ (List.mem_cons_self _ _))
        obtain ⟨_, _, _, _, _, hx1, hx2⟩ := decimalDigit_facts d2 hd2
        rw [← hc2] at hx1 hx2
        have : c2 ≠ x := by
          rcases hx with hx | hx <;> rw [hx] <;> assumption
        simp [this]
    have hm : (some c == some '-') = false := by simp [hminus]
    have hp : (some c == some '+') = false := by simp [hplus]
    unfold parseInt
    simp only [hdrop, List.head?_cons, hm, hp, Bool.or_self, Bool.false_eq_true, if_false,
      hhex 'x' (Or.inl rfl), hhex 'X' (Or.inr rfl), if_neg hr]

theorem parseInt_decimal (n : Nat) : parseInt (decimal n) = some (n : Int) := by
  obtain ⟨k, hk, hread⟩ := readDigits_decimal n
  rw [parseInt_of_digits (decimal n) (decimal_ne_nil n) (decimal_mem n), hread]
  rw [hread]
  exact Nat.pos_iff_ne_zero.mp hk

theorem dropWhile_whitespace_digits (s : List Char) (t : List Char) (hne : s ≠ [])
    (hall : ∀ c ∈ s, ∃ d, d < 10 ∧ c = decimalDigit d) :
    (s ++ t).dropWhile isJsWhiteSpace = s ++ t := by
  cases s with
  | nil => exact absurd rfl hne
  | cons c rest =>
    obtain ⟨d, hd, hc⟩ := hall c (List.mem_cons_self _ _)
    have hws := (decimalDigit_facts d hd).2.1
    rw [← hc] at hws
    rw [List.cons_append, List.dropWhile_cons, hws]
    rfl

theorem dropWhile_whitespace_spaces (k : Nat) (t : List Char) :
    (List.replicate k ' ' ++ t).dropWhile isJsWhiteSpace = t.dropWhile isJsWhiteSpace := by
  induction k with
  | zero => rfl
  | succ k ih =>
    rw [List.replicate_succ, List.cons_append, List.dropWhile_cons]
    have : isJsWhiteSpace ' ' = true := by decide
    rw [if_pos this, ih]

theorem jsTrim_padded (before after : Nat) (s : List Char) (hne : s ≠ [])
    (hall : ∀ c ∈ s, ∃ d, d < 10 ∧ c = decimalDigit d) :
    jsTrim (List.replicate before ' ' ++ s ++ List.replicate after ' ') = s := by
  unfold jsTrim
  rw [List.append_assoc, dropWhile_whitespace_spaces,
    dropWhile_whitespace_digits s _ hne hall, List.reverse_append, List.reverse_replicate,
    dropWhile_whitespace_spaces,
    ← List.append_nil s.reverse,
    dropWhile_whitespace_digits s.reverse [] (by simpa using hne)
      (fun c hc => hall c (List.mem_reverse.mp hc)),
    List.append_nil, List.reverse_reverse]

theorem parseInt_jsTrim_paddedDecimal (before n after : Nat) :
    parseInt (jsTrim (paddedDecimal before n after).data) = some (n : Int) := by
  unfold paddedDecimal
  rw [jsTrim_padded before after (decimal n) (decimal_ne_nil n) (decimal_mem n)]
  exact parseInt_decimal n

theorem splitComma_ne_nil (cs : List Char) : splitComma cs ≠ [] := by
  cases cs with
  | nil => simp [splitComma]
  | cons c cs =>
    unfold splitComma
    split
    · simp
    · split_ifs <;> simp

theorem splitComma_commaTail (as : List (List Char)) (has : ∀ a ∈ as, ',' ∉ a)
    (p : List Char) (hp : ',' ∉ p) : splitComma (p ++ commaTail as) = p :: as := by
  induction as generalizing p with
  | nil =>
    induction p with
    | nil => rfl
    | cons c p ih =>
      have hc : c ≠ ',' := fun h => hp (by rw [h]; exact List.mem_cons_self _ _)
      have hp2 : ',' ∉ p := fun h => hp (List.mem_cons_of_mem _ h)
      have := ih hp2
      rw [List.cons_append, splitComma, this]
      simp only [if_neg hc]
  | cons a as iha =>
    have ha : ',' ∉ a := has a (List.mem_cons_self _ _)
    have has2 : ∀ x ∈ as, ',' ∉ x := fun x hx => has x (List.mem_cons_of_mem _ hx)
    induction p with
    | nil =>
      have := iha has2 a ha
      rw [show [] ++ commaTail (a :: as) = ',' :: (a ++ commaTail as) from rfl, splitComma,
        this]
      simp only [if_true]
    | cons c p ih =>
      have hc : c ≠ ',' := fun h => hp (by rw [h]; exact List.mem_cons_self _ _)
      have hp2 : ',' ∉ p := fun h => hp (List.mem_cons_of_mem _ h)
      have := ih hp2
      rw [List.cons_append, splitComma, this]
      simp only [if_neg hc]

theorem intercalate_go_data (as : List String) (acc : String) :
    (String.intercalate.go acc "," as).data =
      acc.data ++ commaTail (as.map fun a => a.data) := by
  induction as generalizing acc with
  | nil => simp [String.intercalate.go, commaTail]
  | cons a as ih =>
    rw [String.intercalate.go, ih]
    simp [String.data_append, commaTail]

theorem filterMap_parseInt_filter (l : List (List Char)) :
    (l.filter fun s => s != []).filterMap parseInt = l.filterMap parseInt := by
  rw [List.filterMap_filter]
  apply List.filterMap_congr
  intro x _
  by_cases hx : x = []
  · subst hx
    rfl
  · simp [hx]

theorem parseChildAges_intercalate (items : List String)
    (h : ∀ s ∈ items, ',' ∉ s.data) :
    parseChildAges (",".intercalate items) =
      items.filterMap fun s => parseInt (jsTrim s.data) := by
  cases items with
  | nil => rfl
  | cons a as =>
    have hsplit : splitComma (",".intercalate (a :: as)).data =
        (a :: as).map fun s => s.data := by
      rw [String.intercalate, intercalate_go_data]
      rw [splitComma_commaTail _ _ a.data (h a (List.mem_cons_self _ _))]
      · rfl
      · intro x hx
        rw [List.mem_map] at hx
        obtain ⟨s, hs, hxs⟩ := hx
        rw [← hxs]
        exact h s (List.mem_cons_of_mem _ hs)
    unfold parseChildAges
    rw [hsplit, filterMap_parseInt_filter, List.map_map, List.filterMap_map]
    rfl

/-- C29, the claim refuted: the element `7abc` is not numeric, yet it is not
dropped but read as 7, because `parseInt` reads the digits a text starts with;
likewise `3.9` is read as 3 and `0x1F` as 31. -/
theorem parseChildAges_keeps_numeric_prefix :
    isDecimalString "7abc" = false ∧
    parseChildAges (ChildAgesInput.array ["8", "7abc", "12"]).rawString = [8, 7, 12] ∧
    parseChildAges (ChildAgesInput.text "8, 3.9, 0x1F").rawString = [8, 3, 31] := by
  decide

/-- C29 as amended: for every list `xs` of non-negative integers up to
`Number.MAX_SAFE_INTEGER`, the parser returns exactly `xs` when given `xs` as an
array of numbers or of their decimal strings (both are joined to the same text),
and when given their comma-joined text with any number of spaces around each
element.  In general an array whose elements contain no comma is read element by
element: each is trimmed and handed to `parseInt`, the elements for which
`parseInt` yields `NaN` are dropped, every other element is read as the integer it
starts with, and the order is kept.  The two inputs of the test are read as the
test expects. -/
theorem parseChildAges_round_trip :
    (∀ xs : List Nat, (∀ n ∈ xs, n ≤ MAX_SAFE_INTEGER) →
      parseChildAges
          (ChildAgesInput.array (xs.map fun n => String.mk (decimal n))).rawString =
        xs.map Int.ofNat) ∧
    (∀ pieces : List (Nat × Nat × Nat), (∀ p ∈ pieces, p.2.1 ≤ MAX_SAFE_INTEGER) →
      parseChildAges
          (ChildAgesInput.text
            (",".intercalate
              (pieces.map fun p => paddedDecimal p.1 p.2.1 p.2.2))).rawString =
        pieces.map fun p => Int.ofNat p.2.1) ∧
    (∀ items : List String, (∀ s ∈ items, ',' ∉ s.data) →
      parseChildAges (ChildAgesInput.array items).rawString =
        items.filterMap fun s => parseInt (jsTrim s.data)) ∧
    parseChildAges (ChildAgesInput.text "8, 12").rawString = [8, 12] ∧
    parseChildAges (ChildAgesInput.array ["8", "abc", "12"]).rawString = [8, 12] := by
  have hpad : ∀ p : Nat × Nat × Nat, ',' ∉ (paddedDecimal p.1 p.2.1 p.2.2).data := by
    intro p hmem
    unfold paddedDecimal at hmem
    simp only [List.mem_append, List.mem_replicate] at hmem
    rcases hmem with (⟨_, h⟩ | h) | ⟨_, h⟩
    · exact absurd h (by decide)
    · obtain ⟨d, hd, hc⟩ := decimal_mem _ _ h
      exact (decimalDigit_facts d hd).2.2.1 hc.symm
    · exact absurd h (by decide)
  have hpieces : ∀ pieces : List (Nat × Nat × Nat),
      parseChildAges (",".intercalate (pieces.map fun p => paddedDecimal p.1 p.2.1 p.2.2)) =
        pieces.map fun p => Int.ofNat p.2.1 := by
    intro pieces
    rw [parseChildAges_intercalate, List.filterMap_map]
    · rw [← List.filterMap_eq_map]
      apply List.filterMap_congr
      intro p _
      exact parseInt_jsTrim_paddedDecimal p.1 p.2.1 p.2.2
    · intro s hs
      rw [List.mem_map] at hs
      obtain ⟨p, _, hp⟩ := hs
      rw [← hp]
      exact hpad p
  refine ⟨fun xs _ => ?_, fun pieces _ => hpieces pieces,
    fun items h => parseChildAges_intercalate items h, by decide, by decide⟩
  have := hpieces (xs.map fun n => (0, n, 0))
  simp only [List.map_map] at this
  have hfun : ((fun p : Nat × Nat × Nat => paddedDecimal p.1 p.2.1 p.2.2) ∘
      fun n => (0, n, 0)) = fun n => String.mk (decimal n) := by
    funext n
    simp [paddedDecimal]
  rw [hfun] at this
  exact this

/-- C29 as amended, witnesses: the array of the numbers 5, 9, 11 (test `Three
values`), the text `8 , 12` with spaces on both sides of the comma, and an array
with an element that `parseInt` cannot read. -/
theorem parseChildAges_round_trip_witness :
    parseChildAges (ChildAgesInput.array ["5", "9", "11"]).rawString = [5, 9, 11] ∧
    parseChildAges (ChildAgesInput.text "8 , 12").rawString = [8, 12] ∧
    parseChildAges (ChildAgesInput.array ["8", "abc", " 12 "]).rawString = [8, 12] :=
  ⟨parseChildAges_round_trip.1 [5, 9, 11] (by decide),
    parseChildAges_round_trip.2.1 [(0, 8, 1), (1, 12, 0)] (by decide),
    parseChildAges_round_trip.2.2.1 ["8", "abc", " 12 "] (by decide)⟩

end BalaiAlmeda
